import Mathlib

/-!
FruitLife sensor platform (`projeto-final.c`): button handler and main loop

Shallow embedding of the interrupt handler `button_callback` and of the body
of the `while (true)` loop of `main`: sampler, accumulators, classification,
OLED text (`update_display`), indicator colour, motor levels, face and beep.

Modelling conventions

* The `volatile` globals written by the handler are the fields of `Globals`.
* `uint32_t` times are naturals; the only arithmetic on them, the subtraction
  of line 274, is taken modulo `2 ^ 32` (`sub32`).
* `int` globals (`menu_index`, `current_set_param`) are integers; `%` on them
  is C's truncating remainder `Int.tmod`.
* `float` values are the rationals they denote; comparisons are the
  comparisons of the values.  The rounding applied after each `float`
  operation is a parameter `rnd`: `round32` is IEEE 754 binary32
  round-to-nearest-even, `id` is exact arithmetic.  The sampler, the
  accumulators, `button_callback_rnd` and `pwm_set_chan_level_calls_rnd` take
  `rnd`; `button_callback`, `motor_pwm` and `pwm_set_chan_level_calls` are their
  instances in exact arithmetic (`rnd = id`), used where the statement does not
  depend on the value a `float` operation returns or is about exact values.
  Overflow to infinity and NaN have no value in this model; where the source
  can produce them the definition says so and returns `none`.
* `char status[32]` is a `String`; `strcmp (a, b) == 0` is `a = b`.
* The globals are read once per loop iteration (no interrupt in the middle of
  an iteration).
* `atualizar_exibicao` is never written with `true`, so every loop iteration
  runs the sampling branch (lines 544-727).
-/

namespace ProjetoFinal

/-! ## Constants -/

/-- Button pin, line 62. -/
def BUTTON_NEXT : Nat := 5

/-- Button pin, line 63. -/
def BUTTON_BACK : Nat := 6

/-- Button pin, line 64. -/
def BUTTON_SET : Nat := 22

/-- Debounce window in milliseconds, line 110. -/
def DEBOUNCE_DELAY_MS : Nat := 200

/-- Event bit of a falling edge.  The value is the one of the Pico SDK header
`hardware/gpio.h` (`GPIO_IRQ_EDGE_FALL = 0x4u`), which is not part of the
repository. -/
def GPIO_IRQ_EDGE_FALL : Nat := 4

/-! ## Handler state -/

/-- The globals of lines 113-124. -/
structure Globals where
  menu_index : Int
  last_button_interrupt_time : Nat
  in_set_mode : Bool
  current_set_param : Int
  etileno_lower : ℚ
  etileno_upper : ℚ
  temp_lower : ℚ
  temp_upper : ℚ
  umidade_set : ℚ
  co2_set : ℚ
deriving DecidableEq

/-- Initial values of the globals, lines 113-124. -/
def Globals.init : Globals where
  menu_index := 0
  last_button_interrupt_time := 0
  in_set_mode := false
  current_set_param := 0
  etileno_lower := 3
  etileno_upper := 7
  temp_lower := 10
  temp_upper := 15
  umidade_set := 90
  co2_set := 800

/-- Subtraction of two `uint32_t` values (wraps modulo `2 ^ 32`). -/
def sub32 (a b : Nat) : Nat :=
  (a % 2 ^ 32 + 2 ^ 32 - b % 2 ^ 32) % 2 ^ 32

/-- The test `events & GPIO_IRQ_EDGE_FALL` of lines 277-345 (non-zero is true). -/
def edge_fall (events : Nat) : Bool :=
  events &&& GPIO_IRQ_EDGE_FALL != 0

/-- The handler `button_callback`, lines 272-350.  `current_time` is the value
returned by `to_ms_since_boot (get_absolute_time ())` on line 273.  The steps
of lines 298-327 are exact here; `button_callback_rnd` rounds them, and differs
from this definition in the value of the stepped setpoint only. -/
def button_callback (g : Globals) (gpio events current_time : Nat) : Globals :=
  if sub32 current_time g.last_button_interrupt_time < DEBOUNCE_DELAY_MS then g
  else
    let g := { g with last_button_interrupt_time := current_time }
    if gpio = BUTTON_SET ∧ edge_fall events then
      if !g.in_set_mode then
        { g with in_set_mode := true, current_set_param := 0 }
      else if g.menu_index = 0 ∨ g.menu_index = 1 then
        if g.current_set_param = 0 then { g with current_set_param := 1 }
        else { g with in_set_mode := false }
      else { g with in_set_mode := false }
    else if g.in_set_mode then
      if gpio = BUTTON_NEXT ∧ edge_fall events then
        if g.menu_index = 0 then
          if g.current_set_param = 0 then
            { g with etileno_lower := g.etileno_lower + 1 / 10 }
          else { g with etileno_upper := g.etileno_upper + 1 / 10 }
        else if g.menu_index = 1 then
          if g.current_set_param = 0 then
            { g with temp_lower := g.temp_lower + 1 / 2 }
          else { g with temp_upper := g.temp_upper + 1 / 2 }
        else if g.menu_index = 2 then { g with umidade_set := g.umidade_set + 1 }
        else if g.menu_index = 3 then { g with co2_set := g.co2_set + 50 }
        else g
      else if gpio = BUTTON_BACK ∧ edge_fall events then
        if g.menu_index = 0 then
          if g.current_set_param = 0 then
            { g with etileno_lower := g.etileno_lower - 1 / 10 }
          else { g with etileno_upper := g.etileno_upper - 1 / 10 }
        else if g.menu_index = 1 then
          if g.current_set_param = 0 then
            { g with temp_lower := g.temp_lower - 1 / 2 }
          else { g with temp_upper := g.temp_upper - 1 / 2 }
        else if g.menu_index = 2 then { g with umidade_set := g.umidade_set - 1 }
        else if g.menu_index = 3 then { g with co2_set := g.co2_set - 50 }
        else g
      else if gpio = BUTTON_NEXT ∧ edge_fall events then
        { g with menu_index := (g.menu_index + 1).tmod 5 }
      else if gpio = BUTTON_BACK ∧ edge_fall events then
        { g with menu_index := (g.menu_index + 4).tmod 5 }
      else g
    else
      if gpio = BUTTON_NEXT ∧ edge_fall events then
        { g with menu_index := (g.menu_index + 1).tmod 5 }
      else if gpio = BUTTON_BACK ∧ edge_fall events then
        { g with menu_index := (g.menu_index + 4).tmod 5 }
      else g

/-! ## Main loop: classification, face and beep -/

/-- The four measurements of one loop iteration, lines 547-556. -/
structure Medidas where
  medida_etileno : ℚ
  medida_temp : ℚ
  medida_umidade : ℚ
  medida_co2 : ℚ

/-- The variable `valor_medido` after lines 565-603: initialised to `0.0f` and
overwritten with the measurement of the displayed channel. -/
def valor_medido (g : Globals) (m : Medidas) : ℚ :=
  if g.menu_index = 0 then m.medida_etileno
  else if g.menu_index = 1 then m.medida_temp
  else if g.menu_index = 2 then m.medida_umidade
  else if g.menu_index = 3 then m.medida_co2
  else 0

/-- The buffer `status` after lines 566-603.  `status0` stands for what the
uninitialised buffer holds on entry; it is what remains when no branch writes
(`menu_index` outside `0..3`). -/
def status (g : Globals) (m : Medidas) (status0 : String) : String :=
  if g.menu_index = 0 then
    if valor_medido g m < g.etileno_lower then "Normal"
    else if valor_medido g m < g.etileno_upper then "Amadurec. rapido"
    else "Apodrecendo"
  else if g.menu_index = 1 then
    if valor_medido g m ≥ g.temp_lower ∧ valor_medido g m ≤ g.temp_upper then "Ideal"
    else if valor_medido g m > g.temp_upper ∧ valor_medido g m ≤ g.temp_upper + 5 then
      "Levemente alto"
    else if valor_medido g m < g.temp_lower then "Frio"
    else "Critico"
  else if g.menu_index = 2 then
    if valor_medido g m ≥ g.umidade_set then "Ideal" else "Baixa"
  else if g.menu_index = 3 then
    if valor_medido g m ≤ g.co2_set then "Ideal" else "Alto"
  else status0

/-- The argument of the call of `atualizar_buffer_com_carinha` made on lines
694-724, `none` when the iteration makes no such call (`menu_index` outside
`0..3`). -/
def carinha (g : Globals) (m : Medidas) : Option Int :=
  if g.menu_index = 0 then
    if valor_medido g m < g.etileno_lower then some 0
    else if valor_medido g m ≥ g.etileno_upper then some 1
    else some 0
  else if g.menu_index = 1 then
    if valor_medido g m ≥ g.temp_lower ∧ valor_medido g m ≤ g.temp_upper then some 0
    else some 1
  else if g.menu_index = 2 then
    if valor_medido g m ≥ g.umidade_set then some 0 else some 1
  else if g.menu_index = 3 then
    if valor_medido g m ≤ g.co2_set then some 0 else some 1
  else none

/-- Whether the iteration calls `beep ()` on lines 694-724. -/
def beep (g : Globals) (m : Medidas) (status0 : String) : Bool :=
  if g.menu_index = 0 then decide (valor_medido g m ≥ g.etileno_upper)
  else if g.menu_index = 1 then status g m status0 != "Ideal"
  else if g.menu_index = 2 then status g m status0 != "Ideal"
  else if g.menu_index = 3 then status g m status0 != "Ideal"
  else false

/-! ## Main loop: indicator colour and motor levels -/

/-- LED pin, line 75. -/
def R_LED_PIN : Nat := 13

/-- LED pin, line 76. -/
def G_LED_PIN : Nat := 11

/-- LED pin, line 77. -/
def B_LED_PIN : Nat := 12

/-- Counter wrap of the PWM slices and scale of the motor level, line 78. -/
def PWM_WRAP : ℚ := 255

/-- The arguments of the call of `set_rgb_color` made on lines 624-636, `none`
when the iteration makes no such call (`menu_index` other than 0 and 3). -/
def set_rgb_color_call (g : Globals) (m : Medidas) (status0 : String) :
    Option (Nat × Nat × Nat) :=
  if g.menu_index = 0 then
    if valor_medido g m < g.etileno_lower then some (0, 255, 0)
    else if valor_medido g m < g.etileno_upper then some (255, 165, 0)
    else some (255, 0, 0)
  else if g.menu_index = 3 then
    if status g m status0 = "Ideal" then some (0, 255, 0) else some (255, 0, 0)
  else none

/-- The variable `motor_pwm` after `(erro / max_error) * PWM_WRAP` and the clamp
`if (motor_pwm > PWM_WRAP) motor_pwm = PWM_WRAP` (lines 652-653, 666-667,
685-686).  With `max_error = 0` the quotient of a positive `erro` is `+∞`,
which the clamp replaces by `PWM_WRAP`; the quotient of a zero or negative
`erro` is NaN or `-∞`, which the clamp leaves, and the result is `none`.  The
quotient and the product are exact here; `motor_pwm_rnd` rounds them. -/
def motor_pwm (erro max_error : ℚ) : Option ℚ :=
  if max_error = 0 then
    if erro > 0 then some PWM_WRAP else none
  else if erro / max_error * PWM_WRAP > PWM_WRAP then some PWM_WRAP
  else some (erro / max_error * PWM_WRAP)

/-- The conversion `(uint16_t) x` of a `float`: the value is truncated toward
zero; the conversion is undefined (`none`) when the truncated value is not in
`0..65535`. -/
def float_to_uint16 (x : ℚ) : Option Nat :=
  if 0 ≤ Int.tdiv x.num x.den ∧ Int.tdiv x.num x.den ≤ 65535 then
    some (Int.tdiv x.num x.den).toNat
  else none

/-- The calls `pwm_set_chan_level (slice, channel, level)` made by lines 638-691,
in order, each as the pin whose slice and channel are addressed and the level
passed (`none` when the level is the result of an undefined conversion), with
`erro` and `motor_pwm` in exact arithmetic; `pwm_set_chan_level_calls_rnd` is
the same with every operation rounded. -/
def pwm_set_chan_level_calls (g : Globals) (m : Medidas) : List (Nat × Option Nat) :=
  if g.menu_index = 1 then
    if valor_medido g m ≥ g.temp_lower ∧ valor_medido g m ≤ g.temp_upper then
      [(R_LED_PIN, some 0), (B_LED_PIN, some 0)]
    else if valor_medido g m < g.temp_lower then
      [(R_LED_PIN, (motor_pwm (g.temp_lower - valor_medido g m) g.temp_lower).bind
          float_to_uint16),
       (B_LED_PIN, some 0)]
    else
      [(B_LED_PIN, (motor_pwm (valor_medido g m - g.temp_upper) 10).bind float_to_uint16),
       (R_LED_PIN, some 0)]
  else if g.menu_index = 2 then
    if valor_medido g m ≥ g.umidade_set then [(R_LED_PIN, float_to_uint16 0)]
    else
      [(R_LED_PIN, (motor_pwm (g.umidade_set - valor_medido g m) 50).bind float_to_uint16)]
  else []

/-! ## Binary32 rounding -/

/-- The integer nearest to `n / d`, ties going to the even one. -/
def round_half_even (n d : Nat) : Nat :=
  if 2 * (n % d) < d then n / d
  else if d < 2 * (n % d) then n / d + 1
  else if (n / d) % 2 = 0 then n / d else n / d + 1

/-- Number of binary digits of `n`, by halving at most `fuel` times
(`bit_length n n` is the number of digits of `n`). -/
def bit_length : Nat → Nat → Nat
  | 0, _ => 0
  | fuel + 1, n => if n = 0 then 0 else bit_length fuel (n / 2) + 1

/-- The binary32 exponent of `p / q` for positive `p` and `q`: the `e` with
`2 ^ e ≤ p / q < 2 ^ (e + 1)`, and `-126` (the exponent of the subnormal
numbers) when that `e` is smaller. -/
def expoente (p q : Nat) : Int :=
  max
    (if p * 2 ^ ((bit_length q q : Int) - (bit_length p p : Int)).toNat <
        q * 2 ^ ((bit_length p p : Int) - (bit_length q q : Int)).toNat
      then (bit_length p p : Int) - (bit_length q q : Int) - 1
      else (bit_length p p : Int) - (bit_length q q : Int))
    (-126)

/-- Rounding of a rational to IEEE 754 binary32 (24-bit significand), to nearest
with ties to even: `x` is divided by the unit in the last place
`2 ^ (expoente - 23)`, rounded to an integer and scaled back.  Results of
magnitude `2 ^ 128` or more (overflow to infinity) are not modelled. -/
def round32 (x : ℚ) : ℚ :=
  mkRat
    (x.num.sign *
      (round_half_even
          (x.num.natAbs * 2 ^ (23 - expoente x.num.natAbs x.den).toNat)
          (x.den * 2 ^ (expoente x.num.natAbs x.den - 23).toNat) *
        2 ^ (expoente x.num.natAbs x.den - 23).toNat : Nat))
    (2 ^ (23 - expoente x.num.natAbs x.den).toNat)

/-! ## Main loop: sampler and accumulators -/

/-- One measurement, lines 547, 551, 552 and 556: `(adc / 4095.0f) * escala`,
with the conversion of `adc` to `float` and the two operations each followed
by the rounding `rnd`. -/
def medida (rnd : ℚ → ℚ) (adc : Int) (escala : ℚ) : ℚ :=
  rnd (rnd (rnd adc / 4095) * escala)

/-- The four measurements of lines 545-556 from the three results of `adc_read`
(lines 546, 550 and 555). -/
def amostra (rnd : ℚ → ℚ) (adc_etileno adc_umidade adc_co2 : Int) : Medidas where
  medida_etileno := medida rnd adc_etileno 10
  medida_temp := medida rnd adc_umidade 40
  medida_umidade := medida rnd adc_umidade 100
  medida_co2 := medida rnd adc_co2 1000

/-- The accumulators of lines 134-138. -/
structure Acumulador where
  sample_count : Nat
  sum_etileno : ℚ
  sum_temp : ℚ
  sum_umidade : ℚ
  sum_co2 : ℚ

/-- The accumulators after the reset of lines 516-520. -/
def Acumulador.init : Acumulador where
  sample_count := 0
  sum_etileno := 0
  sum_temp := 0
  sum_umidade := 0
  sum_co2 := 0

/-- Lines 559-563: `sample_count++` on a `uint32_t` and the four `+=`. -/
def acumula (rnd : ℚ → ℚ) (a : Acumulador) (m : Medidas) : Acumulador where
  sample_count := (a.sample_count + 1) % 2 ^ 32
  sum_etileno := rnd (a.sum_etileno + m.medida_etileno)
  sum_temp := rnd (a.sum_temp + m.medida_temp)
  sum_umidade := rnd (a.sum_umidade + m.medida_umidade)
  sum_co2 := rnd (a.sum_co2 + m.medida_co2)

/-- The accumulators after the loop iterations that observed the measurements
`ms`, in order, starting from the reset. -/
def acumulado (rnd : ℚ → ℚ) (ms : List Medidas) : Acumulador :=
  ms.foldl (acumula rnd) Acumulador.init

/-- A mean of lines 615-618, `sum / sample_count`: the counter is converted to
`float` and the quotient is rounded.  With `sample_count = 0` the quotient is
an infinity or NaN and the result is `none`. -/
def media (rnd : ℚ → ℚ) (sum : ℚ) (sample_count : Nat) : Option ℚ :=
  if sample_count = 0 then none else some (rnd (sum / rnd sample_count))

/-! ## Sequences of interrupts, converter inputs and the OLED text -/

/-- The globals after the handler has run for each event of `evs` in order; an
event is the pin, the event mask and the time of the interrupt. -/
def button_callback_seq (g : Globals) (evs : List (Nat × Nat × Nat)) : Globals :=
  evs.foldl (fun g ev => button_callback g ev.1 ev.2.1 ev.2.2) g

/-- Potentiometer pin, line 56. -/
def POT_ETILENO_PIN : Nat := 27

/-- Potentiometer pin, line 57. -/
def POT_UMIDADE_PIN : Nat := 26

/-- Lines 545-556 with the converter as a function: `adc_read n input` is the
result of the `n`-th call of `adc_read ()` of the iteration, made while `input`
is the input chosen by the preceding `adc_select_input`. -/
def amostra_adc (rnd : ℚ → ℚ) (adc_read : Nat → Nat → Int) : Medidas :=
  amostra rnd (adc_read 0 (POT_ETILENO_PIN - 26)) (adc_read 1 (POT_UMIDADE_PIN - 26))
    (adc_read 2 (POT_ETILENO_PIN - 26))

/-- The function `update_display`, lines 394-424, up to the formatting of numbers:
the text written to `line1` and the number formatted into `line2`, each `none`
when no branch writes the buffer (set mode with `menu_index` outside `0..3`). -/
def update_display (g : Globals) (value : ℚ) (sensor_name : String) :
    Option String × Option ℚ :=
  if g.in_set_mode then
    if g.menu_index = 0 then
      (some (if g.current_set_param = 0 then "Set Etileno LOW" else "Set Etileno HIGH"),
       some (if g.current_set_param = 0 then g.etileno_lower else g.etileno_upper))
    else if g.menu_index = 1 then
      (some (if g.current_set_param = 0 then "Set Temp LOW" else "Set Temp HIGH"),
       some (if g.current_set_param = 0 then g.temp_lower else g.temp_upper))
    else if g.menu_index = 2 then (some "Set Umidade", some g.umidade_set)
    else if g.menu_index = 3 then
      (some (if g.current_set_param = 0 then "Set CO2 BAIXO" else "Set CO2 ALTO"),
       some (if g.current_set_param = 0 then 400 else g.co2_set))
    else (none, none)
  else (some sensor_name, some value)

/-! ## Handler and motor levels with rounded `float` operations -/

/-- The handler `button_callback`, lines 272-350, with the `float` operations of
lines 298-327 rounded: `x += c` is `rnd (x + rnd c)`, the constant `c` being the
`float` literal (`0.1f`, `0.5f`, `1.0f`, `50.0f`), and likewise for `-=`. -/
def button_callback_rnd (rnd : ℚ → ℚ) (g : Globals) (gpio events current_time : Nat) :
    Globals :=
  if sub32 current_time g.last_button_interrupt_time < DEBOUNCE_DELAY_MS then g
  else
    let g := { g with last_button_interrupt_time := current_time }
    if gpio = BUTTON_SET ∧ edge_fall events then
      if !g.in_set_mode then
        { g with in_set_mode := true, current_set_param := 0 }
      else if g.menu_index = 0 ∨ g.menu_index = 1 then
        if g.current_set_param = 0 then { g with current_set_param := 1 }
        else { g with in_set_mode := false }
      else { g with in_set_mode := false }
    else if g.in_set_mode then
      if gpio = BUTTON_NEXT ∧ edge_fall events then
        if g.menu_index = 0 then
          if g.current_set_param = 0 then
            { g with etileno_lower := rnd (g.etileno_lower + rnd (1 / 10)) }
          else { g with etileno_upper := rnd (g.etileno_upper + rnd (1 / 10)) }
        else if g.menu_index = 1 then
          if g.current_set_param = 0 then
            { g with temp_lower := rnd (g.temp_lower + rnd (1 / 2)) }
          else { g with temp_upper := rnd (g.temp_upper + rnd (1 / 2)) }
        else if g.menu_index = 2 then { g with umidade_set := rnd (g.umidade_set + rnd 1) }
        else if g.menu_index = 3 then { g with co2_set := rnd (g.co2_set + rnd 50) }
        else g
      else if gpio = BUTTON_BACK ∧ edge_fall events then
        if g.menu_index = 0 then
          if g.current_set_param = 0 then
            { g with etileno_lower := rnd (g.etileno_lower - rnd (1 / 10)) }
          else { g with etileno_upper := rnd (g.etileno_upper - rnd (1 / 10)) }
        else if g.menu_index = 1 then
          if g.current_set_param = 0 then
            { g with temp_lower := rnd (g.temp_lower - rnd (1 / 2)) }
          else { g with temp_upper := rnd (g.temp_upper - rnd (1 / 2)) }
        else if g.menu_index = 2 then { g with umidade_set := rnd (g.umidade_set - rnd 1) }
        else if g.menu_index = 3 then { g with co2_set := rnd (g.co2_set - rnd 50) }
        else g
      else if gpio = BUTTON_NEXT ∧ edge_fall events then
        { g with menu_index := (g.menu_index + 1).tmod 5 }
      else if gpio = BUTTON_BACK ∧ edge_fall events then
        { g with menu_index := (g.menu_index + 4).tmod 5 }
      else g
    else
      if gpio = BUTTON_NEXT ∧ edge_fall events then
        { g with menu_index := (g.menu_index + 1).tmod 5 }
      else if gpio = BUTTON_BACK ∧ edge_fall events then
        { g with menu_index := (g.menu_index + 4).tmod 5 }
      else g

/-- The globals after `button_callback_rnd` has run for each event of `evs` in
order; an event is the pin, the event mask and the time of the interrupt. -/
def button_callback_rnd_seq (rnd : ℚ → ℚ) (g : Globals) (evs : List (Nat × Nat × Nat)) :
    Globals :=
  evs.foldl (fun g ev => button_callback_rnd rnd g ev.1 ev.2.1 ev.2.2) g

/-- The variable `motor_pwm` of lines 652-653, 666-667 and 685-686 with rounded
operations: the quotient `erro / max_error` is rounded, its product with
`PWM_WRAP` is rounded, then `if (motor_pwm > PWM_WRAP) motor_pwm = PWM_WRAP`.
With `max_error = 0` the quotient of a positive `erro` is `+∞`, which the clamp
replaces by `PWM_WRAP`; the quotient of a zero or negative `erro` is NaN or
`-∞`, which the clamp leaves, and the result is `none`. -/
def motor_pwm_rnd (rnd : ℚ → ℚ) (erro max_error : ℚ) : Option ℚ :=
  if max_error = 0 then
    if erro > 0 then some PWM_WRAP else none
  else if rnd (rnd (erro / max_error) * PWM_WRAP) > PWM_WRAP then some PWM_WRAP
  else some (rnd (rnd (erro / max_error) * PWM_WRAP))

/-- The calls `pwm_set_chan_level (slice, channel, level)` made by lines 638-691,
in order, with rounded operations: `erro` is the rounded difference of lines
650, 664 and 683, `motor_pwm` is `motor_pwm_rnd`, and the level is its
conversion to `uint16_t` (`none` when that conversion is undefined). -/
def pwm_set_chan_level_calls_rnd (rnd : ℚ → ℚ) (g : Globals) (m : Medidas) :
    List (Nat × Option Nat) :=
  if g.menu_index = 1 then
    if valor_medido g m ≥ g.temp_lower ∧ valor_medido g m ≤ g.temp_upper then
      [(R_LED_PIN, some 0), (B_LED_PIN, some 0)]
    else if valor_medido g m < g.temp_lower then
      [(R_LED_PIN, (motor_pwm_rnd rnd (rnd (g.temp_lower - valor_medido g m))
          g.temp_lower).bind float_to_uint16),
       (B_LED_PIN, some 0)]
    else
      [(B_LED_PIN, (motor_pwm_rnd rnd (rnd (valor_medido g m - g.temp_upper))
          10).bind float_to_uint16),
       (R_LED_PIN, some 0)]
  else if g.menu_index = 2 then
    if valor_medido g m ≥ g.umidade_set then [(R_LED_PIN, float_to_uint16 0)]
    else
      [(R_LED_PIN, (motor_pwm_rnd rnd (rnd (g.umidade_set - valor_medido g m))
          50).bind float_to_uint16)]
  else []

/-! # Theorems -/

/-! ## Debounce gate -/

/-- C1: the handler lets an edge through exactly when the wrapped 32-bit
difference `current_time - last_button_interrupt_time` is at least 200; then
`last_button_interrupt_time` becomes `current_time`, whatever the pin and the
event mask, and otherwise the handler returns at once with all globals as they
were. -/
theorem debounce_gate (g : Globals) (gpio events now : Nat) :
    (DEBOUNCE_DELAY_MS ≤ sub32 now g.last_button_interrupt_time →
      (button_callback g gpio events now).last_button_interrupt_time = now) ∧
    (sub32 now g.last_button_interrupt_time < DEBOUNCE_DELAY_MS →
      button_callback g gpio events now = g) := by
  constructor
  · intro h
    have h' : ¬ sub32 now g.last_button_interrupt_time < DEBOUNCE_DELAY_MS := by omega
    unfold button_callback
    rw [if_neg h']
    dsimp only
    split_ifs <;> rfl
  · intro h
    unfold button_callback
    rw [if_pos h]

/-- C1, at concrete inputs: an edge 250 ms after the last accepted one is let through, here
across the wrap of the 32-bit clock;, an edge 100 ms after boot is not. -/
theorem debounce_gate_witness :
    (DEBOUNCE_DELAY_MS ≤ sub32 150 (2 ^ 32 - 100) ∧
      (button_callback { Globals.init with last_button_interrupt_time := 2 ^ 32 - 100 }
        BUTTON_NEXT 4 150).last_button_interrupt_time = 150) ∧
    (sub32 100 0 < DEBOUNCE_DELAY_MS ∧
      button_callback Globals.init BUTTON_SET 4 100 = Globals.init) :=
  ⟨⟨by decide,
    (debounce_gate { Globals.init with last_button_interrupt_time := 2 ^ 32 - 100 }
      BUTTON_NEXT 4 150).1 (by decide)⟩,
   ⟨by decide, (debounce_gate Globals.init BUTTON_SET 4 100).2 (by decide)⟩⟩

/-! ## Menu / edit state machine -/

/-- C2: three accepted falling edges on `BUTTON_SET`, starting outside set mode.
On Gas or Temperature the first enters set mode on the lower setpoint, the
second moves to the upper setpoint, the third leaves set mode.  On Humidity or
CO2 the first enters set mode and the second leaves it, `current_set_param`
staying 0.  `menu_index` and the six setpoints never change. -/
theorem set_button_transitions (g : Globals) (e1 e2 e3 t1 t2 t3 : Nat)
    (hmode : g.in_set_mode = false)
    (hf1 : edge_fall e1 = true) (hf2 : edge_fall e2 = true) (hf3 : edge_fall e3 = true)
    (ha1 : DEBOUNCE_DELAY_MS ≤ sub32 t1 g.last_button_interrupt_time)
    (ha2 : DEBOUNCE_DELAY_MS ≤ sub32 t2 t1)
    (ha3 : DEBOUNCE_DELAY_MS ≤ sub32 t3 t2) :
    ((g.menu_index = 0 ∨ g.menu_index = 1) →
      (button_callback g BUTTON_SET e1 t1).in_set_mode = true ∧
      (button_callback g BUTTON_SET e1 t1).current_set_param = 0 ∧
      (button_callback (button_callback g BUTTON_SET e1 t1) BUTTON_SET e2 t2).in_set_mode
        = true ∧
      (button_callback (button_callback g BUTTON_SET e1 t1) BUTTON_SET e2 t2).current_set_param
        = 1 ∧
      (button_callback (button_callback (button_callback g BUTTON_SET e1 t1) BUTTON_SET e2 t2)
        BUTTON_SET e3 t3).in_set_mode = false) ∧
    ((g.menu_index = 2 ∨ g.menu_index = 3) →
      (button_callback g BUTTON_SET e1 t1).in_set_mode = true ∧
      (button_callback g BUTTON_SET e1 t1).current_set_param = 0 ∧
      (button_callback (button_callback g BUTTON_SET e1 t1) BUTTON_SET e2 t2).in_set_mode
        = false ∧
      (button_callback (button_callback g BUTTON_SET e1 t1) BUTTON_SET e2 t2).current_set_param
        = 0) ∧
    (∀ s ∈ [button_callback g BUTTON_SET e1 t1,
        button_callback (button_callback g BUTTON_SET e1 t1) BUTTON_SET e2 t2,
        button_callback (button_callback (button_callback g BUTTON_SET e1 t1) BUTTON_SET e2 t2)
          BUTTON_SET e3 t3],
      s.menu_index = g.menu_index ∧
      s.etileno_lower = g.etileno_lower ∧ s.etileno_upper = g.etileno_upper ∧
      s.temp_lower = g.temp_lower ∧ s.temp_upper = g.temp_upper ∧
      s.umidade_set = g.umidade_set ∧ s.co2_set = g.co2_set) := by
  have n1 : ¬ sub32 t1 g.last_button_interrupt_time < DEBOUNCE_DELAY_MS := by omega
  have n2 : ¬ sub32 t2 t1 < DEBOUNCE_DELAY_MS := by omega
  have n3 : ¬ sub32 t3 t2 < DEBOUNCE_DELAY_MS := by omega
  have h1 : button_callback g BUTTON_SET e1 t1 =
      { g with last_button_interrupt_time := t1, in_set_mode := true,
               current_set_param := 0 } := by
    simp [button_callback, n1, hf1, hmode]
  rw [h1]
  by_cases c01 : g.menu_index = 0 ∨ g.menu_index = 1
  · have h2 : button_callback
          { g with last_button_interrupt_time := t1, in_set_mode := true,
                   current_set_param := 0 } BUTTON_SET e2 t2 =
        { g with last_button_interrupt_time := t2, in_set_mode := true,
                 current_set_param := 1 } := by
      simp [button_callback, n2, hf2, c01]
    have h3 : button_callback
          { g with last_button_interrupt_time := t2, in_set_mode := true,
                   current_set_param := 1 } BUTTON_SET e3 t3 =
        { g with last_button_interrupt_time := t3, in_set_mode := false,
                 current_set_param := 1 } := by
      simp [button_callback, n3, hf3, c01]
    rw [h2, h3]
    refine ⟨fun _ => by simp, fun h => ?_, by simp⟩
    rcases c01 with c | c <;> rcases h with h | h <;> rw [c] at h <;> simp at h
  · have h2 : button_callback
          { g with last_button_interrupt_time := t1, in_set_mode := true,
                   current_set_param := 0 } BUTTON_SET e2 t2 =
        { g with last_button_interrupt_time := t2, in_set_mode := false,
                 current_set_param := 0 } := by
      simp [button_callback, n2, hf2, c01]
    have h3 : button_callback
          { g with last_button_interrupt_time := t2, in_set_mode := false,
                   current_set_param := 0 } BUTTON_SET e3 t3 =
        { g with last_button_interrupt_time := t3, in_set_mode := true,
                 current_set_param := 0 } := by
      simp [button_callback, n3, hf3]
    rw [h2, h3]
    exact ⟨fun h => absurd h c01, fun _ => by simp, by simp⟩

/-- C2, at concrete inputs: from the initial globals (Gas) three Set edges at 200,
400 and 600 ms walk lower, upper, out; on Humidity two edges walk in, out. -/
theorem set_button_transitions_witness :
    (Globals.init.in_set_mode = false ∧ edge_fall 4 = true ∧
      DEBOUNCE_DELAY_MS ≤ sub32 200 Globals.init.last_button_interrupt_time ∧
      DEBOUNCE_DELAY_MS ≤ sub32 400 200 ∧ DEBOUNCE_DELAY_MS ≤ sub32 600 400) ∧
    ((button_callback Globals.init BUTTON_SET 4 200).in_set_mode = true ∧
      (button_callback Globals.init BUTTON_SET 4 200).current_set_param = 0 ∧
      (button_callback (button_callback Globals.init BUTTON_SET 4 200)
        BUTTON_SET 4 400).in_set_mode = true ∧
      (button_callback (button_callback Globals.init BUTTON_SET 4 200)
        BUTTON_SET 4 400).current_set_param = 1 ∧
      (button_callback (button_callback (button_callback Globals.init BUTTON_SET 4 200)
        BUTTON_SET 4 400) BUTTON_SET 4 600).in_set_mode = false) ∧
    ((button_callback { Globals.init with menu_index := 2 } BUTTON_SET 4 200).in_set_mode
        = true ∧
      (button_callback { Globals.init with menu_index := 2 } BUTTON_SET 4 200).current_set_param
        = 0 ∧
      (button_callback (button_callback { Globals.init with menu_index := 2 } BUTTON_SET 4 200)
        BUTTON_SET 4 400).in_set_mode = false ∧
      (button_callback (button_callback { Globals.init with menu_index := 2 } BUTTON_SET 4 200)
        BUTTON_SET 4 400).current_set_param = 0) :=
  ⟨⟨rfl, by decide, by decide, by decide, by decide⟩,
   (set_button_transitions Globals.init 4 4 4 200 400 600 rfl (by decide) (by decide)
      (by decide) (by decide) (by decide) (by decide)).1 (Or.inl rfl),
   (set_button_transitions { Globals.init with menu_index := 2 } 4 4 4 200 400 600 rfl
      (by decide) (by decide) (by decide) (by decide) (by decide) (by decide)).2.1 (Or.inl rfl)⟩

/-- C3: outside set mode, with `menu_index` in `0..4`, an accepted falling edge on
`BUTTON_NEXT` moves `menu_index` to `(menu_index + 1) mod 5` and one on
`BUTTON_BACK` to `(menu_index + 4) mod 5`; Next from 4 gives 0, Back from 0
gives 4, and an accepted Back after an accepted Next restores `menu_index`. -/
theorem navigation_cyclic (g : Globals) (e1 e2 t1 t2 : Nat)
    (hmode : g.in_set_mode = false)
    (hlo : 0 ≤ g.menu_index) (hhi : g.menu_index ≤ 4)
    (hf1 : edge_fall e1 = true) (hf2 : edge_fall e2 = true)
    (ha1 : DEBOUNCE_DELAY_MS ≤ sub32 t1 g.last_button_interrupt_time)
    (ha2 : DEBOUNCE_DELAY_MS ≤ sub32 t2 t1) :
    (button_callback g BUTTON_NEXT e1 t1).menu_index = (g.menu_index + 1) % 5 ∧
    (button_callback g BUTTON_BACK e1 t1).menu_index = (g.menu_index + 4) % 5 ∧
    (g.menu_index = 4 → (button_callback g BUTTON_NEXT e1 t1).menu_index = 0) ∧
    (g.menu_index = 0 → (button_callback g BUTTON_BACK e1 t1).menu_index = 4) ∧
    (button_callback (button_callback g BUTTON_NEXT e1 t1) BUTTON_BACK e2 t2).menu_index
      = g.menu_index := by
  have n1 : ¬ sub32 t1 g.last_button_interrupt_time < DEBOUNCE_DELAY_MS := by omega
  have n2 : ¬ sub32 t2 t1 < DEBOUNCE_DELAY_MS := by omega
  have hn : button_callback g BUTTON_NEXT e1 t1 =
      { g with last_button_interrupt_time := t1,
               menu_index := (g.menu_index + 1).tmod 5 } := by
    simp [button_callback, n1, hf1, hmode, BUTTON_NEXT, BUTTON_SET]
  have hb : button_callback g BUTTON_BACK e1 t1 =
      { g with last_button_interrupt_time := t1,
               menu_index := (g.menu_index + 4).tmod 5 } := by
    simp [button_callback, n1, hf1, hmode, BUTTON_NEXT, BUTTON_SET, BUTTON_BACK]
  have hnb : button_callback
        { g with last_button_interrupt_time := t1,
                 menu_index := (g.menu_index + 1).tmod 5 } BUTTON_BACK e2 t2 =
      { g with last_button_interrupt_time := t2,
               menu_index := ((g.menu_index + 1).tmod 5 + 4).tmod 5 } := by
    simp [button_callback, n2, hf2, hmode, BUTTON_NEXT, BUTTON_SET, BUTTON_BACK]
  rw [hn, hb, hnb]
  have c : g.menu_index = 0 ∨ g.menu_index = 1 ∨ g.menu_index = 2 ∨ g.menu_index = 3 ∨
      g.menu_index = 4 := by omega
  rcases c with c | c | c | c | c <;> simp [c] <;> decide

/-- C3, at concrete inputs: on the Summary view (`menu_index = 4`) Next gives 0,
Back gives 3, and Next followed by Back is on 4 again. -/
theorem navigation_cyclic_witness :
    (({ Globals.init with menu_index := 4 } : Globals).in_set_mode = false ∧
      edge_fall 4 = true ∧ DEBOUNCE_DELAY_MS ≤ sub32 200 0 ∧
      DEBOUNCE_DELAY_MS ≤ sub32 400 200) ∧
    (button_callback { Globals.init with menu_index := 4 } BUTTON_NEXT 4 200).menu_index
      = (4 + 1) % 5 ∧
    (button_callback { Globals.init with menu_index := 4 } BUTTON_BACK 4 200).menu_index
      = (4 + 4) % 5 ∧
    (button_callback (button_callback { Globals.init with menu_index := 4 } BUTTON_NEXT 4 200)
      BUTTON_BACK 4 400).menu_index = 4 :=
  ⟨⟨rfl, by decide, by decide, by decide⟩,
   (navigation_cyclic { Globals.init with menu_index := 4 } 4 4 200 400 rfl (by decide)
      (by decide) (by decide) (by decide) (by decide) (by decide)).1,
   (navigation_cyclic { Globals.init with menu_index := 4 } 4 4 200 400 rfl (by decide)
      (by decide) (by decide) (by decide) (by decide) (by decide)).2.1,
   (navigation_cyclic { Globals.init with menu_index := 4 } 4 4 200 400 rfl (by decide)
      (by decide) (by decide) (by decide) (by decide) (by decide)).2.2.2.2⟩

/-- The handler in set mode on an accepted falling edge of `BUTTON_NEXT`. -/
theorem button_callback_set_mode_next (g : Globals) (e t : Nat)
    (hmode : g.in_set_mode = true) (hf : edge_fall e = true)
    (ha : DEBOUNCE_DELAY_MS ≤ sub32 t g.last_button_interrupt_time) :
    button_callback g BUTTON_NEXT e t =
      if g.menu_index = 0 then
        if g.current_set_param = 0 then
          { g with last_button_interrupt_time := t, etileno_lower := g.etileno_lower + 1 / 10 }
        else
          { g with last_button_interrupt_time := t, etileno_upper := g.etileno_upper + 1 / 10 }
      else if g.menu_index = 1 then
        if g.current_set_param = 0 then
          { g with last_button_interrupt_time := t, temp_lower := g.temp_lower + 1 / 2 }
        else
          { g with last_button_interrupt_time := t, temp_upper := g.temp_upper + 1 / 2 }
      else if g.menu_index = 2 then
        { g with last_button_interrupt_time := t, umidade_set := g.umidade_set + 1 }
      else if g.menu_index = 3 then
        { g with last_button_interrupt_time := t, co2_set := g.co2_set + 50 }
      else { g with last_button_interrupt_time := t } := by
  have n : ¬ sub32 t g.last_button_interrupt_time < DEBOUNCE_DELAY_MS := by omega
  simp [button_callback, n, hf, hmode, BUTTON_NEXT, BUTTON_SET]

/-- The handler in set mode on an accepted falling edge of `BUTTON_BACK`. -/
theorem button_callback_set_mode_back (g : Globals) (e t : Nat)
    (hmode : g.in_set_mode = true) (hf : edge_fall e = true)
    (ha : DEBOUNCE_DELAY_MS ≤ sub32 t g.last_button_interrupt_time) :
    button_callback g BUTTON_BACK e t =
      if g.menu_index = 0 then
        if g.current_set_param = 0 then
          { g with last_button_interrupt_time := t, etileno_lower := g.etileno_lower - 1 / 10 }
        else
          { g with last_button_interrupt_time := t, etileno_upper := g.etileno_upper - 1 / 10 }
      else if g.menu_index = 1 then
        if g.current_set_param = 0 then
          { g with last_button_interrupt_time := t, temp_lower := g.temp_lower - 1 / 2 }
        else
          { g with last_button_interrupt_time := t, temp_upper := g.temp_upper - 1 / 2 }
      else if g.menu_index = 2 then
        { g with last_button_interrupt_time := t, umidade_set := g.umidade_set - 1 }
      else if g.menu_index = 3 then
        { g with last_button_interrupt_time := t, co2_set := g.co2_set - 50 }
      else { g with last_button_interrupt_time := t } := by
  have n : ¬ sub32 t g.last_button_interrupt_time < DEBOUNCE_DELAY_MS := by omega
  simp [button_callback, n, hf, hmode, BUTTON_NEXT, BUTTON_SET, BUTTON_BACK]

/-- The handler on an accepted event without the falling-edge bit, on any pin:
only the time stamp is written. -/
theorem button_callback_no_fall (g : Globals) (gpio e t : Nat)
    (hf : edge_fall e = false)
    (ha : DEBOUNCE_DELAY_MS ≤ sub32 t g.last_button_interrupt_time) :
    button_callback g gpio e t = { g with last_button_interrupt_time := t } := by
  have n : ¬ sub32 t g.last_button_interrupt_time < DEBOUNCE_DELAY_MS := by omega
  simp [button_callback, n, hf]

/-- C5: in set mode an accepted event on `BUTTON_NEXT` or `BUTTON_BACK` (any event
mask) leaves `menu_index`, `in_set_mode` and `current_set_param` as they were,
and every setpoint other than the one selected by `menu_index` and
`current_set_param` keeps its value. -/
theorem editing_never_navigates (g : Globals) (gpio e t : Nat)
    (hmode : g.in_set_mode = true)
    (hgpio : gpio = BUTTON_NEXT ∨ gpio = BUTTON_BACK)
    (ha : DEBOUNCE_DELAY_MS ≤ sub32 t g.last_button_interrupt_time) :
    (button_callback g gpio e t).menu_index = g.menu_index ∧
    (button_callback g gpio e t).in_set_mode = true ∧
    (button_callback g gpio e t).current_set_param = g.current_set_param ∧
    (¬ (g.menu_index = 0 ∧ g.current_set_param = 0) →
      (button_callback g gpio e t).etileno_lower = g.etileno_lower) ∧
    (¬ (g.menu_index = 0 ∧ g.current_set_param ≠ 0) →
      (button_callback g gpio e t).etileno_upper = g.etileno_upper) ∧
    (¬ (g.menu_index = 1 ∧ g.current_set_param = 0) →
      (button_callback g gpio e t).temp_lower = g.temp_lower) ∧
    (¬ (g.menu_index = 1 ∧ g.current_set_param ≠ 0) →
      (button_callback g gpio e t).temp_upper = g.temp_upper) ∧
    (g.menu_index ≠ 2 → (button_callback g gpio e t).umidade_set = g.umidade_set) ∧
    (g.menu_index ≠ 3 → (button_callback g gpio e t).co2_set = g.co2_set) := by
  cases hf : edge_fall e
  · rw [button_callback_no_fall g gpio e t hf ha]
    simp [hmode]
  · rcases hgpio with h | h <;> subst h
    · rw [button_callback_set_mode_next g e t hmode hf ha]
      split_ifs <;> simp_all
    · rw [button_callback_set_mode_back g e t hmode hf ha]
      split_ifs <;> simp_all

/-- C5, at concrete inputs: editing the lower Gas setpoint, a Next edge keeps the
view, the mode, the cursor and the five other setpoints. -/
theorem editing_never_navigates_witness :
    (({ Globals.init with in_set_mode := true } : Globals).in_set_mode = true ∧
      DEBOUNCE_DELAY_MS ≤ sub32 200 0) ∧
    (button_callback { Globals.init with in_set_mode := true } BUTTON_NEXT 4 200).menu_index
      = 0 ∧
    (button_callback { Globals.init with in_set_mode := true } BUTTON_NEXT 4 200).in_set_mode
      = true ∧
    (button_callback { Globals.init with in_set_mode := true }
      BUTTON_NEXT 4 200).current_set_param = 0 ∧
    (button_callback { Globals.init with in_set_mode := true } BUTTON_NEXT 4 200).etileno_upper
      = 7 ∧
    (button_callback { Globals.init with in_set_mode := true } BUTTON_NEXT 4 200).co2_set
      = 800 :=
  ⟨⟨rfl, by decide⟩,
   (editing_never_navigates { Globals.init with in_set_mode := true } BUTTON_NEXT 4 200 rfl
      (Or.inl rfl) (by decide)).1,
   (editing_never_navigates { Globals.init with in_set_mode := true } BUTTON_NEXT 4 200 rfl
      (Or.inl rfl) (by decide)).2.1,
   (editing_never_navigates { Globals.init with in_set_mode := true } BUTTON_NEXT 4 200 rfl
      (Or.inl rfl) (by decide)).2.2.1,
   (editing_never_navigates { Globals.init with in_set_mode := true } BUTTON_NEXT 4 200 rfl
      (Or.inl rfl) (by decide)).2.2.2.2.1 (by decide),
   (editing_never_navigates { Globals.init with in_set_mode := true } BUTTON_NEXT 4 200 rfl
      (Or.inl rfl) (by decide)).2.2.2.2.2.2.2.2 (by decide)⟩

/-! ## Classification -/

/-- The status text on the Gas view. -/
theorem status_gas (g : Globals) (m : Medidas) (status0 : String) (h : g.menu_index = 0) :
    status g m status0 =
      if m.medida_etileno < g.etileno_lower then "Normal"
      else if m.medida_etileno < g.etileno_upper then "Amadurec. rapido"
      else "Apodrecendo" := by
  simp [status, valor_medido, h]

/-- The status text on the Temperature view. -/
theorem status_temp (g : Globals) (m : Medidas) (status0 : String) (h : g.menu_index = 1) :
    status g m status0 =
      if m.medida_temp ≥ g.temp_lower ∧ m.medida_temp ≤ g.temp_upper then "Ideal"
      else if m.medida_temp > g.temp_upper ∧ m.medida_temp ≤ g.temp_upper + 5 then
        "Levemente alto"
      else if m.medida_temp < g.temp_lower then "Frio"
      else "Critico" := by
  simp only [status, valor_medido, h]
  simp

/-- The status text on the Humidity view. -/
theorem status_umidade (g : Globals) (m : Medidas) (status0 : String)
    (h : g.menu_index = 2) :
    status g m status0 = if m.medida_umidade ≥ g.umidade_set then "Ideal" else "Baixa" := by
  simp [status, valor_medido, h]

/-- The status text on the CO2 view. -/
theorem status_co2 (g : Globals) (m : Medidas) (status0 : String) (h : g.menu_index = 3) :
    status g m status0 = if m.medida_co2 ≤ g.co2_set then "Ideal" else "Alto" := by
  simp [status, valor_medido, h]

/-- C6: on the Temperature view with `temp_lower ≤ temp_upper`, the status is one
of the four labels and is "Ideal" iff `lower ≤ v ≤ upper`, "Levemente alto"
iff `upper < v ≤ upper + 5`, "Frio" iff `v < lower`, and "Critico" iff
`v > upper + 5`. -/
theorem temperature_classification (g : Globals) (m : Medidas) (status0 : String)
    (hmenu : g.menu_index = 1) (hord : g.temp_lower ≤ g.temp_upper) :
    (status g m status0 = "Ideal" ↔
      g.temp_lower ≤ m.medida_temp ∧ m.medida_temp ≤ g.temp_upper) ∧
    (status g m status0 = "Levemente alto" ↔
      g.temp_upper < m.medida_temp ∧ m.medida_temp ≤ g.temp_upper + 5) ∧
    (status g m status0 = "Frio" ↔ m.medida_temp < g.temp_lower) ∧
    (status g m status0 = "Critico" ↔ m.medida_temp > g.temp_upper + 5) ∧
    status g m status0 ∈ ["Ideal", "Levemente alto", "Frio", "Critico"] := by
  by_cases hI : m.medida_temp ≥ g.temp_lower ∧ m.medida_temp ≤ g.temp_upper
  · have hs : status g m status0 = "Ideal" := by
      simp [status, valor_medido, hmenu, hI]
    obtain ⟨h1, h2⟩ := hI
    rw [hs]
    refine ⟨⟨fun _ => ⟨h1, h2⟩, fun _ => rfl⟩, ⟨fun h => absurd h (by decide), fun h => ?_⟩,
      ⟨fun h => absurd h (by decide), fun h => ?_⟩,
      ⟨fun h => absurd h (by decide), fun h => ?_⟩, by simp⟩
    · linarith [h.1]
    · linarith
    · linarith
  · by_cases hS : m.medida_temp > g.temp_upper ∧ m.medida_temp ≤ g.temp_upper + 5
    · have hs : status g m status0 = "Levemente alto" := by
        simp only [status, valor_medido, hmenu]
        simp [hI, hS]
      obtain ⟨h1, h2⟩ := hS
      rw [hs]
      refine ⟨⟨fun h => absurd h (by decide), fun h => absurd h hI⟩,
        ⟨fun _ => ⟨h1, h2⟩, fun _ => rfl⟩,
        ⟨fun h => absurd h (by decide), fun h => ?_⟩,
        ⟨fun h => absurd h (by decide), fun h => ?_⟩, by simp⟩
      · linarith
      · linarith
    · by_cases hC : m.medida_temp < g.temp_lower
      · have hs : status g m status0 = "Frio" := by
          simp only [status, valor_medido, hmenu]
          simp [hI, hS, hC]
        rw [hs]
        refine ⟨⟨fun h => absurd h (by decide), fun h => absurd h hI⟩,
          ⟨fun h => absurd h (by decide), fun h => absurd h hS⟩,
          ⟨fun _ => hC, fun _ => rfl⟩,
          ⟨fun h => absurd h (by decide), fun h => ?_⟩, by simp⟩
        linarith
      · have hs : status g m status0 = "Critico" := by
          simp only [status, valor_medido, hmenu]
          simp [hI, hS, hC]
        rw [hs]
        have hlo : g.temp_lower ≤ m.medida_temp := not_lt.mp hC
        have hup : g.temp_upper < m.medida_temp := by
          by_contra hn
          exact hI ⟨hlo, not_lt.mp hn⟩
        have hcr : g.temp_upper + 5 < m.medida_temp := by
          by_contra hn
          exact hS ⟨hup, not_lt.mp hn⟩
        exact ⟨⟨fun h => absurd h (by decide), fun h => absurd h hI⟩,
          ⟨fun h => absurd h (by decide), fun h => absurd h hS⟩,
          ⟨fun h => absurd h (by decide), fun h => absurd h hC⟩,
          ⟨fun _ => hcr, fun _ => rfl⟩, by simp⟩

/-- C6, at concrete inputs: with the setpoints 10 and 15 the values 9.9, 10, 15,
15.1, 20 and 20.1 are classified Frio, Ideal, Ideal, Levemente alto,
Levemente alto and Critico. -/
theorem temperature_classification_witness :
    (({ Globals.init with menu_index := 1 } : Globals).menu_index = 1 ∧
      ({ Globals.init with menu_index := 1 } : Globals).temp_lower ≤
        ({ Globals.init with menu_index := 1 } : Globals).temp_upper) ∧
    status { Globals.init with menu_index := 1 } ⟨0, 99 / 10, 0, 0⟩ "" = "Frio" ∧
    status { Globals.init with menu_index := 1 } ⟨0, 10, 0, 0⟩ "" = "Ideal" ∧
    status { Globals.init with menu_index := 1 } ⟨0, 15, 0, 0⟩ "" = "Ideal" ∧
    status { Globals.init with menu_index := 1 } ⟨0, 151 / 10, 0, 0⟩ "" = "Levemente alto" ∧
    status { Globals.init with menu_index := 1 } ⟨0, 20, 0, 0⟩ "" = "Levemente alto" ∧
    status { Globals.init with menu_index := 1 } ⟨0, 201 / 10, 0, 0⟩ "" = "Critico" :=
  ⟨⟨rfl, by decide⟩,
   (temperature_classification { Globals.init with menu_index := 1 } ⟨0, 99 / 10, 0, 0⟩ "" rfl (by decide)).2.2.1.mpr (by norm_num [Globals.init]),
   (temperature_classification { Globals.init with menu_index := 1 } ⟨0, 10, 0, 0⟩ "" rfl (by decide)).1.mpr (by norm_num [Globals.init]),
   (temperature_classification { Globals.init with menu_index := 1 } ⟨0, 15, 0, 0⟩ "" rfl (by decide)).1.mpr (by norm_num [Globals.init]),
   (temperature_classification { Globals.init with menu_index := 1 } ⟨0, 151 / 10, 0, 0⟩ "" rfl (by decide)).2.1.mpr (by norm_num [Globals.init]),
   (temperature_classification { Globals.init with menu_index := 1 } ⟨0, 20, 0, 0⟩ "" rfl (by decide)).2.1.mpr (by norm_num [Globals.init]),
   (temperature_classification { Globals.init with menu_index := 1 } ⟨0, 201 / 10, 0, 0⟩ "" rfl (by decide)).2.2.2.1.mpr (by norm_num [Globals.init])⟩

/-- C7: on the Gas view with `etileno_lower ≤ etileno_upper` the status is
"Normal" iff `v < lower`, "Amadurec. rapido" iff `lower ≤ v < upper` and
"Apodrecendo" iff `v ≥ upper`; on the Humidity view it is "Ideal" iff
`v ≥ umidade_set` and "Baixa" otherwise; on the CO2 view it is "Ideal" iff
`v ≤ co2_set` and "Alto" otherwise.  On each view the status is one of the
listed labels. -/
theorem gas_humidity_co2_classification (g : Globals) (m : Medidas) (status0 : String) :
    (g.menu_index = 0 → g.etileno_lower ≤ g.etileno_upper →
      (status g m status0 = "Normal" ↔ m.medida_etileno < g.etileno_lower) ∧
      (status g m status0 = "Amadurec. rapido" ↔
        g.etileno_lower ≤ m.medida_etileno ∧ m.medida_etileno < g.etileno_upper) ∧
      (status g m status0 = "Apodrecendo" ↔ m.medida_etileno ≥ g.etileno_upper) ∧
      status g m status0 ∈ ["Normal", "Amadurec. rapido", "Apodrecendo"]) ∧
    (g.menu_index = 2 →
      (status g m status0 = "Ideal" ↔ m.medida_umidade ≥ g.umidade_set) ∧
      (status g m status0 = "Baixa" ↔ ¬ m.medida_umidade ≥ g.umidade_set) ∧
      status g m status0 ∈ ["Ideal", "Baixa"]) ∧
    (g.menu_index = 3 →
      (status g m status0 = "Ideal" ↔ m.medida_co2 ≤ g.co2_set) ∧
      (status g m status0 = "Alto" ↔ ¬ m.medida_co2 ≤ g.co2_set) ∧
      status g m status0 ∈ ["Ideal", "Alto"]) := by
  refine ⟨fun h hord => ?_, fun h => ?_, fun h => ?_⟩
  · rw [status_gas g m status0 h]
    split_ifs with h1 h2
    · refine ⟨by simp [h1], ?_, ?_, by simp⟩
      · simp only [String.reduceEq, false_iff]
        intro hh
        linarith [hh.1]
      · simp only [String.reduceEq, false_iff]
        intro hh
        linarith
    · have h1' : g.etileno_lower ≤ m.medida_etileno := not_lt.mp h1
      refine ⟨by simp [h1], by simp [h1', h2], ?_, by simp⟩
      simp only [String.reduceEq, false_iff]
      intro hh
      linarith
    · have h1' : g.etileno_lower ≤ m.medida_etileno := not_lt.mp h1
      have h2' : g.etileno_upper ≤ m.medida_etileno := not_lt.mp h2
      exact ⟨by simp [h1'], by simp [h2'], by simp [h2'], by simp⟩
  · rw [status_umidade g m status0 h]
    split_ifs with h1 <;> simp [h1]
  · rw [status_co2 g m status0 h]
    split_ifs with h1 <;> simp [h1]

/-- C7, at concrete inputs: with the initial setpoints, Gas 5 ppm is
"Amadurec. rapido", Humidity 90 % is "Ideal" and CO2 801 ppm is "Alto". -/
theorem gas_humidity_co2_classification_witness :
    (Globals.init.menu_index = 0 ∧ Globals.init.etileno_lower ≤ Globals.init.etileno_upper ∧
      ({ Globals.init with menu_index := 2 } : Globals).menu_index = 2 ∧
      ({ Globals.init with menu_index := 3 } : Globals).menu_index = 3) ∧
    status Globals.init ⟨5, 0, 0, 0⟩ "" = "Amadurec. rapido" ∧
    status { Globals.init with menu_index := 2 } ⟨0, 0, 90, 0⟩ "" = "Ideal" ∧
    status { Globals.init with menu_index := 3 } ⟨0, 0, 0, 801⟩ "" = "Alto" :=
  ⟨⟨rfl, by decide, rfl, rfl⟩,
   ((gas_humidity_co2_classification Globals.init ⟨5, 0, 0, 0⟩ "").1 rfl (by decide)).2.1.mpr
      (by norm_num [Globals.init]),
   ((gas_humidity_co2_classification { Globals.init with menu_index := 2 }
      ⟨0, 0, 90, 0⟩ "").2.1 rfl).1.mpr (by norm_num [Globals.init]),
   ((gas_humidity_co2_classification { Globals.init with menu_index := 3 }
      ⟨0, 0, 0, 801⟩ "").2.2 rfl).2.1.mpr (by norm_num [Globals.init])⟩

/-- C8, as stated, fails on the Gas view: with the ordered setpoints 3 and 7 the
boundary value 3 is not "Normal" (the lower-severity band next to that
boundary) but "Amadurec. rapido", and the boundary value 7 is not
"Amadurec. rapido" but "Apodrecendo". -/
theorem gas_boundary_counterexample :
    Globals.init.menu_index = 0 ∧
    Globals.init.etileno_lower = 3 ∧ Globals.init.etileno_upper = 7 ∧
    status Globals.init ⟨3, 0, 0, 0⟩ "" ≠ "Normal" ∧
    status Globals.init ⟨3, 0, 0, 0⟩ "" = "Amadurec. rapido" ∧
    status Globals.init ⟨7, 0, 0, 0⟩ "" ≠ "Amadurec. rapido" ∧
    status Globals.init ⟨7, 0, 0, 0⟩ "" = "Apodrecendo" := by
  have h3 : status Globals.init ⟨3, 0, 0, 0⟩ "" = "Amadurec. rapido" := by
    norm_num [status, valor_medido, Globals.init]
  have h7 : status Globals.init ⟨7, 0, 0, 0⟩ "" = "Apodrecendo" := by
    norm_num [status, valor_medido, Globals.init]
  refine ⟨rfl, rfl, rfl, ?_, h3, ?_, h7⟩
  · rw [h3]; decide
  · rw [h7]; decide

/-- C8, amended: a value equal to a band boundary goes to the lower-severity
adjacent band on the Temperature view (ordered setpoints: "Ideal" at
`temp_lower` and at `temp_upper`, "Levemente alto" at `temp_upper + 5`), on the
Humidity view ("Ideal" at `umidade_set`) and on the CO2 view ("Ideal" at
`co2_set`); on the Gas view (ordered setpoints) it goes to the higher-severity
adjacent band: at `etileno_lower` the status is not "Normal"
("Amadurec. rapido" when `lower < upper`), at `etileno_upper` it is
"Apodrecendo". -/
theorem boundary_tie_break (g : Globals) (m : Medidas) (status0 : String) :
    (g.menu_index = 1 → g.temp_lower ≤ g.temp_upper →
      (m.medida_temp = g.temp_lower → status g m status0 = "Ideal") ∧
      (m.medida_temp = g.temp_upper → status g m status0 = "Ideal") ∧
      (m.medida_temp = g.temp_upper + 5 → status g m status0 = "Levemente alto")) ∧
    (g.menu_index = 2 → m.medida_umidade = g.umidade_set → status g m status0 = "Ideal") ∧
    (g.menu_index = 3 → m.medida_co2 = g.co2_set → status g m status0 = "Ideal") ∧
    (g.menu_index = 0 → g.etileno_lower ≤ g.etileno_upper →
      (m.medida_etileno = g.etileno_lower → status g m status0 ≠ "Normal") ∧
      (m.medida_etileno = g.etileno_lower → g.etileno_lower < g.etileno_upper →
        status g m status0 = "Amadurec. rapido") ∧
      (m.medida_etileno = g.etileno_upper → status g m status0 = "Apodrecendo")) := by
  refine ⟨fun h hord => ⟨fun hv => ?_, fun hv => ?_, fun hv => ?_⟩, fun h hv => ?_,
    fun h hv => ?_, fun h hord => ⟨fun hv => ?_, fun hv hlt => ?_, fun hv => ?_⟩⟩
  · simp [status, valor_medido, h, hv, hord]
  · simp [status, valor_medido, h, hv, hord]
  · simp only [status, valor_medido, h]
    norm_num [hv]
  · simp [status_umidade g m status0 h, hv]
  · simp [status_co2 g m status0 h, hv]
  · rw [status_gas g m status0 h]
    simp only [hv, lt_irrefl, if_false]
    split_ifs <;> simp
  · rw [status_gas g m status0 h]
    simp [hv, hlt]
  · rw [status_gas g m status0 h]
    have : ¬ g.etileno_upper < g.etileno_lower := not_lt.mpr hord
    simp [hv, this]

/-- C8 amended, at concrete inputs: with the initial setpoints, Temperature 10 and
15 are "Ideal", Temperature 20 is "Levemente alto", Humidity 90 and CO2 800
are "Ideal", Gas 7 is "Apodrecendo". -/
theorem boundary_tie_break_witness :
    (({ Globals.init with menu_index := 1 } : Globals).temp_lower ≤
        ({ Globals.init with menu_index := 1 } : Globals).temp_upper ∧
      Globals.init.etileno_lower ≤ Globals.init.etileno_upper) ∧
    status { Globals.init with menu_index := 1 } ⟨0, 10, 0, 0⟩ "" = "Ideal" ∧
    status { Globals.init with menu_index := 1 } ⟨0, 15, 0, 0⟩ "" = "Ideal" ∧
    status { Globals.init with menu_index := 1 } ⟨0, 20, 0, 0⟩ "" = "Levemente alto" ∧
    status { Globals.init with menu_index := 2 } ⟨0, 0, 90, 0⟩ "" = "Ideal" ∧
    status { Globals.init with menu_index := 3 } ⟨0, 0, 0, 800⟩ "" = "Ideal" ∧
    status Globals.init ⟨7, 0, 0, 0⟩ "" = "Apodrecendo" :=
  ⟨⟨by decide, by decide⟩,
   ((boundary_tie_break { Globals.init with menu_index := 1 } ⟨0, 10, 0, 0⟩ "").1 rfl
      (by decide)).1 rfl,
   ((boundary_tie_break { Globals.init with menu_index := 1 } ⟨0, 15, 0, 0⟩ "").1 rfl
      (by decide)).2.1 rfl,
   ((boundary_tie_break { Globals.init with menu_index := 1 } ⟨0, 20, 0, 0⟩ "").1 rfl
      (by decide)).2.2 (by norm_num [Globals.init]),
   (boundary_tie_break { Globals.init with menu_index := 2 } ⟨0, 0, 90, 0⟩ "").2.1 rfl rfl,
   (boundary_tie_break { Globals.init with menu_index := 3 } ⟨0, 0, 0, 800⟩ "").2.2.1 rfl rfl,
   ((boundary_tie_break Globals.init ⟨7, 0, 0, 0⟩ "").2.2.2 rfl (by decide)).2.2 rfl⟩

/-! ## Beep and face -/

/-- C9, as stated, fails on the Gas view: with the initial setpoints 3 and 7 the
value 5 is classified "Amadurec. rapido", which is not the "Normal" band, and
no beep is requested. -/
theorem gas_beep_counterexample :
    Globals.init.menu_index = 0 ∧
    status Globals.init ⟨5, 0, 0, 0⟩ "" = "Amadurec. rapido" ∧
    status Globals.init ⟨5, 0, 0, 0⟩ "" ≠ "Normal" ∧
    beep Globals.init ⟨5, 0, 0, 0⟩ "" = false := by
  have h5 : status Globals.init ⟨5, 0, 0, 0⟩ "" = "Amadurec. rapido" := by
    norm_num [status, valor_medido, Globals.init]
  refine ⟨rfl, h5, ?_, ?_⟩
  · rw [h5]; decide
  · norm_num [beep, valor_medido, Globals.init]

/-- C9, amended: on the Gas view a beep is requested iff the value is at least
`etileno_upper`; with ordered setpoints that is iff the status is
"Apodrecendo", and "Normal" and "Amadurec. rapido" request none.  On the CO2
view a beep is requested iff the status is not "Ideal", that is iff it is
"Alto". -/
theorem beep_gas_co2 (g : Globals) (m : Medidas) (status0 : String) :
    (g.menu_index = 0 → (beep g m status0 = true ↔ m.medida_etileno ≥ g.etileno_upper)) ∧
    (g.menu_index = 0 → g.etileno_lower ≤ g.etileno_upper →
      (beep g m status0 = true ↔ status g m status0 = "Apodrecendo") ∧
      (status g m status0 = "Normal" → beep g m status0 = false) ∧
      (status g m status0 = "Amadurec. rapido" → beep g m status0 = false)) ∧
    (g.menu_index = 3 →
      (beep g m status0 = true ↔ status g m status0 ≠ "Ideal") ∧
      (beep g m status0 = true ↔ status g m status0 = "Alto")) := by
  refine ⟨fun h => ?_, fun h hord => ?_, fun h => ?_⟩
  · simp [beep, valor_medido, h]
  · have hb : beep g m status0 = decide (m.medida_etileno ≥ g.etileno_upper) := by
      simp [beep, valor_medido, h]
    rw [hb, status_gas g m status0 h]
    split_ifs with h1 h2
    · have : ¬ g.etileno_upper ≤ m.medida_etileno := by
        intro hh
        linarith
      simp [this]
    · have : ¬ g.etileno_upper ≤ m.medida_etileno := not_le.mpr h2
      simp [this]
    · have : g.etileno_upper ≤ m.medida_etileno := not_lt.mp h2
      simp [this]
  · have hb : beep g m status0 = (status g m status0 != "Ideal") := by
      simp [beep, h]
    rw [hb, status_co2 g m status0 h]
    split_ifs <;> simp

/-- C9 amended, at concrete inputs: with the initial setpoints Gas 8 ppm requests
a beep and CO2 900 ppm requests a beep. -/
theorem beep_gas_co2_witness :
    (Globals.init.menu_index = 0 ∧
      ({ Globals.init with menu_index := 3 } : Globals).menu_index = 3) ∧
    beep Globals.init ⟨8, 0, 0, 0⟩ "" = true ∧
    (beep { Globals.init with menu_index := 3 } ⟨0, 0, 0, 900⟩ "" = true ↔
      status { Globals.init with menu_index := 3 } ⟨0, 0, 0, 900⟩ "" = "Alto") :=
  ⟨⟨rfl, rfl⟩,
   ((beep_gas_co2 Globals.init ⟨8, 0, 0, 0⟩ "").1 rfl).mpr (by norm_num [Globals.init]),
   ((beep_gas_co2 { Globals.init with menu_index := 3 } ⟨0, 0, 0, 900⟩ "").2.2 rfl).2⟩

/-- C10, as stated, fails on the Gas view: with the initial setpoints 3 and 7 the
value 5 is classified "Amadurec. rapido", a band worse than "Normal", and
`atualizar_buffer_com_carinha` is called with 0, not with 1. -/
theorem gas_carinha_counterexample :
    Globals.init.menu_index = 0 ∧
    status Globals.init ⟨5, 0, 0, 0⟩ "" = "Amadurec. rapido" ∧
    status Globals.init ⟨5, 0, 0, 0⟩ "" ≠ "Normal" ∧
    carinha Globals.init ⟨5, 0, 0, 0⟩ = some 0 ∧
    carinha Globals.init ⟨5, 0, 0, 0⟩ ≠ some 1 := by
  have h5 : status Globals.init ⟨5, 0, 0, 0⟩ "" = "Amadurec. rapido" := by
    norm_num [status, valor_medido, Globals.init]
  have hc : carinha Globals.init ⟨5, 0, 0, 0⟩ = some 0 := by
    norm_num [carinha, valor_medido, Globals.init]
  refine ⟨rfl, h5, ?_, hc, ?_⟩
  · rw [h5]; decide
  · rw [hc]; decide

/-- C10, amended: on the Temperature, Humidity and CO2 views
`atualizar_buffer_com_carinha` is called with 0 iff the status is "Ideal" and
with 1 otherwise.  On the Gas view with ordered setpoints it is called with 1
iff the status is "Apodrecendo", and with 0 for both "Normal" and
"Amadurec. rapido". -/
theorem carinha_selection (g : Globals) (m : Medidas) (status0 : String) :
    (g.menu_index = 1 ∨ g.menu_index = 2 ∨ g.menu_index = 3 →
      (carinha g m = some 0 ↔ status g m status0 = "Ideal") ∧
      (carinha g m = some 1 ↔ status g m status0 ≠ "Ideal")) ∧
    (g.menu_index = 0 → g.etileno_lower ≤ g.etileno_upper →
      (carinha g m = some 1 ↔ status g m status0 = "Apodrecendo") ∧
      (carinha g m = some 0 ↔
        status g m status0 = "Normal" ∨ status g m status0 = "Amadurec. rapido")) := by
  refine ⟨fun h => ?_, fun h hord => ?_⟩
  · rcases h with h | h | h
    · have hc : carinha g m =
          if m.medida_temp ≥ g.temp_lower ∧ m.medida_temp ≤ g.temp_upper then some 0
          else some 1 := by
        simp only [carinha, valor_medido, h]
        simp
      rw [hc, status_temp g m status0 h]
      split_ifs <;> simp
    · have hc : carinha g m =
          if m.medida_umidade ≥ g.umidade_set then some 0 else some 1 := by
        simp [carinha, valor_medido, h]
      rw [hc, status_umidade g m status0 h]
      split_ifs <;> simp
    · have hc : carinha g m = if m.medida_co2 ≤ g.co2_set then some 0 else some 1 := by
        simp [carinha, valor_medido, h]
      rw [hc, status_co2 g m status0 h]
      split_ifs <;> simp
  · have hc : carinha g m =
        if m.medida_etileno < g.etileno_lower then some 0
        else if m.medida_etileno ≥ g.etileno_upper then some 1
        else some 0 := by
      simp [carinha, valor_medido, h]
    rw [hc, status_gas g m status0 h]
    by_cases h1 : m.medida_etileno < g.etileno_lower
    · simp [h1]
    · by_cases h2 : m.medida_etileno < g.etileno_upper
      · have : ¬ g.etileno_upper ≤ m.medida_etileno := not_le.mpr h2
        simp [h1, h2, this]
      · have : g.etileno_upper ≤ m.medida_etileno := not_lt.mp h2
        simp [h1, h2, this]

/-- C10 amended, at concrete inputs: with the initial setpoints Temperature 12 gets
face 0, and Gas 8 gets face 1. -/
theorem carinha_selection_witness :
    (({ Globals.init with menu_index := 1 } : Globals).menu_index = 1 ∧
      Globals.init.menu_index = 0 ∧
      Globals.init.etileno_lower ≤ Globals.init.etileno_upper) ∧
    (carinha { Globals.init with menu_index := 1 } ⟨0, 12, 0, 0⟩ = some 0 ↔
      status { Globals.init with menu_index := 1 } ⟨0, 12, 0, 0⟩ "" = "Ideal") ∧
    (carinha Globals.init ⟨8, 0, 0, 0⟩ = some 1 ↔
      status Globals.init ⟨8, 0, 0, 0⟩ "" = "Apodrecendo") :=
  ⟨⟨rfl, rfl, by decide⟩,
   ((carinha_selection { Globals.init with menu_index := 1 } ⟨0, 12, 0, 0⟩ "").1
      (Or.inl rfl)).1,
   ((carinha_selection Globals.init ⟨8, 0, 0, 0⟩ "").2 rfl (by decide)).1⟩

/-! ## Motor levels -/

/-- The conversion to `uint16_t` of a value in `[0, 255]` is its floor. -/
theorem float_to_uint16_of_nonneg (x : ℚ) (h0 : 0 ≤ x) (h1 : x ≤ 255) :
    float_to_uint16 x = some ⌊x⌋.toNat := by
  have hnum : 0 ≤ x.num := Rat.num_nonneg.mpr h0
  have hden : (0 : Int) ≤ x.den := Int.natCast_nonneg _
  have ht : Int.tdiv x.num x.den = ⌊x⌋ := by
    rw [Int.tdiv_eq_ediv hnum hden, Rat.floor_def]
  have hf0 : 0 ≤ ⌊x⌋ := Int.floor_nonneg.mpr h0
  have hf1 : ⌊x⌋ ≤ 255 := by
    have : (⌊x⌋ : ℚ) ≤ 255 := le_trans (Int.floor_le x) h1
    exact_mod_cast this
  unfold float_to_uint16
  rw [ht, if_pos ⟨hf0, by omega⟩]

/-- The clamped `motor_pwm` for a non-zero `max_error`. -/
theorem motor_pwm_of_ne_zero (erro max_error : ℚ) (h : max_error ≠ 0) :
    motor_pwm erro max_error = some (min (erro / max_error * 255) 255) := by
  unfold motor_pwm PWM_WRAP
  rw [if_neg h]
  split_ifs with h1
  · rw [min_eq_right (le_of_lt h1)]
  · rw [min_eq_left (not_lt.mp h1)]

/-- The level passed for a non-negative quotient `erro / max_error`: the value
`(erro / max_error) * 255` clamped to `[0, 255]` and truncated. -/
theorem motor_level_of_nonneg (erro max_error : ℚ) (h : max_error ≠ 0)
    (hq : 0 ≤ erro / max_error) :
    (motor_pwm erro max_error).bind float_to_uint16 =
      some ⌊max 0 (min (erro / max_error * 255) 255)⌋.toNat := by
  have h0 : 0 ≤ min (erro / max_error * 255) 255 :=
    le_min (mul_nonneg hq (by norm_num)) (by norm_num)
  rw [motor_pwm_of_ne_zero erro max_error h, Option.some_bind,
    float_to_uint16_of_nonneg _ h0 (min_le_right _ _), max_eq_right h0]

/-- The level passed when `erro` is at least `max_error > 0`: saturation at 255. -/
theorem motor_level_saturated (erro max_error : ℚ) (h : 0 < max_error)
    (hq : max_error ≤ erro) :
    (motor_pwm erro max_error).bind float_to_uint16 = some 255 := by
  have h1 : 1 ≤ erro / max_error := (one_le_div h).mpr hq
  have h255 : (255 : ℚ) ≤ erro / max_error * 255 := by linarith
  rw [motor_level_of_nonneg erro max_error (ne_of_gt h) (by linarith), min_eq_right h255]
  norm_num
  rfl

/-- The calls on the Temperature view. -/
theorem pwm_calls_temp (g : Globals) (m : Medidas) (h : g.menu_index = 1) :
    pwm_set_chan_level_calls g m =
      if m.medida_temp ≥ g.temp_lower ∧ m.medida_temp ≤ g.temp_upper then
        [(R_LED_PIN, some 0), (B_LED_PIN, some 0)]
      else if m.medida_temp < g.temp_lower then
        [(R_LED_PIN, (motor_pwm (g.temp_lower - m.medida_temp) g.temp_lower).bind
            float_to_uint16),
         (B_LED_PIN, some 0)]
      else
        [(B_LED_PIN, (motor_pwm (m.medida_temp - g.temp_upper) 10).bind float_to_uint16),
         (R_LED_PIN, some 0)] := by
  simp only [pwm_set_chan_level_calls, valor_medido, h]
  simp

/-- The calls on the Humidity view. -/
theorem pwm_calls_umidade (g : Globals) (m : Medidas) (h : g.menu_index = 2) :
    pwm_set_chan_level_calls g m =
      if m.medida_umidade ≥ g.umidade_set then [(R_LED_PIN, some 0)]
      else
        [(R_LED_PIN, (motor_pwm (g.umidade_set - m.medida_umidade) 50).bind
            float_to_uint16)] := by
  have h0 : float_to_uint16 0 = some 0 := by
    rw [float_to_uint16_of_nonneg 0 le_rfl (by norm_num)]
    simp
  simp only [pwm_set_chan_level_calls, valor_medido, h, h0]
  simp

/-- C12: on the Temperature view, for every value and every pair of setpoints,
the iteration writes one level for `R_LED_PIN` and one for `B_LED_PIN`, and at
least one of the two is 0. -/
theorem heat_cool_exclusive (g : Globals) (m : Medidas) (hmenu : g.menu_index = 1) :
    ∃ r b, (pwm_set_chan_level_calls g m = [(R_LED_PIN, r), (B_LED_PIN, b)] ∨
        pwm_set_chan_level_calls g m = [(B_LED_PIN, b), (R_LED_PIN, r)]) ∧
      (r = some 0 ∨ b = some 0) := by
  rw [pwm_calls_temp g m hmenu]
  split_ifs
  · exact ⟨some 0, some 0, Or.inl rfl, Or.inl rfl⟩
  · exact ⟨_, some 0, Or.inl rfl, Or.inr rfl⟩
  · exact ⟨some 0, _, Or.inr rfl, Or.inl rfl⟩

/-- C12, at concrete inputs: with inverted setpoints 15 and 10 and the value 12 the
heat branch runs and the cool level is 0. -/
theorem heat_cool_exclusive_witness :
    ({ Globals.init with menu_index := 1, temp_lower := 15, temp_upper := 10 } :
      Globals).menu_index = 1 ∧
    ∃ r b,
      (pwm_set_chan_level_calls
          { Globals.init with menu_index := 1, temp_lower := 15, temp_upper := 10 }
          ⟨0, 12, 0, 0⟩ = [(R_LED_PIN, r), (B_LED_PIN, b)] ∨
        pwm_set_chan_level_calls
          { Globals.init with menu_index := 1, temp_lower := 15, temp_upper := 10 }
          ⟨0, 12, 0, 0⟩ = [(B_LED_PIN, b), (R_LED_PIN, r)]) ∧
      (r = some 0 ∨ b = some 0) :=
  ⟨rfl, heat_cool_exclusive
    { Globals.init with menu_index := 1, temp_lower := 15, temp_upper := 10 }
    ⟨0, 12, 0, 0⟩ rfl⟩

/-- C13: on the Temperature view with `temp_lower ≤ temp_upper`, a value equal to
`temp_lower` or to `temp_upper` gives heat and cool level 0, and every value
`≥ temp_upper + 10` gives cool level 255; on the Humidity view a value equal
to `umidade_set` gives level 0 and every value `≤ umidade_set - 50` gives
level 255. -/
theorem drive_boundaries (g : Globals) (m : Medidas) :
    (g.menu_index = 1 → g.temp_lower ≤ g.temp_upper →
      (m.medida_temp = g.temp_lower ∨ m.medida_temp = g.temp_upper →
        pwm_set_chan_level_calls g m = [(R_LED_PIN, some 0), (B_LED_PIN, some 0)]) ∧
      (m.medida_temp ≥ g.temp_upper + 10 →
        pwm_set_chan_level_calls g m = [(B_LED_PIN, some 255), (R_LED_PIN, some 0)])) ∧
    (g.menu_index = 2 →
      (m.medida_umidade = g.umidade_set →
        pwm_set_chan_level_calls g m = [(R_LED_PIN, some 0)]) ∧
      (m.medida_umidade ≤ g.umidade_set - 50 →
        pwm_set_chan_level_calls g m = [(R_LED_PIN, some 255)])) := by
  refine ⟨fun hmenu hord => ⟨fun h => ?_, fun h => ?_⟩, fun hmenu => ⟨fun h => ?_, fun h => ?_⟩⟩
  · rw [pwm_calls_temp g m hmenu]
    have hI : m.medida_temp ≥ g.temp_lower ∧ m.medida_temp ≤ g.temp_upper := by
      rcases h with h | h <;> rw [h]
      · exact ⟨le_rfl, hord⟩
      · exact ⟨hord, le_rfl⟩
    rw [if_pos hI]
  · rw [pwm_calls_temp g m hmenu]
    have hI : ¬ (m.medida_temp ≥ g.temp_lower ∧ m.medida_temp ≤ g.temp_upper) := by
      intro hh
      linarith [hh.2]
    have hC : ¬ m.medida_temp < g.temp_lower := by
      intro hh
      linarith
    rw [if_neg hI, if_neg hC, motor_level_saturated _ _ (by norm_num) (by linarith)]
  · rw [pwm_calls_umidade g m hmenu, if_pos (ge_of_eq h)]
  · rw [pwm_calls_umidade g m hmenu]
    have hI : ¬ m.medida_umidade ≥ g.umidade_set := by
      intro hh
      linarith
    rw [if_neg hI, motor_level_saturated _ _ (by norm_num) (by linarith)]

/-- C13, at concrete inputs: with the initial setpoints, Temperature 10 gives the
levels 0 and 0, Temperature 25 gives cool level 255, Humidity 90 gives level 0
and Humidity 40 gives level 255. -/
theorem drive_boundaries_witness :
    (({ Globals.init with menu_index := 1 } : Globals).temp_lower ≤
        ({ Globals.init with menu_index := 1 } : Globals).temp_upper) ∧
    pwm_set_chan_level_calls { Globals.init with menu_index := 1 } ⟨0, 10, 0, 0⟩ =
      [(R_LED_PIN, some 0), (B_LED_PIN, some 0)] ∧
    pwm_set_chan_level_calls { Globals.init with menu_index := 1 } ⟨0, 25, 0, 0⟩ =
      [(B_LED_PIN, some 255), (R_LED_PIN, some 0)] ∧
    pwm_set_chan_level_calls { Globals.init with menu_index := 2 } ⟨0, 0, 90, 0⟩ =
      [(R_LED_PIN, some 0)] ∧
    pwm_set_chan_level_calls { Globals.init with menu_index := 2 } ⟨0, 0, 40, 0⟩ =
      [(R_LED_PIN, some 255)] :=
  ⟨by decide,
   ((drive_boundaries { Globals.init with menu_index := 1 } ⟨0, 10, 0, 0⟩).1 rfl
      (by decide)).1 (Or.inl rfl),
   ((drive_boundaries { Globals.init with menu_index := 1 } ⟨0, 25, 0, 0⟩).1 rfl
      (by decide)).2 (by norm_num [Globals.init]),
   ((drive_boundaries { Globals.init with menu_index := 2 } ⟨0, 0, 90, 0⟩).2 rfl).1 rfl,
   ((drive_boundaries { Globals.init with menu_index := 2 } ⟨0, 0, 40, 0⟩).2 rfl).2
      (by norm_num [Globals.init])⟩

/-- C14: on the Humidity view the level written for `R_LED_PIN` is 0 when the
value is at least `umidade_set`, and otherwise
`clamp (((umidade_set - v) / 50) * 255, 0, 255)` truncated; in both cases it is
a defined level in `0..255`. -/
theorem humidity_drive (g : Globals) (m : Medidas) (hmenu : g.menu_index = 2) :
    (m.medida_umidade ≥ g.umidade_set →
      pwm_set_chan_level_calls g m = [(R_LED_PIN, some 0)]) ∧
    (m.medida_umidade < g.umidade_set →
      pwm_set_chan_level_calls g m =
        [(R_LED_PIN,
          some ⌊max 0 (min ((g.umidade_set - m.medida_umidade) / 50 * 255) 255)⌋.toNat)]) ∧
    (∃ n, n ≤ 255 ∧ pwm_set_chan_level_calls g m = [(R_LED_PIN, some n)]) := by
  have hlt : m.medida_umidade < g.umidade_set →
      pwm_set_chan_level_calls g m =
        [(R_LED_PIN,
          some ⌊max 0 (min ((g.umidade_set - m.medida_umidade) / 50 * 255) 255)⌋.toNat)] := by
    intro h
    rw [pwm_calls_umidade g m hmenu, if_neg (not_le.mpr h),
      motor_level_of_nonneg _ _ (by norm_num) (div_nonneg (by linarith) (by norm_num))]
  have hge : m.medida_umidade ≥ g.umidade_set →
      pwm_set_chan_level_calls g m = [(R_LED_PIN, some 0)] := by
    intro h
    rw [pwm_calls_umidade g m hmenu, if_pos h]
  refine ⟨hge, hlt, ?_⟩
  by_cases h : m.medida_umidade ≥ g.umidade_set
  · exact ⟨0, by norm_num, hge h⟩
  · refine ⟨_, ?_, hlt (not_le.mp h)⟩
    have h1 : max 0 (min ((g.umidade_set - m.medida_umidade) / 50 * 255) 255) ≤ (255 : ℚ) :=
      max_le (by norm_num) (min_le_right _ _)
    have h2 : ⌊max 0 (min ((g.umidade_set - m.medida_umidade) / 50 * 255) 255)⌋ ≤ 255 := by
      have : (⌊max 0 (min ((g.umidade_set - m.medida_umidade) / 50 * 255) 255)⌋ : ℚ) ≤ 255 :=
        le_trans (Int.floor_le _) h1
      exact_mod_cast this
    omega

/-- C14, at concrete inputs: with the threshold 90 the value 80 gives the level
`⌊(10 / 50) * 255⌋ = 51`. -/
theorem humidity_drive_witness :
    ({ Globals.init with menu_index := 2 } : Globals).menu_index = 2 ∧
    (80 : ℚ) < ({ Globals.init with menu_index := 2 } : Globals).umidade_set ∧
    pwm_set_chan_level_calls { Globals.init with menu_index := 2 } ⟨0, 0, 80, 0⟩ =
      [(R_LED_PIN, some ⌊max (0 : ℚ) (min ((90 - 80) / 50 * 255) 255)⌋.toNat)] :=
  ⟨rfl, by decide,
   (humidity_drive { Globals.init with menu_index := 2 } ⟨0, 0, 80, 0⟩ rfl).2.1 (by decide)⟩

/-! ## Debounce: dropped edges and pairs of edges -/

/-- An event inside the debounce window leaves the globals as they are. -/
theorem button_callback_of_drop (g : Globals) (gpio events now : Nat)
    (h : sub32 now g.last_button_interrupt_time < DEBOUNCE_DELAY_MS) :
    button_callback g gpio events now = g := by
  unfold button_callback
  rw [if_pos h]

/-- An event outside the debounce window stores its time. -/
theorem button_callback_time_of_accept (g : Globals) (gpio events now : Nat)
    (h : DEBOUNCE_DELAY_MS ≤ sub32 now g.last_button_interrupt_time) :
    (button_callback g gpio events now).last_button_interrupt_time = now := by
  have h' : ¬ sub32 now g.last_button_interrupt_time < DEBOUNCE_DELAY_MS := by omega
  unfold button_callback
  rw [if_neg h']
  dsimp only
  split_ifs <;> rfl

/-- C16: an event that arrives inside the debounce window, on any pin and with
any event mask, leaves `menu_index`, `in_set_mode`, `current_set_param`, the
six setpoints and `last_button_interrupt_time` unchanged. -/
theorem dropped_edge_changes_nothing (g : Globals) (gpio events now : Nat)
    (h : sub32 now g.last_button_interrupt_time < DEBOUNCE_DELAY_MS) :
    (button_callback g gpio events now).menu_index = g.menu_index ∧
    (button_callback g gpio events now).in_set_mode = g.in_set_mode ∧
    (button_callback g gpio events now).current_set_param = g.current_set_param ∧
    (button_callback g gpio events now).etileno_lower = g.etileno_lower ∧
    (button_callback g gpio events now).etileno_upper = g.etileno_upper ∧
    (button_callback g gpio events now).temp_lower = g.temp_lower ∧
    (button_callback g gpio events now).temp_upper = g.temp_upper ∧
    (button_callback g gpio events now).umidade_set = g.umidade_set ∧
    (button_callback g gpio events now).co2_set = g.co2_set ∧
    (button_callback g gpio events now).last_button_interrupt_time =
      g.last_button_interrupt_time := by
  rw [button_callback_of_drop g gpio events now h]
  exact ⟨rfl, rfl, rfl, rfl, rfl, rfl, rfl, rfl, rfl, rfl⟩

/-- C16, at concrete inputs: after a Next edge accepted at 1000 ms, a Set edge at
1100 ms changes nothing: the view stays 1 and set mode is not entered. -/
theorem dropped_edge_changes_nothing_witness :
    sub32 1100 (button_callback Globals.init BUTTON_NEXT 4 1000).last_button_interrupt_time
      < DEBOUNCE_DELAY_MS ∧
    (button_callback (button_callback Globals.init BUTTON_NEXT 4 1000)
      BUTTON_SET 4 1100).menu_index = 1 ∧
    (button_callback (button_callback Globals.init BUTTON_NEXT 4 1000)
      BUTTON_SET 4 1100).in_set_mode = false ∧
    (button_callback (button_callback Globals.init BUTTON_NEXT 4 1000)
      BUTTON_SET 4 1100).last_button_interrupt_time = 1000 :=
  ⟨by decide,
   (dropped_edge_changes_nothing (button_callback Globals.init BUTTON_NEXT 4 1000)
      BUTTON_SET 4 1100 (by decide)).1.trans (by decide),
   (dropped_edge_changes_nothing (button_callback Globals.init BUTTON_NEXT 4 1000)
      BUTTON_SET 4 1100 (by decide)).2.1.trans (by decide),
   (dropped_edge_changes_nothing (button_callback Globals.init BUTTON_NEXT 4 1000)
      BUTTON_SET 4 1100 (by decide)).2.2.2.2.2.2.2.2.2.trans (by decide)⟩

/-- C17: after an event accepted at time `t` of the 32-bit millisecond clock, an
event 50 ms later (clock value `(t + 50) mod 2^32`) is dropped, the globals
staying as the first event left them, and an event 250 ms later passes the
gate and stores its time, whatever the pins and event masks of the two. -/
theorem two_edge_debounce (g : Globals) (gpio1 events1 gpio2 events2 t : Nat)
    (ha : DEBOUNCE_DELAY_MS ≤ sub32 t g.last_button_interrupt_time) :
    (button_callback g gpio1 events1 t).last_button_interrupt_time = t ∧
    button_callback (button_callback g gpio1 events1 t) gpio2 events2 ((t + 50) % 2 ^ 32) =
      button_callback g gpio1 events1 t ∧
    DEBOUNCE_DELAY_MS ≤ sub32 ((t + 250) % 2 ^ 32)
      (button_callback g gpio1 events1 t).last_button_interrupt_time ∧
    (button_callback (button_callback g gpio1 events1 t) gpio2 events2
      ((t + 250) % 2 ^ 32)).last_button_interrupt_time = (t + 250) % 2 ^ 32 := by
  have h1 := button_callback_time_of_accept g gpio1 events1 t ha
  have h50 : sub32 ((t + 50) % 2 ^ 32)
      (button_callback g gpio1 events1 t).last_button_interrupt_time < DEBOUNCE_DELAY_MS := by
    rw [h1]
    unfold sub32 DEBOUNCE_DELAY_MS
    omega
  have h250 : DEBOUNCE_DELAY_MS ≤ sub32 ((t + 250) % 2 ^ 32)
      (button_callback g gpio1 events1 t).last_button_interrupt_time := by
    rw [h1]
    unfold sub32 DEBOUNCE_DELAY_MS
    omega
  exact ⟨h1, button_callback_of_drop _ gpio2 events2 _ h50, h250,
    button_callback_time_of_accept _ gpio2 events2 _ h250⟩

/-- C17, at concrete inputs: a Next edge at 1000 ms followed by a Set edge at
1050 ms leaves set mode off; followed by a Set edge at 1250 ms the time 1250
is stored. -/
theorem two_edge_debounce_witness :
    DEBOUNCE_DELAY_MS ≤ sub32 1000 Globals.init.last_button_interrupt_time ∧
    button_callback (button_callback Globals.init BUTTON_NEXT 4 1000) BUTTON_SET 4
      ((1000 + 50) % 2 ^ 32) = button_callback Globals.init BUTTON_NEXT 4 1000 ∧
    (button_callback (button_callback Globals.init BUTTON_NEXT 4 1000) BUTTON_SET 4
      ((1000 + 250) % 2 ^ 32)).last_button_interrupt_time = (1000 + 250) % 2 ^ 32 :=
  ⟨by decide,
   (two_edge_debounce Globals.init BUTTON_NEXT 4 BUTTON_SET 4 1000 (by decide)).2.1,
   (two_edge_debounce Globals.init BUTTON_NEXT 4 BUTTON_SET 4 1000 (by decide)).2.2.2⟩

/-! ## Indicator colour -/

/-- C18: on the Gas view `set_rgb_color` is called with (0, 255, 0) iff the status
is "Normal", with (255, 165, 0) iff it is "Amadurec. rapido" and with
(255, 0, 0) iff it is "Apodrecendo", for every value and setpoints; on the CO2
view it is called with (0, 255, 0) iff the status is "Ideal" and with
(255, 0, 0) otherwise. -/
theorem indicator_colour (g : Globals) (m : Medidas) (status0 : String) :
    (g.menu_index = 0 →
      (set_rgb_color_call g m status0 = some (0, 255, 0) ↔ status g m status0 = "Normal") ∧
      (set_rgb_color_call g m status0 = some (255, 165, 0) ↔
        status g m status0 = "Amadurec. rapido") ∧
      (set_rgb_color_call g m status0 = some (255, 0, 0) ↔
        status g m status0 = "Apodrecendo")) ∧
    (g.menu_index = 3 →
      (set_rgb_color_call g m status0 = some (0, 255, 0) ↔ status g m status0 = "Ideal") ∧
      (set_rgb_color_call g m status0 = some (255, 0, 0) ↔ status g m status0 ≠ "Ideal")) := by
  refine ⟨fun h => ?_, fun h => ?_⟩
  · have hc : set_rgb_color_call g m status0 =
        if m.medida_etileno < g.etileno_lower then some (0, 255, 0)
        else if m.medida_etileno < g.etileno_upper then some (255, 165, 0)
        else some (255, 0, 0) := by
      simp [set_rgb_color_call, valor_medido, h]
    rw [hc, status_gas g m status0 h]
    split_ifs <;> first | (simp; done) | (simp; decide)
  · have hc : set_rgb_color_call g m status0 =
        if status g m status0 = "Ideal" then some (0, 255, 0) else some (255, 0, 0) := by
      simp [set_rgb_color_call, h]
    rw [hc]
    split_ifs with h1 <;> simp [h1]

/-- C18, at concrete inputs: with the initial setpoints Gas 5 ppm is shown amber
and CO2 900 ppm is shown red. -/
theorem indicator_colour_witness :
    (Globals.init.menu_index = 0 ∧
      ({ Globals.init with menu_index := 3 } : Globals).menu_index = 3) ∧
    (set_rgb_color_call Globals.init ⟨5, 0, 0, 0⟩ "" = some (255, 165, 0) ↔
      status Globals.init ⟨5, 0, 0, 0⟩ "" = "Amadurec. rapido") ∧
    (set_rgb_color_call { Globals.init with menu_index := 3 } ⟨0, 0, 0, 900⟩ ""
        = some (255, 0, 0) ↔
      status { Globals.init with menu_index := 3 } ⟨0, 0, 0, 900⟩ "" ≠ "Ideal") :=
  ⟨⟨rfl, rfl⟩,
   ((indicator_colour Globals.init ⟨5, 0, 0, 0⟩ "").1 rfl).2.1,
   ((indicator_colour { Globals.init with menu_index := 3 } ⟨0, 0, 0, 900⟩ "").2 rfl).2⟩

/-! ## Binary32 rounding -/

/-- Zero has no binary digit. -/
theorem bit_length_zero (fuel : Nat) : bit_length fuel 0 = 0 := by
  cases fuel <;> simp [bit_length]

/-- A positive `n` has `bit_length fuel n` binary digits when `fuel ≥ n`. -/
theorem bit_length_spec : ∀ fuel n : Nat, 0 < n → n ≤ fuel →
    0 < bit_length fuel n ∧ 2 ^ (bit_length fuel n - 1) ≤ n ∧ n < 2 ^ bit_length fuel n := by
  intro fuel
  induction fuel with
  | zero => intro n h0 h; omega
  | succ f ih =>
    intro n h0 h
    have hn : n ≠ 0 := by omega
    simp only [bit_length, if_neg hn]
    by_cases h2 : n / 2 = 0
    · rw [h2, bit_length_zero]
      have : n = 1 := by omega
      subst this
      simp
    · obtain ⟨hb, hlo, hhi⟩ := ih (n / 2) (by omega) (by omega)
      refine ⟨by omega, ?_, ?_⟩
      · have e : bit_length f (n / 2) + 1 - 1 = (bit_length f (n / 2) - 1) + 1 := by omega
        rw [e, pow_succ]
        omega
      · rw [pow_succ]
        omega

/-- The result of `round_half_even` is within one half of the quotient, and is
even when it is exactly one half away. -/
theorem round_half_even_spec (P Q : Nat) (hQ : 0 < Q) :
    ((P : ℚ) / Q - 1 / 2 ≤ round_half_even P Q) ∧
    ((round_half_even P Q : ℚ) ≤ P / Q + 1 / 2) ∧
    (((round_half_even P Q : ℚ) = P / Q - 1 / 2 ∨ (round_half_even P Q : ℚ) = P / Q + 1 / 2) →
      round_half_even P Q % 2 = 0) := by
  have hQq : (0 : ℚ) < Q := by exact_mod_cast hQ
  have hdm : Q * (P / Q) + P % Q = P := Nat.div_add_mod P Q
  have hmod : P % Q < Q := Nat.mod_lt P hQ
  have hP : (P : ℚ) / Q = (P / Q : Nat) + (P % Q : Nat) / Q := by
    field_simp
    have : ((Q * (P / Q) + P % Q : Nat) : ℚ) = P := by rw [hdm]
    push_cast at this
    linarith
  have hb0 : (0 : ℚ) ≤ (P % Q : Nat) / Q := by positivity
  unfold round_half_even
  split_ifs with h1 h2 h3
  · have : (2 : ℚ) * (P % Q : Nat) < Q := by exact_mod_cast h1
    have hlt : ((P % Q : Nat) : ℚ) / Q < 1 / 2 := by
      rw [div_lt_iff₀ hQq]; linarith
    refine ⟨by linarith, by linarith, ?_⟩
    rintro (h | h) <;> linarith
  · have : (Q : ℚ) < 2 * (P % Q : Nat) := by exact_mod_cast h2
    have hgt : 1 / 2 < ((P % Q : Nat) : ℚ) / Q := by
      rw [lt_div_iff₀ hQq]; linarith
    have hlt1 : ((P % Q : Nat) : ℚ) / Q < 1 := by
      rw [div_lt_one hQq]; exact_mod_cast hmod
    push_cast
    refine ⟨by linarith, by linarith, ?_⟩
    rintro (h | h) <;> linarith
  · have he : 2 * (P % Q) = Q := by omega
    have heq : ((P % Q : Nat) : ℚ) / Q = 1 / 2 := by
      rw [div_eq_iff (ne_of_gt hQq)]
      have : ((2 * (P % Q) : Nat) : ℚ) = Q := by rw [he]
      push_cast at this
      linarith
    refine ⟨by linarith, by linarith, fun _ => h3⟩
  · have he : 2 * (P % Q) = Q := by omega
    have heq : ((P % Q : Nat) : ℚ) / Q = 1 / 2 := by
      rw [div_eq_iff (ne_of_gt hQq)]
      have : ((2 * (P % Q) : Nat) : ℚ) = Q := by rw [he]
      push_cast at this
      linarith
    push_cast
    refine ⟨by linarith, by linarith, fun _ => by omega⟩

/-- Rounding to the nearest integer is monotone in the quotient. -/
theorem round_half_even_mono (P Q P' Q' : Nat) (hQ : 0 < Q) (hQ' : 0 < Q')
    (h : (P : ℚ) / Q ≤ P' / Q') : round_half_even P Q ≤ round_half_even P' Q' := by
  obtain ⟨-, hr2, hr3⟩ := round_half_even_spec P Q hQ
  obtain ⟨hs1, -, hs3⟩ := round_half_even_spec P' Q' hQ'
  by_contra hlt
  have h1 : round_half_even P' Q' + 1 ≤ round_half_even P Q := by omega
  have h1q : (round_half_even P' Q' : ℚ) + 1 ≤ round_half_even P Q := by exact_mod_cast h1
  have e1 : (round_half_even P Q : ℚ) = P / Q + 1 / 2 := by linarith
  have e2 : (round_half_even P' Q' : ℚ) = P' / Q' - 1 / 2 := by linarith
  have p1 := hr3 (Or.inr e1)
  have p2 := hs3 (Or.inl e2)
  have h2q : (round_half_even P Q : ℚ) ≤ round_half_even P' Q' + 1 := by linarith
  have h2 : round_half_even P Q ≤ round_half_even P' Q' + 1 := by exact_mod_cast h2q
  omega

/-- An integer quotient is its own rounding. -/
theorem round_half_even_exact (c Q : Nat) (hQ : 0 < Q) : round_half_even (c * Q) Q = c := by
  unfold round_half_even
  rw [Nat.mul_mod_left, Nat.mul_div_cancel c hQ, if_pos (by omega)]

/-- A power of two with an integer exponent as a quotient of two natural powers. -/
theorem two_zpow_split (k : ℤ) : (2 : ℚ) ^ k = (2 : ℚ) ^ k.toNat / (2 : ℚ) ^ (-k).toNat := by
  rcases le_total 0 k with h | h
  · have e1 : (-k).toNat = 0 := Int.toNat_eq_zero.mpr (by omega)
    have e2 : (k.toNat : ℤ) = k := Int.toNat_of_nonneg h
    rw [e1, pow_zero, div_one, ← zpow_natCast, e2]
  · have e1 : k.toNat = 0 := Int.toNat_eq_zero.mpr h
    have e2 : ((-k).toNat : ℤ) = -k := Int.toNat_of_nonneg (by omega)
    rw [e1, pow_zero, one_div, ← zpow_natCast, e2, zpow_neg, inv_inv]

/-- The exponent is the binary order of magnitude of `p / q`, clamped below at
`-126`. -/
theorem expoente_char (p q : Nat) (hp : 0 < p) (hq : 0 < q) :
    ∃ e : ℤ, expoente p q = max e (-126) ∧ (2 : ℚ) ^ e ≤ (p : ℚ) / q ∧
      (p : ℚ) / q < (2 : ℚ) ^ (e + 1) := by
  obtain ⟨hbp, hplo, hphi⟩ := bit_length_spec p p hp le_rfl
  obtain ⟨hbq, hqlo, hqhi⟩ := bit_length_spec q q hq le_rfl
  have hpq : (0 : ℚ) < p := by exact_mod_cast hp
  have hqq : (0 : ℚ) < q := by exact_mod_cast hq
  set bp := bit_length p p with hbpdef
  set bq := bit_length q q with hbqdef
  have h2 : (0 : ℚ) < 2 := by norm_num
  -- bounds in ℚ with integer exponents
  have Plo : (2 : ℚ) ^ ((bp : ℤ) - 1) ≤ p := by
    have : ((bp : ℤ) - 1) = ((bp - 1 : Nat) : ℤ) := by omega
    rw [this, zpow_natCast]
    exact_mod_cast hplo
  have Phi : (p : ℚ) < (2 : ℚ) ^ (bp : ℤ) := by
    rw [zpow_natCast]
    exact_mod_cast hphi
  have Qlo : (2 : ℚ) ^ ((bq : ℤ) - 1) ≤ q := by
    have : ((bq : ℤ) - 1) = ((bq - 1 : Nat) : ℤ) := by omega
    rw [this, zpow_natCast]
    exact_mod_cast hqlo
  have Qhi : (q : ℚ) < (2 : ℚ) ^ (bq : ℤ) := by
    rw [zpow_natCast]
    exact_mod_cast hqhi
  have hlow : (2 : ℚ) ^ ((bp : ℤ) - bq - 1) ≤ (p : ℚ) / q := by
    rw [le_div_iff₀ hqq]
    calc (2 : ℚ) ^ ((bp : ℤ) - bq - 1) * q
        ≤ (2 : ℚ) ^ ((bp : ℤ) - bq - 1) * (2 : ℚ) ^ (bq : ℤ) :=
          mul_le_mul_of_nonneg_left (le_of_lt Qhi) (le_of_lt (zpow_pos h2 _))
      _ = (2 : ℚ) ^ ((bp : ℤ) - 1) := by
          rw [← zpow_add₀ (by norm_num : (2 : ℚ) ≠ 0)]
          congr 1
          ring
      _ ≤ p := Plo
  have hhigh : (p : ℚ) / q < (2 : ℚ) ^ ((bp : ℤ) - bq + 1) := by
    rw [div_lt_iff₀ hqq]
    calc (p : ℚ) < (2 : ℚ) ^ (bp : ℤ) := Phi
      _ = (2 : ℚ) ^ ((bp : ℤ) - bq + 1) * (2 : ℚ) ^ ((bq : ℤ) - 1) := by
          rw [← zpow_add₀ (by norm_num : (2 : ℚ) ≠ 0)]
          congr 1
          ring
      _ ≤ (2 : ℚ) ^ ((bp : ℤ) - bq + 1) * q :=
          mul_le_mul_of_nonneg_left Qlo (le_of_lt (zpow_pos h2 _))
  have hcond : (p * 2 ^ ((bq : ℤ) - (bp : ℤ)).toNat < q * 2 ^ ((bp : ℤ) - (bq : ℤ)).toNat) ↔
      (p : ℚ) / q < (2 : ℚ) ^ ((bp : ℤ) - bq) := by
    have hs := two_zpow_split ((bp : ℤ) - bq)
    have hneg : -((bp : ℤ) - bq) = (bq : ℤ) - bp := by ring
    rw [hneg] at hs
    rw [hs, div_lt_div_iff₀ hqq (pow_pos h2 _),
      mul_comm ((2 : ℚ) ^ ((bp : ℤ) - bq).toNat) (q : ℚ)]
    constructor
    · intro h
      exact_mod_cast h
    · intro h
      exact_mod_cast h
  unfold expoente
  by_cases hc : p * 2 ^ ((bq : ℤ) - (bp : ℤ)).toNat < q * 2 ^ ((bp : ℤ) - (bq : ℤ)).toNat
  · refine ⟨(bp : ℤ) - bq - 1, by rw [if_pos hc], hlow, ?_⟩
    have : (bp : ℤ) - bq - 1 + 1 = (bp : ℤ) - bq := by ring
    rw [this]
    exact hcond.mp hc
  · refine ⟨(bp : ℤ) - bq, by rw [if_neg hc], ?_, hhigh⟩
    exact not_lt.mp (fun h => hc (hcond.mpr h))

/-- On a positive rational `round32` is `round_half_even` of the value divided by
the unit in the last place, times that unit. -/
theorem round32_pos (x : ℚ) (hx : 0 < x) :
    ∃ (e : ℤ) (P Q : Nat), 0 < Q ∧ (2 : ℚ) ^ e ≤ x ∧ x < (2 : ℚ) ^ (e + 1) ∧
      (P : ℚ) / Q = x / (2 : ℚ) ^ (max e (-126) - 23) ∧
      round32 x = (round_half_even P Q : ℚ) * (2 : ℚ) ^ (max e (-126) - 23) := by
  have hnum : 0 < x.num := Rat.num_pos.mpr hx
  have hp : 0 < x.num.natAbs := Int.natAbs_pos.mpr (ne_of_gt hnum)
  have hq : 0 < x.den := x.den_pos
  have hxpq : (x.num.natAbs : ℚ) / x.den = x := by
    have h1 : (x.num.natAbs : ℤ) = x.num := Int.natAbs_of_nonneg (le_of_lt hnum)
    have h1q : (x.num.natAbs : ℚ) = (x.num : ℚ) :=
      calc (x.num.natAbs : ℚ) = ((x.num.natAbs : ℤ) : ℚ) := (Int.cast_natCast _).symm
        _ = (x.num : ℚ) := by rw [h1]
    rw [h1q]
    exact Rat.num_div_den x
  obtain ⟨e, hE, hlo, hhi⟩ := expoente_char x.num.natAbs x.den hp hq
  rw [hxpq] at hlo hhi
  have h2 : (0 : ℚ) < 2 := by norm_num
  have hK : (23 - expoente x.num.natAbs x.den) = -(max e (-126) - 23) := by
    rw [hE]; ring
  have hsplit := two_zpow_split (max e (-126) - 23)
  refine ⟨e, x.num.natAbs * 2 ^ (23 - expoente x.num.natAbs x.den).toNat,
    x.den * 2 ^ (expoente x.num.natAbs x.den - 23).toNat,
    Nat.mul_pos hq (pow_pos (by norm_num) _), hlo, hhi, ?_, ?_⟩
  · rw [hK, hE, hsplit]
    push_cast
    conv_rhs => rw [← hxpq]
    have ha : ((2 : ℚ) ^ (max e (-126) - 23).toNat) ≠ 0 := pow_ne_zero _ (by norm_num)
    have hb : ((2 : ℚ) ^ (-(max e (-126) - 23)).toNat) ≠ 0 := pow_ne_zero _ (by norm_num)
    have hc : (x.den : ℚ) ≠ 0 := by exact_mod_cast (ne_of_gt hq)
    field_simp
  · unfold round32
    rw [Int.sign_eq_one_of_pos hnum, one_mul, Rat.mkRat_eq_div, hK, hE, hsplit]
    push_cast
    ring

/-- Zero is not changed by the rounding. -/
theorem round32_zero : round32 0 = 0 := by
  decide!

/-- The rounding of a non-negative value is non-negative. -/
theorem round32_nonneg (x : ℚ) (hx : 0 ≤ x) : 0 ≤ round32 x := by
  rcases eq_or_lt_of_le hx with h | h
  · rw [← h, round32_zero]
  · obtain ⟨e, P, Q, -, -, -, -, hr⟩ := round32_pos x h
    rw [hr]
    exact mul_nonneg (Nat.cast_nonneg _) (le_of_lt (zpow_pos (by norm_num) _))

/-- Values `n * 2 ^ j` with a 24-bit `n` and `j ≥ -149` are not changed by the
rounding. -/
theorem round32_exact (n : Nat) (j : ℤ) (hn : n < 2 ^ 24) (hj : -149 ≤ j) :
    round32 (n * (2 : ℚ) ^ j) = n * (2 : ℚ) ^ j := by
  rcases Nat.eq_zero_or_pos n with h0 | hpos
  · subst h0
    simp [round32_zero]
  have h2 : (0 : ℚ) < 2 := by norm_num
  have h12 : (1 : ℚ) < 2 := by norm_num
  have hnq : (0 : ℚ) < n := by exact_mod_cast hpos
  have hx : 0 < (n : ℚ) * (2 : ℚ) ^ j := mul_pos hnq (zpow_pos h2 _)
  obtain ⟨e, P, Q, hQ, hlo, -, hPQ, hr⟩ := round32_pos _ hx
  -- the exponent is below 24 + j
  have hlt : (2 : ℚ) ^ e < (2 : ℚ) ^ (24 + j) := by
    calc (2 : ℚ) ^ e ≤ n * (2 : ℚ) ^ j := hlo
      _ < (2 : ℚ) ^ (24 : ℤ) * (2 : ℚ) ^ j := by
          apply mul_lt_mul_of_pos_right _ (zpow_pos h2 _)
          rw [zpow_ofNat]
          exact_mod_cast hn
      _ = (2 : ℚ) ^ (24 + j) := by rw [← zpow_add₀ (by norm_num : (2 : ℚ) ≠ 0)]
  have he : e < 24 + j := (zpow_lt_zpow_iff_right₀ h12).mp hlt
  have hKj : max e (-126) - 23 ≤ j := by
    have : max e (-126) ≤ j + 23 := max_le (by omega) (by omega)
    omega
  -- the scaled value is a natural number
  obtain ⟨K, hKdef⟩ : ∃ K : ℤ, K = max e (-126) - 23 := ⟨_, rfl⟩
  rw [← hKdef] at hPQ hr hKj
  have hc : (n : ℚ) * (2 : ℚ) ^ j / (2 : ℚ) ^ K = ((n * 2 ^ (j - K).toNat : Nat) : ℚ) := by
    have e1 : ((j - K).toNat : ℤ) = j - K := Int.toNat_of_nonneg (by omega)
    push_cast
    rw [← zpow_natCast (2 : ℚ) (j - K).toNat, e1, zpow_sub₀ (by norm_num : (2 : ℚ) ≠ 0),
      mul_div_assoc]
  have hQq : (Q : ℚ) ≠ 0 := by exact_mod_cast (ne_of_gt hQ)
  have hP : P = n * 2 ^ (j - K).toNat * Q := by
    have : (P : ℚ) = ((n * 2 ^ (j - K).toNat : Nat) : ℚ) * Q := by
      rw [← hc, ← hPQ]
      field_simp
    exact_mod_cast this
  rw [hr, hP, round_half_even_exact _ _ hQ, ← hc]
  have hK0 : (2 : ℚ) ^ K ≠ 0 := ne_of_gt (zpow_pos h2 _)
  field_simp

/-- Naturals below `2 ^ 24` are not changed by the rounding. -/
theorem round32_natCast (n : Nat) (hn : n < 2 ^ 24) : round32 n = n := by
  have := round32_exact n 0 hn (by norm_num)
  simpa using this

/-- The rounding is monotone on the non-negative rationals. -/
theorem round32_mono (x y : ℚ) (hx : 0 ≤ x) (hxy : x ≤ y) : round32 x ≤ round32 y := by
  rcases eq_or_lt_of_le hx with h0 | hxpos
  · rw [← h0, round32_zero]
    exact round32_nonneg y (le_trans hx hxy)
  have hypos : 0 < y := lt_of_lt_of_le hxpos hxy
  have h2 : (0 : ℚ) < 2 := by norm_num
  have h12 : (1 : ℚ) < 2 := by norm_num
  have h20 : (2 : ℚ) ≠ 0 := by norm_num
  obtain ⟨e, P, Q, hQ, hlo, hhi, hPQ, hr⟩ := round32_pos x hxpos
  obtain ⟨e', P', Q', hQ', hlo', hhi', hPQ', hr'⟩ := round32_pos y hypos
  have hee : e < e' + 1 :=
    (zpow_lt_zpow_iff_right₀ h12).mp (lt_of_le_of_lt hlo (lt_of_le_of_lt hxy hhi'))
  obtain ⟨K, hK⟩ : ∃ K : ℤ, K = max e (-126) - 23 := ⟨_, rfl⟩
  obtain ⟨K', hK'⟩ : ∃ K : ℤ, K = max e' (-126) - 23 := ⟨_, rfl⟩
  rw [← hK] at hPQ hr
  rw [← hK'] at hPQ' hr'
  have hKK : K ≤ K' := by
    have : max e (-126) ≤ max e' (-126) := max_le_max (by omega) le_rfl
    omega
  rw [hr, hr']
  rcases eq_or_lt_of_le hKK with heq | hlt
  · rw [← heq]
    apply mul_le_mul_of_nonneg_right _ (le_of_lt (zpow_pos h2 _))
    have : round_half_even P Q ≤ round_half_even P' Q' := by
      apply round_half_even_mono P Q P' Q' hQ hQ'
      rw [hPQ, hPQ', ← heq]
      exact div_le_div_of_nonneg_right hxy (le_of_lt (zpow_pos h2 _))
    exact_mod_cast this
  · -- different binades
    have hmax' : max e' (-126) = e' := by
      apply max_eq_left
      have : max e (-126) < max e' (-126) := by omega
      have : -126 ≤ max e (-126) := le_max_right _ _
      by_contra hc
      have : max e' (-126) = -126 := max_eq_right (by omega)
      omega
    have hK'e : K' = e' - 23 := by rw [hK', hmax']
    -- upper bound for x
    have hup : round_half_even P Q ≤ 2 ^ 24 := by
      have h1 : round_half_even P Q ≤ round_half_even (2 ^ 24 * 1) 1 := by
        apply round_half_even_mono P Q _ 1 hQ (by norm_num)
        rw [hPQ, div_le_iff₀ (zpow_pos h2 _)]
        have : x ≤ (2 : ℚ) ^ (K + 24) := by
          apply le_trans (le_of_lt hhi)
          apply zpow_le_zpow_right₀ (le_of_lt h12)
          have : e ≤ max e (-126) := le_max_left _ _
          omega
        rw [zpow_add₀ h20] at this
        push_cast
        have e24 : (2 : ℚ) ^ (24 : ℤ) = 2 ^ 24 := by rw [zpow_ofNat]
        rw [e24] at this
        linarith
      rwa [round_half_even_exact _ _ (by norm_num)] at h1
    have hdn : 2 ^ 23 ≤ round_half_even P' Q' := by
      have h1 : round_half_even (2 ^ 23 * 1) 1 ≤ round_half_even P' Q' := by
        apply round_half_even_mono _ 1 P' Q' (by norm_num) hQ'
        rw [hPQ', le_div_iff₀ (zpow_pos h2 _)]
        have : (2 : ℚ) ^ (K' + 23) ≤ y := by
          apply le_trans _ hlo'
          apply zpow_le_zpow_right₀ (le_of_lt h12)
          omega
        rw [zpow_add₀ h20] at this
        push_cast
        have e23 : (2 : ℚ) ^ (23 : ℤ) = 2 ^ 23 := by rw [zpow_ofNat]
        rw [e23] at this
        linarith
      rwa [round_half_even_exact _ _ (by norm_num)] at h1
    have hupq : (round_half_even P Q : ℚ) ≤ 2 ^ 24 := by exact_mod_cast hup
    have hdnq : (2 : ℚ) ^ 23 ≤ round_half_even P' Q' := by exact_mod_cast hdn
    calc (round_half_even P Q : ℚ) * (2 : ℚ) ^ K
        ≤ 2 ^ 24 * (2 : ℚ) ^ K :=
          mul_le_mul_of_nonneg_right hupq (le_of_lt (zpow_pos h2 _))
      _ = (2 : ℚ) ^ (K + 24) := by
          rw [zpow_add₀ h20, zpow_ofNat]; ring
      _ ≤ (2 : ℚ) ^ (K' + 23) := zpow_le_zpow_right₀ (le_of_lt h12) (by omega)
      _ = 2 ^ 23 * (2 : ℚ) ^ K' := by
          rw [zpow_add₀ h20, zpow_ofNat]; ring
      _ ≤ (round_half_even P' Q' : ℚ) * (2 : ℚ) ^ K' :=
          mul_le_mul_of_nonneg_right hdnq (le_of_lt (zpow_pos h2 _))

/-- Quotients by 8192 of naturals below `2 ^ 24` are not changed by the rounding. -/
theorem round32_grid (n : Nat) (hn : n < 2 ^ 24) : round32 ((n : ℚ) / 8192) = n / 8192 := by
  have h := round32_exact n (-13) hn (by norm_num)
  have e : (2 : ℚ) ^ (-13 : ℤ) = 1 / 8192 := by
    rw [zpow_neg, zpow_ofNat]
    norm_num
  rw [e] at h
  have e2 : (n : ℚ) * (1 / 8192) = n / 8192 := by ring
  rwa [e2] at h

/-- A measurement is strictly increasing in the raw sample, for a rounding that
is monotone on the non-negative rationals and exact on 24-bit naturals and on
their quotients by 8192 -/
theorem medida_strict_mono (rnd : ℚ → ℚ)
    (hmono : ∀ x y : ℚ, 0 ≤ x → x ≤ y → rnd x ≤ rnd y)
    (hnat : ∀ n : Nat, n < 2 ^ 24 → rnd n = n)
    (hgrid : ∀ n : Nat, n < 2 ^ 24 → rnd ((n : ℚ) / 8192) = n / 8192)
    (s : Nat) (hs : 0 < s) (hs1 : s ≤ 1000)
    (r1 r2 : ℤ) (h0 : 0 ≤ r1) (h12 : r1 < r2) (h2 : r2 ≤ 4095) :
    medida rnd r1 s < medida rnd r2 s := by
  obtain ⟨n1, rfl⟩ := Int.eq_ofNat_of_zero_le h0
  obtain ⟨n2, rfl⟩ := Int.eq_ofNat_of_zero_le (le_trans h0 (le_of_lt h12))
  have hn12 : n1 < n2 := by exact_mod_cast h12
  have hn2 : n2 ≤ 4095 := by exact_mod_cast h2
  have hr0 : rnd 0 = 0 := by
    have := hnat 0 (by norm_num)
    simpa using this
  have hsq : (0 : ℚ) < s := by exact_mod_cast hs
  -- grid points between the two quotients
  obtain ⟨lo, hlo⟩ : ∃ lo : Nat, lo = (8192 * n1 + 4094) / 4095 := ⟨_, rfl⟩
  obtain ⟨up, hup⟩ : ∃ up : Nat, up = (8192 * n2) / 4095 := ⟨_, rfl⟩
  have f1 : 8192 * n1 ≤ 4095 * lo := by omega
  have f2 : 4095 * up ≤ 8192 * n2 := by omega
  have f3 : lo < up := by omega
  have f4 : up ≤ 8192 := by omega
  have a1 : (n1 : ℚ) / 4095 ≤ (lo : ℚ) / 8192 := by
    rw [div_le_div_iff₀ (by norm_num) (by norm_num)]
    have : ((8192 * n1 : Nat) : ℚ) ≤ ((4095 * lo : Nat) : ℚ) := by exact_mod_cast f1
    push_cast at this
    linarith
  have a2 : (up : ℚ) / 8192 ≤ (n2 : ℚ) / 4095 := by
    rw [div_le_div_iff₀ (by norm_num) (by norm_num)]
    have : ((4095 * up : Nat) : ℚ) ≤ ((8192 * n2 : Nat) : ℚ) := by exact_mod_cast f2
    push_cast at this
    linarith
  have b1 : rnd ((n1 : ℚ) / 4095) ≤ (lo : ℚ) / 8192 := by
    have := hmono _ _ (by positivity) a1
    rwa [hgrid lo (by omega)] at this
  have b2 : (up : ℚ) / 8192 ≤ rnd ((n2 : ℚ) / 4095) := by
    have := hmono _ _ (by positivity) a2
    rwa [hgrid up (by omega)] at this
  have b0 : 0 ≤ rnd ((n1 : ℚ) / 4095) := by
    have := hmono 0 _ le_rfl (by positivity : (0 : ℚ) ≤ (n1 : ℚ) / 4095)
    rwa [hr0] at this
  have hls : lo * s < 2 ^ 24 := by
    have : lo * s ≤ 8192 * 1000 := Nat.mul_le_mul (by omega) hs1
    omega
  have hus : up * s < 2 ^ 24 := by
    have : up * s ≤ 8192 * 1000 := Nat.mul_le_mul f4 hs1
    omega
  have c1 : rnd (rnd ((n1 : ℚ) / 4095) * s) ≤ ((lo * s : Nat) : ℚ) / 8192 := by
    have h : rnd ((n1 : ℚ) / 4095) * s ≤ ((lo * s : Nat) : ℚ) / 8192 := by
      push_cast
      calc rnd ((n1 : ℚ) / 4095) * s ≤ (lo : ℚ) / 8192 * s :=
            mul_le_mul_of_nonneg_right b1 (le_of_lt hsq)
        _ = (lo : ℚ) * s / 8192 := by ring
    have := hmono _ _ (mul_nonneg b0 (le_of_lt hsq)) h
    rwa [hgrid _ hls] at this
  have c2 : ((up * s : Nat) : ℚ) / 8192 ≤ rnd (rnd ((n2 : ℚ) / 4095) * s) := by
    have h : ((up * s : Nat) : ℚ) / 8192 ≤ rnd ((n2 : ℚ) / 4095) * s := by
      push_cast
      calc (up : ℚ) * s / 8192 = (up : ℚ) / 8192 * s := by ring
        _ ≤ rnd ((n2 : ℚ) / 4095) * s := mul_le_mul_of_nonneg_right b2 (le_of_lt hsq)
    have := hmono _ _ (by positivity) h
    rwa [hgrid _ hus] at this
  have c3 : ((lo * s : Nat) : ℚ) / 8192 < ((up * s : Nat) : ℚ) / 8192 := by
    apply div_lt_div_of_pos_right _ (by norm_num)
    have : lo * s < up * s := Nat.mul_lt_mul_of_pos_right f3 hs
    exact_mod_cast this
  have e1 : rnd ((n1 : ℤ) : ℚ) = n1 := by
    rw [Int.cast_natCast]
    exact hnat n1 (by omega)
  have e2 : rnd ((n2 : ℤ) : ℚ) = n2 := by
    rw [Int.cast_natCast]
    exact hnat n2 (by omega)
  unfold medida
  rw [e1, e2]
  exact lt_of_le_of_lt c1 (lt_of_lt_of_le c3 c2)

/-- The raw sample 0 is mapped to 0. -/
theorem medida_zero (rnd : ℚ → ℚ) (hnat : ∀ n : Nat, n < 2 ^ 24 → rnd n = n) (s : ℚ) :
    medida rnd 0 s = 0 := by
  have hr0 : rnd 0 = 0 := by
    have := hnat 0 (by norm_num)
    simpa using this
  unfold medida
  simp [hr0]

/-- The raw sample 4095 is mapped to the full scale. -/
theorem medida_full (rnd : ℚ → ℚ) (hnat : ∀ n : Nat, n < 2 ^ 24 → rnd n = n)
    (s : Nat) (hs : s < 2 ^ 24) : medida rnd 4095 s = s := by
  have h1 : rnd 1 = 1 := by
    have := hnat 1 (by norm_num)
    simpa using this
  have h4095 : rnd 4095 = 4095 := by
    have := hnat 4095 (by norm_num)
    simpa using this
  unfold medida
  have : ((4095 : ℤ) : ℚ) = 4095 := by norm_num
  rw [this, h4095]
  norm_num
  rw [h1, one_mul]
  exact hnat s hs

/-! ## Accumulators -/

/-- One more iteration applies `acumula` to the accumulators so far. -/
theorem acumulado_concat (rnd : ℚ → ℚ) (ms : List Medidas) (m : Medidas) :
    acumulado rnd (ms ++ [m]) = acumula rnd (acumulado rnd ms) m := by
  simp [acumulado, List.foldl_append]

/-- The counter after a run of iterations started from an accumulator state whose
counter is a 32-bit value. -/
theorem foldl_acumula_sample_count (rnd : ℚ → ℚ) (ms : List Medidas) :
    ∀ a : Acumulador, a.sample_count < 2 ^ 32 →
      (ms.foldl (acumula rnd) a).sample_count = (a.sample_count + ms.length) % 2 ^ 32 := by
  induction ms with
  | nil =>
    intro a ha
    simp only [List.foldl_nil, List.length_nil]
    omega
  | cons m ms ih =>
    intro a ha
    have hstep : (acumula rnd a m).sample_count = (a.sample_count + 1) % 2 ^ 32 := rfl
    rw [List.foldl_cons, ih _ (by rw [hstep]; omega), hstep, List.length_cons]
    omega

/-- The counter is the number of iterations modulo `2 ^ 32`. -/
theorem acumulado_sample_count (rnd : ℚ → ℚ) (ms : List Medidas) :
    (acumulado rnd ms).sample_count = ms.length % 2 ^ 32 := by
  have h := foldl_acumula_sample_count rnd ms Acumulador.init (by decide)
  have h0 : Acumulador.init.sample_count = 0 := rfl
  rw [h0, Nat.zero_add] at h
  exact h

/-- The sum of a channel after `N` iterations that observe the same measurements,
when none of the `N` additions rounds: `f` reads the channel's sum and `v` is
the channel's measurement. -/
theorem sum_replicate_exact (rnd : ℚ → ℚ) (m : Medidas) (f : Acumulador → ℚ) (v : ℚ)
    (hf0 : f Acumulador.init = 0)
    (hstep : ∀ a, f (acumula rnd a m) = rnd (f a + v)) :
    ∀ N : Nat, (∀ k : Nat, k ≤ N → rnd (k * v) = k * v) →
      f (acumulado rnd (List.replicate N m)) = N * v := by
  intro N
  induction N with
  | zero =>
    intro _
    simp [acumulado, hf0]
  | succ n ih =>
    intro h
    have hn : f (acumulado rnd (List.replicate n m)) = n * v :=
      ih (fun k hk => h k (Nat.le_succ_of_le hk))
    have hlast := h (n + 1) le_rfl
    rw [List.replicate_succ', acumulado_concat, hstep, hn]
    have e : (n : ℚ) * v + v = ((n + 1 : Nat) : ℚ) * v := by
      push_cast
      ring
    rw [e, hlast]

/-- The mean of a channel after `N` iterations that observe the same measurements,
when neither the additions, nor the conversion of the counter, nor the
division rounds. -/
theorem media_replicate_exact (rnd : ℚ → ℚ) (m : Medidas) (f : Acumulador → ℚ) (v : ℚ)
    (hf0 : f Acumulador.init = 0)
    (hstep : ∀ a, f (acumula rnd a m) = rnd (f a + v))
    (N : Nat) (hN : 1 ≤ N) (hN32 : N < 2 ^ 32) (hcount : rnd N = N)
    (h : ∀ k : Nat, k ≤ N → rnd (k * v) = k * v) :
    media rnd (f (acumulado rnd (List.replicate N m)))
      (acumulado rnd (List.replicate N m)).sample_count = some v := by
  have hc : (acumulado rnd (List.replicate N m)).sample_count = N := by
    rw [acumulado_sample_count, List.length_replicate, Nat.mod_eq_of_lt hN32]
  have hN0 : N ≠ 0 := by omega
  have hNq : (N : ℚ) ≠ 0 := Nat.cast_ne_zero.mpr hN0
  have h1 : rnd v = v := by
    have := h 1 hN
    simpa using this
  rw [hc, sum_replicate_exact rnd m f v hf0 hstep N h]
  unfold media
  rw [if_neg hN0, hcount, mul_div_cancel_left₀ v hNq, h1]

/-- C19, as stated, fails in binary32 arithmetic: the raw sample 549 gives the Gas
measurement 5623133 / 4194304 (about 1.3407); after three iterations that
observe it the mean `sum_etileno / sample_count` is 11246267 / 8388608, one
unit in the last place above the measurement. -/
theorem mean_rounding_counterexample :
    (amostra round32 549 0 549).medida_etileno = 5623133 / 4194304 ∧
    (acumulado round32 (List.replicate 3 (amostra round32 549 0 549))).sample_count = 3 ∧
    media round32
      (acumulado round32 (List.replicate 3 (amostra round32 549 0 549))).sum_etileno
      (acumulado round32 (List.replicate 3 (amostra round32 549 0 549))).sample_count
      = some (11246267 / 8388608) ∧
    media round32
      (acumulado round32 (List.replicate 3 (amostra round32 549 0 549))).sum_etileno
      (acumulado round32 (List.replicate 3 (amostra round32 549 0 549))).sample_count
      ≠ some (amostra round32 549 0 549).medida_etileno := by
  refine ⟨by decide!, by decide!, by decide!, by decide!⟩

/-- C19, amended: starting from the reset accumulators, after `N` iterations
(`1 ≤ N < 2 ^ 32`) that observe the same measurements, the mean of a channel
equals the channel's measurement `v` exactly whenever no operation rounds,
that is when `N` and every multiple `k * v` with `k ≤ N` are left unchanged by
the rounding (always so in exact arithmetic). -/
theorem mean_exact_without_rounding (rnd : ℚ → ℚ) (m : Medidas) (N : Nat)
    (hN : 1 ≤ N) (hN32 : N < 2 ^ 32) (hcount : rnd N = N) :
    ((∀ k : Nat, k ≤ N → rnd (k * m.medida_etileno) = k * m.medida_etileno) →
      media rnd (acumulado rnd (List.replicate N m)).sum_etileno
        (acumulado rnd (List.replicate N m)).sample_count = some m.medida_etileno) ∧
    ((∀ k : Nat, k ≤ N → rnd (k * m.medida_temp) = k * m.medida_temp) →
      media rnd (acumulado rnd (List.replicate N m)).sum_temp
        (acumulado rnd (List.replicate N m)).sample_count = some m.medida_temp) ∧
    ((∀ k : Nat, k ≤ N → rnd (k * m.medida_umidade) = k * m.medida_umidade) →
      media rnd (acumulado rnd (List.replicate N m)).sum_umidade
        (acumulado rnd (List.replicate N m)).sample_count = some m.medida_umidade) ∧
    ((∀ k : Nat, k ≤ N → rnd (k * m.medida_co2) = k * m.medida_co2) →
      media rnd (acumulado rnd (List.replicate N m)).sum_co2
        (acumulado rnd (List.replicate N m)).sample_count = some m.medida_co2) :=
  ⟨media_replicate_exact rnd m Acumulador.sum_etileno m.medida_etileno rfl (fun _ => rfl)
      N hN hN32 hcount,
   media_replicate_exact rnd m Acumulador.sum_temp m.medida_temp rfl (fun _ => rfl)
      N hN hN32 hcount,
   media_replicate_exact rnd m Acumulador.sum_umidade m.medida_umidade rfl (fun _ => rfl)
      N hN hN32 hcount,
   media_replicate_exact rnd m Acumulador.sum_co2 m.medida_co2 rfl (fun _ => rfl)
      N hN hN32 hcount⟩

/-- C19 amended, at concrete inputs: in binary32 arithmetic, 10000 iterations that
observe the full-scale raw sample 4095 (Gas 10.0, CO2 1000.0) give a Gas mean
and a CO2 mean equal to the measurements: every multiple `k * 10` and
`k * 1000` with `k ≤ 10000` is a natural below `2 ^ 24`. -/
theorem mean_exact_without_rounding_witness :
    ((1 : Nat) ≤ 10000 ∧ (10000 : Nat) < 2 ^ 32 ∧ round32 (10000 : Nat) = (10000 : Nat)) ∧
    (∀ k : Nat, k ≤ 10000 →
      round32 (k * (amostra round32 4095 4095 4095).medida_etileno) =
        k * (amostra round32 4095 4095 4095).medida_etileno) ∧
    media round32
      (acumulado round32 (List.replicate 10000 (amostra round32 4095 4095 4095))).sum_etileno
      (acumulado round32 (List.replicate 10000 (amostra round32 4095 4095 4095))).sample_count
      = some (amostra round32 4095 4095 4095).medida_etileno ∧
    media round32
      (acumulado round32 (List.replicate 10000 (amostra round32 4095 4095 4095))).sum_co2
      (acumulado round32 (List.replicate 10000 (amostra round32 4095 4095 4095))).sample_count
      = some (amostra round32 4095 4095 4095).medida_co2 :=
  have he : (amostra round32 4095 4095 4095).medida_etileno = ((10 : Nat) : ℚ) :=
    medida_full round32 round32_natCast 10 (by norm_num)
  have hc : (amostra round32 4095 4095 4095).medida_co2 = ((1000 : Nat) : ℚ) :=
    medida_full round32 round32_natCast 1000 (by norm_num)
  have hke : ∀ k : Nat, k ≤ 10000 →
      round32 (k * (amostra round32 4095 4095 4095).medida_etileno) =
        k * (amostra round32 4095 4095 4095).medida_etileno := by
    intro k hk
    rw [he, ← Nat.cast_mul]
    exact round32_natCast _ (by omega)
  have hkc : ∀ k : Nat, k ≤ 10000 →
      round32 (k * (amostra round32 4095 4095 4095).medida_co2) =
        k * (amostra round32 4095 4095 4095).medida_co2 := by
    intro k hk
    rw [hc, ← Nat.cast_mul]
    exact round32_natCast _ (by omega)
  ⟨⟨by norm_num, by norm_num, round32_natCast 10000 (by norm_num)⟩, hke,
   (mean_exact_without_rounding round32 (amostra round32 4095 4095 4095) 10000 (by norm_num)
      (by norm_num) (round32_natCast 10000 (by norm_num))).1 hke,
   (mean_exact_without_rounding round32 (amostra round32 4095 4095 4095) 10000 (by norm_num)
      (by norm_num) (round32_natCast 10000 (by norm_num))).2.2.2 hkc⟩

/-- C20, as stated, fails when the 32-bit counter wraps: in the iteration number
`2 ^ 32` the increment takes `sample_count` from `2 ^ 32 - 1` to 0, and the
means of that iteration divide by zero. -/
theorem sample_count_wrap_counterexample :
    (acumulado round32 (List.replicate (2 ^ 32 - 1) (amostra round32 0 0 0))).sample_count
      = 2 ^ 32 - 1 ∧
    (acumulado round32 (List.replicate (2 ^ 32) (amostra round32 0 0 0))).sample_count = 0 ∧
    media round32
      (acumulado round32 (List.replicate (2 ^ 32) (amostra round32 0 0 0))).sum_etileno
      (acumulado round32 (List.replicate (2 ^ 32) (amostra round32 0 0 0))).sample_count
      = none := by
  have h1 : (acumulado round32
      (List.replicate (2 ^ 32 - 1) (amostra round32 0 0 0))).sample_count = 2 ^ 32 - 1 := by
    rw [acumulado_sample_count, List.length_replicate]
    decide
  have h2 : (acumulado round32
      (List.replicate (2 ^ 32) (amostra round32 0 0 0))).sample_count = 0 := by
    rw [acumulado_sample_count, List.length_replicate]
    exact Nat.mod_self _
  refine ⟨h1, h2, ?_⟩
  rw [h2]
  rfl

/-- C20, amended: after the iterations `ms` the counter is the number of
iterations modulo `2 ^ 32`.  Whenever that number is not a multiple of
`2 ^ 32`, in particular in each of the first `2 ^ 32 - 1` iterations, the
counter is not 0 and the means do not divide by zero; and as long as fewer
than `2 ^ 32` iterations have run, one more iteration increases the counter
by one. -/
theorem sample_count_nonzero (rnd : ℚ → ℚ) (ms : List Medidas) :
    (acumulado rnd ms).sample_count = ms.length % 2 ^ 32 ∧
    (ms.length % 2 ^ 32 ≠ 0 →
      (acumulado rnd ms).sample_count ≠ 0 ∧
      ∀ sum, media rnd sum (acumulado rnd ms).sample_count ≠ none) ∧
    (1 ≤ ms.length → ms.length < 2 ^ 32 →
      (acumulado rnd ms).sample_count = ms.length ∧ (acumulado rnd ms).sample_count ≠ 0) ∧
    (∀ m, ms.length + 1 < 2 ^ 32 →
      (acumulado rnd (ms ++ [m])).sample_count = (acumulado rnd ms).sample_count + 1) := by
  have hc := acumulado_sample_count rnd ms
  refine ⟨hc, fun h => ?_, fun h1 h32 => ?_, fun m h => ?_⟩
  · have hne : (acumulado rnd ms).sample_count ≠ 0 := by
      rw [hc]
      exact h
    refine ⟨hne, fun sum => ?_⟩
    unfold media
    rw [if_neg hne]
    exact Option.some_ne_none _
  · rw [hc, Nat.mod_eq_of_lt h32]
    exact ⟨rfl, by omega⟩
  · rw [acumulado_sample_count, hc, List.length_append, List.length_singleton,
      Nat.mod_eq_of_lt h, Nat.mod_eq_of_lt (by omega)]

/-- C20 amended, at concrete inputs: after three iterations the counter is 3 and
the Gas mean is defined. -/
theorem sample_count_nonzero_witness :
    ((List.replicate 3 (amostra round32 549 0 549)).length % 2 ^ 32 ≠ 0) ∧
    (acumulado round32 (List.replicate 3 (amostra round32 549 0 549))).sample_count ≠ 0 ∧
    media round32 0
      (acumulado round32 (List.replicate 3 (amostra round32 549 0 549))).sample_count
      ≠ none :=
  ⟨by decide,
   ((sample_count_nonzero round32 (List.replicate 3 (amostra round32 549 0 549))).2.1
      (by decide)).1,
   ((sample_count_nonzero round32 (List.replicate 3 (amostra round32 549 0 549))).2.1
      (by decide)).2 0⟩

/-! ## Sampler -/

/-- The three properties of a rounding used for the sampler hold for `round32`
and for exact arithmetic. -/
theorem rnd_properties (rnd : ℚ → ℚ) (hrnd : rnd = round32 ∨ rnd = id) :
    (∀ x y : ℚ, 0 ≤ x → x ≤ y → rnd x ≤ rnd y) ∧
    (∀ n : Nat, n < 2 ^ 24 → rnd n = n) ∧
    (∀ n : Nat, n < 2 ^ 24 → rnd ((n : ℚ) / 8192) = n / 8192) := by
  rcases hrnd with h | h <;> subst h
  · exact ⟨round32_mono, round32_natCast, round32_grid⟩
  · exact ⟨fun _ _ _ h => h, fun _ _ => rfl, fun _ _ => rfl⟩

/-- C15: for each of the four scales (10 Gas, 40 Temperature, 100 Humidity,
1000 CO2), in binary32 arithmetic as well as in exact arithmetic, the mapping
`(r / 4095) * escala` is strictly increasing on the raw samples `0..4095`,
maps 0 to 0 and 4095 to the full scale, and so takes its values in
`[0, escala]`. -/
theorem sensor_mapping_monotone (rnd : ℚ → ℚ) (hrnd : rnd = round32 ∨ rnd = id)
    (escala : ℚ) (hesc : escala = 10 ∨ escala = 40 ∨ escala = 100 ∨ escala = 1000) :
    (∀ r1 r2 : ℤ, 0 ≤ r1 → r1 < r2 → r2 ≤ 4095 →
      medida rnd r1 escala < medida rnd r2 escala) ∧
    medida rnd 0 escala = 0 ∧
    medida rnd 4095 escala = escala ∧
    (∀ r : ℤ, 0 ≤ r → r ≤ 4095 → 0 ≤ medida rnd r escala ∧ medida rnd r escala ≤ escala) := by
  obtain ⟨hmono, hnat, hgrid⟩ := rnd_properties rnd hrnd
  obtain ⟨s, hs0, hs1, rfl⟩ : ∃ s : Nat, 0 < s ∧ s ≤ 1000 ∧ escala = s := by
    rcases hesc with h | h | h | h
    · exact ⟨10, by norm_num, by norm_num, by rw [h]; norm_num⟩
    · exact ⟨40, by norm_num, by norm_num, by rw [h]; norm_num⟩
    · exact ⟨100, by norm_num, by norm_num, by rw [h]; norm_num⟩
    · exact ⟨1000, by norm_num, by norm_num, by rw [h]; norm_num⟩
  have hstrict : ∀ r1 r2 : ℤ, 0 ≤ r1 → r1 < r2 → r2 ≤ 4095 →
      medida rnd r1 s < medida rnd r2 s :=
    fun r1 r2 => medida_strict_mono rnd hmono hnat hgrid s hs0 hs1 r1 r2
  have hzero : medida rnd 0 s = 0 := medida_zero rnd hnat s
  have hfull : medida rnd 4095 s = s := medida_full rnd hnat s (by omega)
  refine ⟨hstrict, hzero, hfull, fun r h0 h1 => ⟨?_, ?_⟩⟩
  · rcases eq_or_lt_of_le h0 with h | h
    · rw [← h, hzero]
    · have := hstrict 0 r le_rfl h h1
      rw [hzero] at this
      exact le_of_lt this
  · rcases eq_or_lt_of_le h1 with h | h
    · rw [h, hfull]
    · have := hstrict r 4095 h0 h le_rfl
      rw [hfull] at this
      exact le_of_lt this

/-- C15, at concrete inputs: in binary32 arithmetic the Gas measurement of the raw
sample 548 is below that of 549, and the raw sample 4095 gives the CO2
measurement 1000. -/
theorem sensor_mapping_monotone_witness :
    (round32 = round32 ∨ round32 = id) ∧
    medida round32 548 10 < medida round32 549 10 ∧
    medida round32 4095 1000 = 1000 :=
  ⟨Or.inl rfl,
   (sensor_mapping_monotone round32 (Or.inl rfl) 10 (Or.inl rfl)).1 548 549 (by norm_num)
      (by norm_num) (by norm_num),
   (sensor_mapping_monotone round32 (Or.inl rfl) 1000 (Or.inr (Or.inr (Or.inr rfl)))).2.2.1⟩

/-! ## Reachable states of the handler -/

/-- One more event applies the handler to the globals reached so far. -/
theorem button_callback_seq_concat (g : Globals) (evs : List (Nat × Nat × Nat))
    (ev : Nat × Nat × Nat) :
    button_callback_seq g (evs ++ [ev]) =
      button_callback (button_callback_seq g evs) ev.1 ev.2.1 ev.2.2 := by
  simp [button_callback_seq, List.foldl_append]

/-- The handler on an accepted falling edge of `BUTTON_SET`. -/
theorem button_callback_set (g : Globals) (e t : Nat) (hf : edge_fall e = true)
    (ha : DEBOUNCE_DELAY_MS ≤ sub32 t g.last_button_interrupt_time) :
    button_callback g BUTTON_SET e t =
      if g.in_set_mode = false then
        { g with last_button_interrupt_time := t, in_set_mode := true, current_set_param := 0 }
      else if g.menu_index = 0 ∨ g.menu_index = 1 then
        if g.current_set_param = 0 then
          { g with last_button_interrupt_time := t, current_set_param := 1 }
        else { g with last_button_interrupt_time := t, in_set_mode := false }
      else { g with last_button_interrupt_time := t, in_set_mode := false } := by
  have n : ¬ sub32 t g.last_button_interrupt_time < DEBOUNCE_DELAY_MS := by omega
  simp [button_callback, n, hf]

/-- The handler outside set mode on an accepted falling edge of `BUTTON_NEXT`. -/
theorem button_callback_nav_next (g : Globals) (e t : Nat)
    (hmode : g.in_set_mode = false) (hf : edge_fall e = true)
    (ha : DEBOUNCE_DELAY_MS ≤ sub32 t g.last_button_interrupt_time) :
    button_callback g BUTTON_NEXT e t =
      { g with last_button_interrupt_time := t, menu_index := (g.menu_index + 1).tmod 5 } := by
  have n : ¬ sub32 t g.last_button_interrupt_time < DEBOUNCE_DELAY_MS := by omega
  simp [button_callback, n, hf, hmode, BUTTON_NEXT, BUTTON_SET]

/-- The handler outside set mode on an accepted falling edge of `BUTTON_BACK`. -/
theorem button_callback_nav_back (g : Globals) (e t : Nat)
    (hmode : g.in_set_mode = false) (hf : edge_fall e = true)
    (ha : DEBOUNCE_DELAY_MS ≤ sub32 t g.last_button_interrupt_time) :
    button_callback g BUTTON_BACK e t =
      { g with last_button_interrupt_time := t, menu_index := (g.menu_index + 4).tmod 5 } := by
  have n : ¬ sub32 t g.last_button_interrupt_time < DEBOUNCE_DELAY_MS := by omega
  simp [button_callback, n, hf, hmode, BUTTON_NEXT, BUTTON_SET, BUTTON_BACK]

/-- The handler on an accepted event of a pin that is none of the three buttons:
only the time stamp is written. -/
theorem button_callback_other_pin (g : Globals) (gpio e t : Nat)
    (h1 : gpio ≠ BUTTON_SET) (h2 : gpio ≠ BUTTON_NEXT) (h3 : gpio ≠ BUTTON_BACK)
    (ha : DEBOUNCE_DELAY_MS ≤ sub32 t g.last_button_interrupt_time) :
    button_callback g gpio e t = { g with last_button_interrupt_time := t } := by
  have n : ¬ sub32 t g.last_button_interrupt_time < DEBOUNCE_DELAY_MS := by omega
  simp [button_callback, n, h1, h2, h3]

/-- The handler keeps `menu_index` in `0..4`. -/
theorem button_callback_menu_range (g : Globals) (gpio events now : Nat)
    (h0 : 0 ≤ g.menu_index) (h4 : g.menu_index ≤ 4) :
    0 ≤ (button_callback g gpio events now).menu_index ∧
      (button_callback g gpio events now).menu_index ≤ 4 := by
  have k1 : 0 ≤ (g.menu_index + 1).tmod 5 ∧ (g.menu_index + 1).tmod 5 ≤ 4 := by
    rw [Int.tmod_eq_emod (by omega) (by norm_num)]
    omega
  have k4 : 0 ≤ (g.menu_index + 4).tmod 5 ∧ (g.menu_index + 4).tmod 5 ≤ 4 := by
    rw [Int.tmod_eq_emod (by omega) (by norm_num)]
    omega
  by_cases hd : sub32 now g.last_button_interrupt_time < DEBOUNCE_DELAY_MS
  · rw [button_callback_of_drop g gpio events now hd]
    exact ⟨h0, h4⟩
  have ha : DEBOUNCE_DELAY_MS ≤ sub32 now g.last_button_interrupt_time := not_lt.mp hd
  cases hf : edge_fall events
  · rw [button_callback_no_fall g gpio events now hf ha]
    exact ⟨h0, h4⟩
  by_cases h1 : gpio = BUTTON_SET
  · subst h1
    rw [button_callback_set g events now hf ha]
    split_ifs <;> exact ⟨h0, h4⟩
  by_cases h2 : gpio = BUTTON_NEXT
  · subst h2
    cases hm : g.in_set_mode
    · rw [button_callback_nav_next g events now hm hf ha]
      exact k1
    · rw [button_callback_set_mode_next g events now hm hf ha]
      split_ifs <;> exact ⟨h0, h4⟩
  by_cases h3 : gpio = BUTTON_BACK
  · subst h3
    cases hm : g.in_set_mode
    · rw [button_callback_nav_back g events now hm hf ha]
      exact k4
    · rw [button_callback_set_mode_back g events now hm hf ha]
      split_ifs <;> exact ⟨h0, h4⟩
  rw [button_callback_other_pin g gpio events now h1 h2 h3 ha]
  exact ⟨h0, h4⟩

/-- The handler keeps the edit cursor on the lower setpoint whenever it leaves
the globals in set mode on a view other than Gas and Temperature. -/
theorem button_callback_cursor (g : Globals) (gpio events now : Nat)
    (h : g.in_set_mode = true → g.menu_index ≠ 0 → g.menu_index ≠ 1 →
      g.current_set_param = 0) :
    (button_callback g gpio events now).in_set_mode = true →
      (button_callback g gpio events now).menu_index ≠ 0 →
      (button_callback g gpio events now).menu_index ≠ 1 →
      (button_callback g gpio events now).current_set_param = 0 := by
  by_cases hd : sub32 now g.last_button_interrupt_time < DEBOUNCE_DELAY_MS
  · rw [button_callback_of_drop g gpio events now hd]
    exact h
  have ha : DEBOUNCE_DELAY_MS ≤ sub32 now g.last_button_interrupt_time := not_lt.mp hd
  cases hf : edge_fall events
  · rw [button_callback_no_fall g gpio events now hf ha]
    exact h
  by_cases h1 : gpio = BUTTON_SET
  · subst h1
    rw [button_callback_set g events now hf ha]
    split_ifs <;> first | (simp_all; done) | (simp_all; omega)
  by_cases h2 : gpio = BUTTON_NEXT
  · subst h2
    cases hm : g.in_set_mode
    · rw [button_callback_nav_next g events now hm hf ha]
      simp [hm]
    · rw [button_callback_set_mode_next g events now hm hf ha]
      split_ifs <;> simp_all
  by_cases h3 : gpio = BUTTON_BACK
  · subst h3
    cases hm : g.in_set_mode
    · rw [button_callback_nav_back g events now hm hf ha]
      simp [hm]
    · rw [button_callback_set_mode_back g events now hm hf ha]
      split_ifs <;> simp_all
  rw [button_callback_other_pin g gpio events now h1 h2 h3 ha]
  exact h

/-- C21: after any sequence of handler runs from the initial globals, with any
pins, event masks and times, `menu_index` is in `0..4`. -/
theorem menu_index_in_range (evs : List (Nat × Nat × Nat)) :
    0 ≤ (button_callback_seq Globals.init evs).menu_index ∧
      (button_callback_seq Globals.init evs).menu_index ≤ 4 := by
  induction evs using List.reverseRecOn with
  | nil => exact ⟨le_rfl, by decide⟩
  | append_singleton evs ev ih =>
    rw [button_callback_seq_concat]
    exact button_callback_menu_range _ _ _ _ ih.1 ih.2

/-- C25: after any sequence of handler runs from the initial globals, set mode on
a view other than Gas and Temperature has `current_set_param = 0`; so in set
mode on CO2 `update_display` writes "Set CO2 BAIXO" with the constant 400,
not `co2_set`, and for no reachable globals does the call made by `main`
(sensor name "GAS ETILENO", "TEMPERATURA", "UMIDADE" or "CO2") write
"Set CO2 ALTO". -/
theorem edit_cursor_invariant (evs : List (Nat × Nat × Nat)) (value : ℚ) :
    ((button_callback_seq Globals.init evs).in_set_mode = true →
      (button_callback_seq Globals.init evs).menu_index ≠ 0 →
      (button_callback_seq Globals.init evs).menu_index ≠ 1 →
      (button_callback_seq Globals.init evs).current_set_param = 0) ∧
    (∀ sensor_name, (button_callback_seq Globals.init evs).in_set_mode = true →
      (button_callback_seq Globals.init evs).menu_index = 3 →
      update_display (button_callback_seq Globals.init evs) value sensor_name =
        (some "Set CO2 BAIXO", some 400)) ∧
    (∀ sensor_name ∈ ["GAS ETILENO", "TEMPERATURA", "UMIDADE", "CO2"],
      (update_display (button_callback_seq Globals.init evs) value sensor_name).1 ≠
        some "Set CO2 ALTO") := by
  have inv : (button_callback_seq Globals.init evs).in_set_mode = true →
      (button_callback_seq Globals.init evs).menu_index ≠ 0 →
      (button_callback_seq Globals.init evs).menu_index ≠ 1 →
      (button_callback_seq Globals.init evs).current_set_param = 0 := by
    induction evs using List.reverseRecOn with
    | nil => exact fun _ _ _ => rfl
    | append_singleton evs ev ih =>
      rw [button_callback_seq_concat]
      exact button_callback_cursor _ _ _ _ ih
  refine ⟨inv, fun name hm h3 => ?_, fun name hname => ?_⟩
  · have hp := inv hm (by rw [h3]; decide) (by rw [h3]; decide)
    simp [update_display, hm, h3, hp]
  · cases hm : (button_callback_seq Globals.init evs).in_set_mode
    · have : update_display (button_callback_seq Globals.init evs) value name =
          (some name, some value) := by
        simp [update_display, hm]
      rw [this]
      simp only [List.mem_cons, List.mem_singleton, List.not_mem_nil, or_false] at hname
      rcases hname with h | h | h | h <;> rw [h] <;> simp
    · have hp := inv hm
      unfold update_display
      rw [hm, if_pos rfl]
      split_ifs <;> simp_all

/-- C25, at concrete inputs: three Next edges and one Set edge, 200 ms apart, lead
to set mode on CO2, where the text is "Set CO2 BAIXO" and the number 400. -/
theorem edit_cursor_invariant_witness :
    ((button_callback_seq Globals.init
        [(BUTTON_NEXT, 4, 200), (BUTTON_NEXT, 4, 400), (BUTTON_NEXT, 4, 600), (BUTTON_SET, 4, 800)]).in_set_mode = true ∧
      (button_callback_seq Globals.init
        [(BUTTON_NEXT, 4, 200), (BUTTON_NEXT, 4, 400), (BUTTON_NEXT, 4, 600), (BUTTON_SET, 4, 800)]).menu_index = 3) ∧
    (button_callback_seq Globals.init
      [(BUTTON_NEXT, 4, 200), (BUTTON_NEXT, 4, 400), (BUTTON_NEXT, 4, 600), (BUTTON_SET, 4, 800)]).current_set_param = 0 ∧
    update_display (button_callback_seq Globals.init
      [(BUTTON_NEXT, 4, 200), (BUTTON_NEXT, 4, 400), (BUTTON_NEXT, 4, 600), (BUTTON_SET, 4, 800)]) 512 "CO2" = (some "Set CO2 BAIXO", some 400) :=
  ⟨⟨by decide, by decide⟩,
   (edit_cursor_invariant [(BUTTON_NEXT, 4, 200), (BUTTON_NEXT, 4, 400), (BUTTON_NEXT, 4, 600), (BUTTON_SET, 4, 800)] 512).1
      (by decide) (by decide) (by decide),
   (edit_cursor_invariant [(BUTTON_NEXT, 4, 200), (BUTTON_NEXT, 4, 400), (BUTTON_NEXT, 4, 600), (BUTTON_SET, 4, 800)] 512).2.1
      "CO2" (by decide) (by decide)⟩

/-! ## Inverted setpoints -/

/-- C22: on the Temperature view with `temp_lower > temp_upper` no value is
classified "Ideal". -/
theorem inverted_setpoints_never_ideal (g : Globals) (m : Medidas) (status0 : String)
    (hmenu : g.menu_index = 1) (hinv : g.temp_upper < g.temp_lower) :
    status g m status0 ≠ "Ideal" := by
  have hI : ¬ (m.medida_temp ≥ g.temp_lower ∧ m.medida_temp ≤ g.temp_upper) := by
    intro h
    linarith [h.1, h.2]
  rw [status_temp g m status0 hmenu, if_neg hI]
  split_ifs <;> decide

/-- C22, at concrete inputs: from the initial globals one Next edge, one Set edge
and eleven Next edges, 200 ms apart, raise `temp_lower` from 10 to 15.5, above
`temp_upper = 15`; the value 15 is then not "Ideal". -/
theorem inverted_setpoints_never_ideal_witness :
    ((button_callback_seq Globals.init
        [(BUTTON_NEXT, 4, 200), (BUTTON_SET, 4, 400), (BUTTON_NEXT, 4, 600),
      (BUTTON_NEXT, 4, 800), (BUTTON_NEXT, 4, 1000), (BUTTON_NEXT, 4, 1200),
      (BUTTON_NEXT, 4, 1400), (BUTTON_NEXT, 4, 1600), (BUTTON_NEXT, 4, 1800),
      (BUTTON_NEXT, 4, 2000), (BUTTON_NEXT, 4, 2200), (BUTTON_NEXT, 4, 2400),
      (BUTTON_NEXT, 4, 2600)]).menu_index = 1 ∧
      (button_callback_seq Globals.init
        [(BUTTON_NEXT, 4, 200), (BUTTON_SET, 4, 400), (BUTTON_NEXT, 4, 600),
      (BUTTON_NEXT, 4, 800), (BUTTON_NEXT, 4, 1000), (BUTTON_NEXT, 4, 1200),
      (BUTTON_NEXT, 4, 1400), (BUTTON_NEXT, 4, 1600), (BUTTON_NEXT, 4, 1800),
      (BUTTON_NEXT, 4, 2000), (BUTTON_NEXT, 4, 2200), (BUTTON_NEXT, 4, 2400),
      (BUTTON_NEXT, 4, 2600)]).temp_upper <
      (button_callback_seq Globals.init
        [(BUTTON_NEXT, 4, 200), (BUTTON_SET, 4, 400), (BUTTON_NEXT, 4, 600),
      (BUTTON_NEXT, 4, 800), (BUTTON_NEXT, 4, 1000), (BUTTON_NEXT, 4, 1200),
      (BUTTON_NEXT, 4, 1400), (BUTTON_NEXT, 4, 1600), (BUTTON_NEXT, 4, 1800),
      (BUTTON_NEXT, 4, 2000), (BUTTON_NEXT, 4, 2200), (BUTTON_NEXT, 4, 2400),
      (BUTTON_NEXT, 4, 2600)]).temp_lower) ∧
    status (button_callback_seq Globals.init
      [(BUTTON_NEXT, 4, 200), (BUTTON_SET, 4, 400), (BUTTON_NEXT, 4, 600),
      (BUTTON_NEXT, 4, 800), (BUTTON_NEXT, 4, 1000), (BUTTON_NEXT, 4, 1200),
      (BUTTON_NEXT, 4, 1400), (BUTTON_NEXT, 4, 1600), (BUTTON_NEXT, 4, 1800),
      (BUTTON_NEXT, 4, 2000), (BUTTON_NEXT, 4, 2200), (BUTTON_NEXT, 4, 2400),
      (BUTTON_NEXT, 4, 2600)]) ⟨0, 15, 0, 0⟩ "" ≠ "Ideal" :=
  ⟨⟨by decide!, by decide!⟩,
   inverted_setpoints_never_ideal (button_callback_seq Globals.init
      [(BUTTON_NEXT, 4, 200), (BUTTON_SET, 4, 400), (BUTTON_NEXT, 4, 600),
      (BUTTON_NEXT, 4, 800), (BUTTON_NEXT, 4, 1000), (BUTTON_NEXT, 4, 1200),
      (BUTTON_NEXT, 4, 1400), (BUTTON_NEXT, 4, 1600), (BUTTON_NEXT, 4, 1800),
      (BUTTON_NEXT, 4, 2000), (BUTTON_NEXT, 4, 2200), (BUTTON_NEXT, 4, 2400),
      (BUTTON_NEXT, 4, 2600)]) ⟨0, 15, 0, 0⟩ "" (by decide!) (by decide!)⟩

/-! ## CO2 and Gas -/

/-- C23, as stated, fails: the Gas and the CO2 measurements come from two calls of
`adc_read ()`, the first and the third of the iteration, both on input 1.
When the two conversions differ (100 and 101) the CO2 measurement is not 100
times the Gas measurement, also in exact arithmetic; and when both return 549,
in binary32 arithmetic the CO2 measurement 4393073 / 32768 is not 100 times the
Gas measurement 5623133 / 4194304. -/
theorem co2_gas_counterexample :
    POT_ETILENO_PIN - 26 = 1 ∧
    (amostra_adc id (fun n _ => if n = 2 then 101 else 100)).medida_co2 ≠
      100 * (amostra_adc id (fun n _ => if n = 2 then 101 else 100)).medida_etileno ∧
    (amostra_adc round32 (fun _ _ => 549)).medida_etileno = 5623133 / 4194304 ∧
    (amostra_adc round32 (fun _ _ => 549)).medida_co2 = 4393073 / 32768 ∧
    (amostra_adc round32 (fun _ _ => 549)).medida_co2 ≠
      100 * (amostra_adc round32 (fun _ _ => 549)).medida_etileno := by
  refine ⟨rfl, by decide!, by decide!, by decide!, by decide!⟩

/-- C23, amended: the Gas measurement is `(r / 4095) * 10` for the result `r` of
the first conversion of the iteration and the CO2 measurement is
`(r' / 4095) * 1000` for the result `r'` of the third one, both made on input 1
of the converter; when the two conversions return the same value and the
arithmetic is exact, the CO2 measurement is 100 times the Gas measurement. -/
theorem co2_from_gas_input (rnd : ℚ → ℚ) (adc_read : Nat → Nat → Int) :
    (amostra_adc rnd adc_read).medida_etileno = medida rnd (adc_read 0 1) 10 ∧
    (amostra_adc rnd adc_read).medida_co2 = medida rnd (adc_read 2 1) 1000 ∧
    (adc_read 2 1 = adc_read 0 1 →
      (amostra_adc id adc_read).medida_co2 =
        100 * (amostra_adc id adc_read).medida_etileno) := by
  refine ⟨rfl, rfl, fun h => ?_⟩
  have h1 : (amostra_adc id adc_read).medida_co2 = ((adc_read 2 1 : Int) : ℚ) / 4095 * 1000 :=
    rfl
  have h2 : (amostra_adc id adc_read).medida_etileno =
      ((adc_read 0 1 : Int) : ℚ) / 4095 * 10 := rfl
  rw [h1, h2, h]
  ring

/-- C23 amended, at concrete inputs: when every conversion returns 549, in exact
arithmetic the CO2 measurement is 100 times the Gas measurement. -/
theorem co2_from_gas_input_witness :
    ((fun (_ : Nat) (_ : Nat) => (549 : Int)) 2 1 = (fun (_ : Nat) (_ : Nat) => (549 : Int)) 0 1) ∧
    (amostra_adc id (fun _ _ => 549)).medida_co2 =
      100 * (amostra_adc id (fun _ _ => 549)).medida_etileno :=
  ⟨rfl, (co2_from_gas_input id (fun _ _ => 549)).2.2 rfl⟩

/-! ## Heat branch on sensor values -/

/-- A measurement of a non-negative raw sample on a non-negative scale is
non-negative, in binary32 and in exact arithmetic. -/
theorem medida_nonneg (rnd : ℚ → ℚ) (hrnd : rnd = round32 ∨ rnd = id) (adc : Int)
    (h0 : 0 ≤ adc) (escala : ℚ) (hs : 0 ≤ escala) : 0 ≤ medida rnd adc escala := by
  obtain ⟨hmono, hnat, -⟩ := rnd_properties rnd hrnd
  have hr0 : rnd 0 = 0 := by
    have := hnat 0 (by norm_num)
    simpa using this
  have hpos : ∀ x : ℚ, 0 ≤ x → 0 ≤ rnd x := by
    intro x hx
    have := hmono 0 x le_rfl hx
    rwa [hr0] at this
  have ha : (0 : ℚ) ≤ (adc : ℚ) := by exact_mod_cast h0
  unfold medida
  exact hpos _ (mul_nonneg (hpos _ (div_nonneg (hpos _ ha) (by norm_num))) hs)

/-! ## Set mode on the Summary view -/

/-- C26: on the Summary view (`menu_index = 4`), outside set mode an accepted
falling edge on `BUTTON_SET` enters set mode; in set mode every accepted event
on `BUTTON_NEXT` or `BUTTON_BACK`, whatever its mask, changes nothing but
`last_button_interrupt_time`, so `menu_index` stays 4; and an accepted falling
edge on `BUTTON_SET` leaves set mode. -/
theorem summary_set_mode_inert (g : Globals) (e t : Nat) (hmenu : g.menu_index = 4)
    (ha : DEBOUNCE_DELAY_MS ≤ sub32 t g.last_button_interrupt_time) :
    (g.in_set_mode = false → edge_fall e = true →
      (button_callback g BUTTON_SET e t).in_set_mode = true ∧
      (button_callback g BUTTON_SET e t).menu_index = 4) ∧
    (g.in_set_mode = true → ∀ gpio, gpio = BUTTON_NEXT ∨ gpio = BUTTON_BACK →
      button_callback g gpio e t = { g with last_button_interrupt_time := t }) ∧
    (g.in_set_mode = true → edge_fall e = true →
      (button_callback g BUTTON_SET e t).in_set_mode = false ∧
      (button_callback g BUTTON_SET e t).menu_index = 4) := by
  refine ⟨fun hm hf => ?_, fun hm gpio hg => ?_, fun hm hf => ?_⟩
  · rw [button_callback_set g e t hf ha, if_pos hm]
    exact ⟨rfl, hmenu⟩
  · cases hf : edge_fall e
    · exact button_callback_no_fall g gpio e t hf ha
    · rcases hg with h | h <;> subst h
      · rw [button_callback_set_mode_next g e t hm hf ha]
        simp [hmenu]
      · rw [button_callback_set_mode_back g e t hm hf ha]
        simp [hmenu]
  · rw [button_callback_set g e t hf ha]
    simp [hm, hmenu]

/-- C26, at concrete inputs: on the Summary view a Set edge at 200 ms enters set
mode, a Next edge at 400 ms changes only the time stamp, and a Set edge at
400 ms leaves set mode. -/
theorem summary_set_mode_inert_witness :
    (({ Globals.init with menu_index := 4 } : Globals).menu_index = 4 ∧
      DEBOUNCE_DELAY_MS ≤ sub32 200 0 ∧ DEBOUNCE_DELAY_MS ≤ sub32 400 200 ∧
      edge_fall 4 = true) ∧
    (button_callback { Globals.init with menu_index := 4 } BUTTON_SET 4 200).in_set_mode
      = true ∧
    button_callback
        { Globals.init with menu_index := 4, in_set_mode := true,
                            last_button_interrupt_time := 200 }
        BUTTON_NEXT 4 400 =
      { Globals.init with menu_index := 4, in_set_mode := true,
                          last_button_interrupt_time := 400 } ∧
    (button_callback
        { Globals.init with menu_index := 4, in_set_mode := true,
                            last_button_interrupt_time := 200 }
        BUTTON_SET 4 400).in_set_mode = false :=
  ⟨⟨rfl, by decide, by decide, by decide⟩,
   ((summary_set_mode_inert { Globals.init with menu_index := 4 } 4 200 rfl (by decide)).1
      rfl (by decide)).1,
   (summary_set_mode_inert
      { Globals.init with menu_index := 4, in_set_mode := true,
                          last_button_interrupt_time := 200 }
      4 400 rfl (by decide)).2.1 rfl BUTTON_NEXT (Or.inl rfl),
   ((summary_set_mode_inert
      { Globals.init with menu_index := 4, in_set_mode := true,
                          last_button_interrupt_time := 200 }
      4 400 rfl (by decide)).2.2 rfl (by decide)).1⟩

/-! ## Exact arithmetic as an instance of the rounded operations -/

/-- With `rnd = id` the handler with rounded operations is `button_callback`. -/
theorem button_callback_rnd_id (g : Globals) (gpio events current_time : Nat) :
    button_callback_rnd id g gpio events current_time =
      button_callback g gpio events current_time := rfl

/-- With `rnd = id` the rounded `motor_pwm` is `motor_pwm`. -/
theorem motor_pwm_rnd_id (erro max_error : ℚ) :
    motor_pwm_rnd id erro max_error = motor_pwm erro max_error := rfl

/-- With `rnd = id` the calls with rounded operations are
`pwm_set_chan_level_calls`. -/
theorem pwm_set_chan_level_calls_rnd_id (g : Globals) (m : Medidas) :
    pwm_set_chan_level_calls_rnd id g m = pwm_set_chan_level_calls g m := rfl

/-- The rounding of the steps changes the setpoints only: the view, the mode,
the parameter and the time of the last accepted edge are those of the handler
with exact steps. -/
theorem button_callback_rnd_control (rnd : ℚ → ℚ) (g : Globals) (gpio events t : Nat) :
    (button_callback_rnd rnd g gpio events t).menu_index =
        (button_callback g gpio events t).menu_index ∧
    (button_callback_rnd rnd g gpio events t).in_set_mode =
        (button_callback g gpio events t).in_set_mode ∧
    (button_callback_rnd rnd g gpio events t).current_set_param =
        (button_callback g gpio events t).current_set_param ∧
    (button_callback_rnd rnd g gpio events t).last_button_interrupt_time =
        (button_callback g gpio events t).last_button_interrupt_time := by
  unfold button_callback_rnd button_callback
  dsimp only
  by_cases h1 : sub32 t g.last_button_interrupt_time < DEBOUNCE_DELAY_MS
  · rw [if_pos h1, if_pos h1]
    exact ⟨rfl, rfl, rfl, rfl⟩
  rw [if_neg h1, if_neg h1]
  by_cases h2 : gpio = BUTTON_SET ∧ edge_fall events = true
  · rw [if_pos h2, if_pos h2]
    exact ⟨rfl, rfl, rfl, rfl⟩
  rw [if_neg h2, if_neg h2]
  by_cases h3 : g.in_set_mode = true
  swap
  · rw [if_neg h3, if_neg h3]
    exact ⟨rfl, rfl, rfl, rfl⟩
  rw [if_pos h3, if_pos h3]
  by_cases h4 : gpio = BUTTON_NEXT ∧ edge_fall events = true
  · rw [if_pos h4, if_pos h4]
    by_cases m0 : g.menu_index = 0
    · rw [if_pos m0, if_pos m0]
      by_cases p0 : g.current_set_param = 0
      · rw [if_pos p0, if_pos p0]
        exact ⟨rfl, rfl, rfl, rfl⟩
      · rw [if_neg p0, if_neg p0]
        exact ⟨rfl, rfl, rfl, rfl⟩
    rw [if_neg m0, if_neg m0]
    by_cases m1 : g.menu_index = 1
    · rw [if_pos m1, if_pos m1]
      by_cases p0 : g.current_set_param = 0
      · rw [if_pos p0, if_pos p0]
        exact ⟨rfl, rfl, rfl, rfl⟩
      · rw [if_neg p0, if_neg p0]
        exact ⟨rfl, rfl, rfl, rfl⟩
    rw [if_neg m1, if_neg m1]
    by_cases m2 : g.menu_index = 2
    · rw [if_pos m2, if_pos m2]
      exact ⟨rfl, rfl, rfl, rfl⟩
    rw [if_neg m2, if_neg m2]
    by_cases m3 : g.menu_index = 3
    · rw [if_pos m3, if_pos m3]
      exact ⟨rfl, rfl, rfl, rfl⟩
    rw [if_neg m3, if_neg m3]
    exact ⟨rfl, rfl, rfl, rfl⟩
  simp only [if_neg h4]
  by_cases h5 : gpio = BUTTON_BACK ∧ edge_fall events = true
  · rw [if_pos h5, if_pos h5]
    by_cases m0 : g.menu_index = 0
    · rw [if_pos m0, if_pos m0]
      by_cases p0 : g.current_set_param = 0
      · rw [if_pos p0, if_pos p0]
        exact ⟨rfl, rfl, rfl, rfl⟩
      · rw [if_neg p0, if_neg p0]
        exact ⟨rfl, rfl, rfl, rfl⟩
    rw [if_neg m0, if_neg m0]
    by_cases m1 : g.menu_index = 1
    · rw [if_pos m1, if_pos m1]
      by_cases p0 : g.current_set_param = 0
      · rw [if_pos p0, if_pos p0]
        exact ⟨rfl, rfl, rfl, rfl⟩
      · rw [if_neg p0, if_neg p0]
        exact ⟨rfl, rfl, rfl, rfl⟩
    rw [if_neg m1, if_neg m1]
    by_cases m2 : g.menu_index = 2
    · rw [if_pos m2, if_pos m2]
      exact ⟨rfl, rfl, rfl, rfl⟩
    rw [if_neg m2, if_neg m2]
    by_cases m3 : g.menu_index = 3
    · rw [if_pos m3, if_pos m3]
      exact ⟨rfl, rfl, rfl, rfl⟩
    rw [if_neg m3, if_neg m3]
    exact ⟨rfl, rfl, rfl, rfl⟩
  simp only [if_neg h5, and_self]

/-- Outside set mode the handler performs no `float` operation. -/
theorem button_callback_rnd_of_not_set_mode (rnd : ℚ → ℚ) (g : Globals)
    (gpio events t : Nat) (h : g.in_set_mode = false) :
    button_callback_rnd rnd g gpio events t = button_callback g gpio events t := by
  have h3 : ¬ g.in_set_mode = true := by simp [h]
  unfold button_callback_rnd button_callback
  dsimp only
  by_cases h1 : sub32 t g.last_button_interrupt_time < DEBOUNCE_DELAY_MS
  · rw [if_pos h1, if_pos h1]
  rw [if_neg h1, if_neg h1]
  by_cases h2 : gpio = BUTTON_SET ∧ edge_fall events = true
  · rw [if_pos h2, if_pos h2]
  rw [if_neg h2, if_neg h2, if_neg h3, if_neg h3]

/-! ## Setpoint steps in binary32 arithmetic -/

/-- The handler with rounded operations, in set mode, on an accepted falling edge
of `BUTTON_NEXT`. -/
theorem button_callback_rnd_set_mode_next (rnd : ℚ → ℚ) (g : Globals) (e t : Nat)
    (hmode : g.in_set_mode = true) (hf : edge_fall e = true)
    (ha : DEBOUNCE_DELAY_MS ≤ sub32 t g.last_button_interrupt_time) :
    button_callback_rnd rnd g BUTTON_NEXT e t =
      if g.menu_index = 0 then
        if g.current_set_param = 0 then
          { g with last_button_interrupt_time := t,
                   etileno_lower := rnd (g.etileno_lower + rnd (1 / 10)) }
        else
          { g with last_button_interrupt_time := t,
                   etileno_upper := rnd (g.etileno_upper + rnd (1 / 10)) }
      else if g.menu_index = 1 then
        if g.current_set_param = 0 then
          { g with last_button_interrupt_time := t,
                   temp_lower := rnd (g.temp_lower + rnd (1 / 2)) }
        else
          { g with last_button_interrupt_time := t,
                   temp_upper := rnd (g.temp_upper + rnd (1 / 2)) }
      else if g.menu_index = 2 then
        { g with last_button_interrupt_time := t, umidade_set := rnd (g.umidade_set + rnd 1) }
      else if g.menu_index = 3 then
        { g with last_button_interrupt_time := t, co2_set := rnd (g.co2_set + rnd 50) }
      else { g with last_button_interrupt_time := t } := by
  have n : ¬ sub32 t g.last_button_interrupt_time < DEBOUNCE_DELAY_MS := by omega
  simp [button_callback_rnd, n, hf, hmode, BUTTON_NEXT, BUTTON_SET]

/-- The handler with rounded operations, in set mode, on an accepted falling edge
of `BUTTON_BACK`. -/
theorem button_callback_rnd_set_mode_back (rnd : ℚ → ℚ) (g : Globals) (e t : Nat)
    (hmode : g.in_set_mode = true) (hf : edge_fall e = true)
    (ha : DEBOUNCE_DELAY_MS ≤ sub32 t g.last_button_interrupt_time) :
    button_callback_rnd rnd g BUTTON_BACK e t =
      if g.menu_index = 0 then
        if g.current_set_param = 0 then
          { g with last_button_interrupt_time := t,
                   etileno_lower := rnd (g.etileno_lower - rnd (1 / 10)) }
        else
          { g with last_button_interrupt_time := t,
                   etileno_upper := rnd (g.etileno_upper - rnd (1 / 10)) }
      else if g.menu_index = 1 then
        if g.current_set_param = 0 then
          { g with last_button_interrupt_time := t,
                   temp_lower := rnd (g.temp_lower - rnd (1 / 2)) }
        else
          { g with last_button_interrupt_time := t,
                   temp_upper := rnd (g.temp_upper - rnd (1 / 2)) }
      else if g.menu_index = 2 then
        { g with last_button_interrupt_time := t, umidade_set := rnd (g.umidade_set - rnd 1) }
      else if g.menu_index = 3 then
        { g with last_button_interrupt_time := t, co2_set := rnd (g.co2_set - rnd 50) }
      else { g with last_button_interrupt_time := t } := by
  have n : ¬ sub32 t g.last_button_interrupt_time < DEBOUNCE_DELAY_MS := by omega
  simp [button_callback_rnd, n, hf, hmode, BUTTON_NEXT, BUTTON_SET, BUTTON_BACK]

/-- The `float` literals of lines 298-327 in binary32: `0.5f`, `1.0f` and `50.0f`
are exact, `0.1f` is 13421773 / 134217728. -/
theorem step_literals :
    round32 (1 / 10) = 13421773 / 134217728 ∧ round32 (1 / 2) = 1 / 2 ∧
      round32 1 = 1 ∧ round32 50 = 50 := by
  refine ⟨by decide!, by decide!, by decide!, by decide!⟩

/-- Halves of naturals below `2 ^ 24` are not changed by the rounding. -/
theorem round32_half (n : Nat) (hn : n < 2 ^ 24) : round32 ((n : ℚ) / 2) = n / 2 := by
  have h := round32_exact n (-1) hn (by norm_num)
  have e : (2 : ℚ) ^ (-1 : ℤ) = 1 / 2 := by
    rw [zpow_neg, zpow_one]
    norm_num
  rw [e] at h
  have e2 : (n : ℚ) * (1 / 2) = n / 2 := by ring
  rwa [e2] at h

/-- C4, as stated, fails on Gas: the step is the binary32 addition of `0.1f`.
From the initial state an accepted Set edge enters set mode on the lower Gas
setpoint 3.0; the next accepted Next edge stores 6501171 / 2097152, not 3.1,
and an accepted Back edge instead stores 6081741 / 2097152, not 2.9. -/
theorem gas_step_counterexample :
    button_callback_rnd_seq round32 Globals.init [(BUTTON_SET, 4, 200)] =
      { Globals.init with in_set_mode := true, last_button_interrupt_time := 200 } ∧
    (button_callback_rnd_seq round32 Globals.init
      [(BUTTON_SET, 4, 200), (BUTTON_NEXT, 4, 400)]).etileno_lower = 6501171 / 2097152 ∧
    (button_callback_rnd_seq round32 Globals.init
      [(BUTTON_SET, 4, 200), (BUTTON_NEXT, 4, 400)]).etileno_lower ≠ 3 + 1 / 10 ∧
    (button_callback_rnd_seq round32 Globals.init
      [(BUTTON_SET, 4, 200), (BUTTON_BACK, 4, 400)]).etileno_lower = 6081741 / 2097152 ∧
    (button_callback_rnd_seq round32 Globals.init
      [(BUTTON_SET, 4, 200), (BUTTON_BACK, 4, 400)]).etileno_lower ≠ 3 - 1 / 10 := by
  refine ⟨by decide!, by decide!, by decide!, by decide!, by decide!⟩

/-- C4, amended: in set mode an accepted falling edge on `BUTTON_NEXT` replaces
the selected setpoint `x` by the binary32 rounding of `x + c`, and one on
`BUTTON_BACK` by the rounding of `x - c`, where `c` is the `float` literal of
the displayed channel: `0.1f = 13421773 / 134217728` on Gas and 0.5 on
Temperature (lower setpoint when `current_set_param = 0`, upper otherwise),
1.0 on Humidity and 50.0 on CO2 whatever `current_set_param` is.  On
Temperature, Humidity and CO2 the step is exactly 0.5, 1.0 and 50.0 when the
setpoint is a positive multiple of 0.5, a positive integer, respectively an
integer of at least 50, and the result of Next is below `2 ^ 23`. -/
theorem setpoint_stepping_binary32 (g : Globals) (e t : Nat)
    (hmode : g.in_set_mode = true) (hf : edge_fall e = true)
    (ha : DEBOUNCE_DELAY_MS ≤ sub32 t g.last_button_interrupt_time) :
    (g.menu_index = 0 → g.current_set_param = 0 →
      (button_callback_rnd round32 g BUTTON_NEXT e t).etileno_lower =
        round32 (g.etileno_lower + 13421773 / 134217728) ∧
      (button_callback_rnd round32 g BUTTON_BACK e t).etileno_lower =
        round32 (g.etileno_lower - 13421773 / 134217728)) ∧
    (g.menu_index = 0 → g.current_set_param ≠ 0 →
      (button_callback_rnd round32 g BUTTON_NEXT e t).etileno_upper =
        round32 (g.etileno_upper + 13421773 / 134217728) ∧
      (button_callback_rnd round32 g BUTTON_BACK e t).etileno_upper =
        round32 (g.etileno_upper - 13421773 / 134217728)) ∧
    (g.menu_index = 1 → g.current_set_param = 0 →
      (button_callback_rnd round32 g BUTTON_NEXT e t).temp_lower =
        round32 (g.temp_lower + 1 / 2) ∧
      (button_callback_rnd round32 g BUTTON_BACK e t).temp_lower =
        round32 (g.temp_lower - 1 / 2)) ∧
    (g.menu_index = 1 → g.current_set_param ≠ 0 →
      (button_callback_rnd round32 g BUTTON_NEXT e t).temp_upper =
        round32 (g.temp_upper + 1 / 2) ∧
      (button_callback_rnd round32 g BUTTON_BACK e t).temp_upper =
        round32 (g.temp_upper - 1 / 2)) ∧
    (g.menu_index = 2 →
      (button_callback_rnd round32 g BUTTON_NEXT e t).umidade_set =
        round32 (g.umidade_set + 1) ∧
      (button_callback_rnd round32 g BUTTON_BACK e t).umidade_set =
        round32 (g.umidade_set - 1)) ∧
    (g.menu_index = 3 →
      (button_callback_rnd round32 g BUTTON_NEXT e t).co2_set = round32 (g.co2_set + 50) ∧
      (button_callback_rnd round32 g BUTTON_BACK e t).co2_set = round32 (g.co2_set - 50)) ∧
    (∀ n : Nat, 1 ≤ n → n + 1 < 2 ^ 24 →
      (g.menu_index = 1 → g.current_set_param = 0 → g.temp_lower = (n : ℚ) / 2 →
        (button_callback_rnd round32 g BUTTON_NEXT e t).temp_lower = g.temp_lower + 1 / 2 ∧
        (button_callback_rnd round32 g BUTTON_BACK e t).temp_lower = g.temp_lower - 1 / 2) ∧
      (g.menu_index = 1 → g.current_set_param ≠ 0 → g.temp_upper = (n : ℚ) / 2 →
        (button_callback_rnd round32 g BUTTON_NEXT e t).temp_upper = g.temp_upper + 1 / 2 ∧
        (button_callback_rnd round32 g BUTTON_BACK e t).temp_upper = g.temp_upper - 1 / 2) ∧
      (g.menu_index = 2 → n + 1 < 2 ^ 23 → g.umidade_set = (n : ℚ) →
        (button_callback_rnd round32 g BUTTON_NEXT e t).umidade_set = g.umidade_set + 1 ∧
        (button_callback_rnd round32 g BUTTON_BACK e t).umidade_set = g.umidade_set - 1) ∧
      (g.menu_index = 3 → 50 ≤ n → n + 50 < 2 ^ 23 → g.co2_set = (n : ℚ) →
        (button_callback_rnd round32 g BUTTON_NEXT e t).co2_set = g.co2_set + 50 ∧
        (button_callback_rnd round32 g BUTTON_BACK e t).co2_set = g.co2_set - 50)) := by
  obtain ⟨c10, c2, c1, c50⟩ := step_literals
  rw [button_callback_rnd_set_mode_next round32 g e t hmode hf ha,
    button_callback_rnd_set_mode_back round32 g e t hmode hf ha, c10, c2, c1, c50]
  refine ⟨?_, ?_, ?_, ?_, ?_, ?_, ?_⟩
  · intro h0 hp; simp [h0, hp]
  · intro h0 hp; simp [h0, hp]
  · intro h0 hp; simp [h0, hp]
  · intro h0 hp; simp [h0, hp]
  · intro h0; simp [h0]
  · intro h0; simp [h0]
  · intro n hn1 hn
    have up : ∀ x : ℚ, x = (n : ℚ) / 2 → round32 (x + 1 / 2) = x + 1 / 2 := by
      intro x hx
      have e1 : x + 1 / 2 = ((n + 1 : Nat) : ℚ) / 2 := by rw [hx]; push_cast; ring
      rw [e1]
      exact round32_half _ hn
    have dn : ∀ x : ℚ, x = (n : ℚ) / 2 → round32 (x - 1 / 2) = x - 1 / 2 := by
      intro x hx
      have e1 : x - 1 / 2 = ((n - 1 : Nat) : ℚ) / 2 := by
        rw [hx, Nat.cast_sub hn1]; push_cast; ring
      rw [e1]
      exact round32_half _ (by omega)
    refine ⟨?_, ?_, ?_, ?_⟩
    · intro h0 hp hx
      simp only [h0, hp, if_true]
      norm_num
      exact ⟨up _ hx, dn _ hx⟩
    · intro h0 hp hx
      simp only [h0, hp, if_false, if_true]
      norm_num
      exact ⟨up _ hx, dn _ hx⟩
    · intro h0 hn2 hx
      have e1 : g.umidade_set + 1 = ((n + 1 : Nat) : ℚ) := by rw [hx]; push_cast; ring
      have e2 : g.umidade_set - 1 = ((n - 1 : Nat) : ℚ) := by
        rw [hx, Nat.cast_sub hn1]; push_cast; ring
      simp only [h0]
      norm_num
      constructor
      · rw [e1]; exact round32_natCast _ (by omega)
      · rw [e2]; exact round32_natCast _ (by omega)
    · intro h0 h50 hn2 hx
      have e1 : g.co2_set + 50 = ((n + 50 : Nat) : ℚ) := by rw [hx]; push_cast; ring
      have e2 : g.co2_set - 50 = ((n - 50 : Nat) : ℚ) := by
        rw [hx, Nat.cast_sub h50]; push_cast; ring
      simp only [h0]
      norm_num
      constructor
      · rw [e1]; exact round32_natCast _ (by omega)
      · rw [e2]; exact round32_natCast _ (by omega)

/-- C4 amended, at concrete inputs: editing the lower Gas setpoint 3.0, Next stores
the rounding of `3 + 0.1f`; editing the upper Temperature setpoint 15 (`30 / 2`),
Next stores exactly 15.5 and Back exactly 14.5. -/
theorem setpoint_stepping_binary32_witness :
    (edge_fall 4 = true ∧ DEBOUNCE_DELAY_MS ≤ sub32 200 0) ∧
    (button_callback_rnd round32 { Globals.init with in_set_mode := true }
      BUTTON_NEXT 4 200).etileno_lower = round32 (3 + 13421773 / 134217728) ∧
    ((button_callback_rnd round32
        { Globals.init with menu_index := 1, in_set_mode := true, current_set_param := 1 }
        BUTTON_NEXT 4 200).temp_upper = 15 + 1 / 2 ∧
      (button_callback_rnd round32
        { Globals.init with menu_index := 1, in_set_mode := true, current_set_param := 1 }
        BUTTON_BACK 4 200).temp_upper = 15 - 1 / 2) :=
  ⟨⟨by decide, by decide⟩,
   ((setpoint_stepping_binary32 { Globals.init with in_set_mode := true } 4 200 rfl
      (by decide) (by decide)).1 rfl rfl).1,
   ((setpoint_stepping_binary32
      { Globals.init with menu_index := 1, in_set_mode := true, current_set_param := 1 }
      4 200 rfl (by decide) (by decide)).2.2.2.2.2.2 30 (by norm_num) (by norm_num)).2.1
      rfl (by decide) (by norm_num [Globals.init])⟩

/-! ## Motor levels in binary32 arithmetic -/

/-- The clamped `motor_pwm` with rounded operations, for a non-zero `max_error`. -/
theorem motor_pwm_rnd_of_ne_zero (rnd : ℚ → ℚ) (erro max_error : ℚ) (h : max_error ≠ 0) :
    motor_pwm_rnd rnd erro max_error =
      some (min (rnd (rnd (erro / max_error) * 255)) 255) := by
  unfold motor_pwm_rnd PWM_WRAP
  rw [if_neg h]
  split_ifs with h1
  · rw [min_eq_right (le_of_lt h1)]
  · rw [min_eq_left (not_lt.mp h1)]

/-- The level passed when the rounded `motor_pwm` is non-negative before the
clamp: its clamp to `[0, 255]`, truncated. -/
theorem motor_level_rnd_of_nonneg (rnd : ℚ → ℚ) (erro max_error : ℚ)
    (h : max_error ≠ 0) (h0 : 0 ≤ rnd (rnd (erro / max_error) * 255)) :
    (motor_pwm_rnd rnd erro max_error).bind float_to_uint16 =
      some ⌊max 0 (min (rnd (rnd (erro / max_error) * 255)) 255)⌋.toNat := by
  have h1 : 0 ≤ min (rnd (rnd (erro / max_error) * 255)) 255 := le_min h0 (by norm_num)
  rw [motor_pwm_rnd_of_ne_zero rnd erro max_error h, Option.some_bind,
    float_to_uint16_of_nonneg _ h1 (min_le_right _ _), max_eq_right h1]

/-- The calls with rounded operations on the Temperature view. -/
theorem pwm_calls_rnd_temp (rnd : ℚ → ℚ) (g : Globals) (m : Medidas)
    (h : g.menu_index = 1) :
    pwm_set_chan_level_calls_rnd rnd g m =
      if m.medida_temp ≥ g.temp_lower ∧ m.medida_temp ≤ g.temp_upper then
        [(R_LED_PIN, some 0), (B_LED_PIN, some 0)]
      else if m.medida_temp < g.temp_lower then
        [(R_LED_PIN, (motor_pwm_rnd rnd (rnd (g.temp_lower - m.medida_temp))
            g.temp_lower).bind float_to_uint16),
         (B_LED_PIN, some 0)]
      else
        [(B_LED_PIN, (motor_pwm_rnd rnd (rnd (m.medida_temp - g.temp_upper))
            10).bind float_to_uint16),
         (R_LED_PIN, some 0)] := by
  simp only [pwm_set_chan_level_calls_rnd, valor_medido, h]
  simp

/-- In binary32 the rounded `motor_pwm` of a non-negative difference and a
positive `max_error` is non-negative before the clamp. -/
theorem motor_pwm32_nonneg (d max_error : ℚ) (hd : 0 ≤ d) (hm : 0 < max_error) :
    0 ≤ round32 (round32 d / max_error) ∧
      0 ≤ round32 (round32 (round32 d / max_error) * 255) := by
  have h1 : 0 ≤ round32 d := round32_nonneg d hd
  have h2 : 0 ≤ round32 (round32 d / max_error) :=
    round32_nonneg _ (div_nonneg h1 (le_of_lt hm))
  exact ⟨h2, round32_nonneg _ (mul_nonneg h2 (by norm_num))⟩

/-! ## Temperature drive in binary32 arithmetic -/

/-- C11 fails: from the initial state, Next (Temperature view), Set, twenty Next
(lower setpoint 10 to 20), Set, ten Next (upper setpoint 15 to 20) and Set leave
the setpoints at 20 and 20 on the Temperature view.  With the raw sample 273 the
measured temperature is `11184811 / 4194304` (about 2.67), below the lower
setpoint; the level written on the heat output is 221, while
`clamp(((lower - v) / lower) * 255, 0, 255)` is about 220.9994 and truncates to
220. -/
theorem heat_level_counterexample :
    button_callback_rnd_seq round32 Globals.init
        ([(BUTTON_NEXT, 4, 200), (BUTTON_SET, 4, 400)] ++
          (List.range 20).map (fun i => (BUTTON_NEXT, 4, 600 + 200 * i)) ++
          [(BUTTON_SET, 4, 4600)] ++
          (List.range 10).map (fun i => (BUTTON_NEXT, 4, 4800 + 200 * i)) ++
          [(BUTTON_SET, 4, 6800)]) =
      { Globals.init with
        menu_index := 1, temp_lower := 20, temp_upper := 20, current_set_param := 1,
        last_button_interrupt_time := 6800 } ∧
    (amostra round32 0 273 0).medida_temp = 11184811 / 4194304 ∧
    pwm_set_chan_level_calls_rnd round32
        { Globals.init with
          menu_index := 1, temp_lower := 20, temp_upper := 20, current_set_param := 1,
          last_button_interrupt_time := 6800 }
        (amostra round32 0 273 0) =
      [(R_LED_PIN, some 221), (B_LED_PIN, some 0)] ∧
    ⌊max (0 : ℚ) (min ((20 - 11184811 / 4194304) / 20 * 255) 255)⌋.toNat = 220 := by
  refine ⟨by decide!, by decide!, by decide!, by decide!⟩

/-- C11 amended: on the Temperature view with `temp_lower ≤ temp_upper`, both
levels are 0 when the measured value is within the setpoints; below the lower
setpoint, for a non-negative measured value or a positive lower setpoint, the
heat level is `clamp(((lower - v) / lower) * 255, 0, 255)` with the difference,
the quotient and the product each rounded to binary32, truncated to an integer,
and the cool level is 0; above the upper setpoint the cool level is
`clamp(((v - upper) / 10) * 255, 0, 255)` computed in the same way, truncated,
and the heat level is 0. -/
theorem temperature_drive_binary32 (g : Globals) (m : Medidas)
    (hmenu : g.menu_index = 1) (hle : g.temp_lower ≤ g.temp_upper) :
    (g.temp_lower ≤ m.medida_temp ∧ m.medida_temp ≤ g.temp_upper →
      pwm_set_chan_level_calls_rnd round32 g m =
        [(R_LED_PIN, some 0), (B_LED_PIN, some 0)]) ∧
    (m.medida_temp < g.temp_lower → 0 ≤ m.medida_temp ∨ 0 < g.temp_lower →
      pwm_set_chan_level_calls_rnd round32 g m =
        [(R_LED_PIN, some ⌊max 0 (min (round32 (round32
            (round32 (g.temp_lower - m.medida_temp) / g.temp_lower) * 255)) 255)⌋.toNat),
         (B_LED_PIN, some 0)]) ∧
    (g.temp_upper < m.medida_temp →
      pwm_set_chan_level_calls_rnd round32 g m =
        [(B_LED_PIN, some ⌊max 0 (min (round32 (round32
            (round32 (m.medida_temp - g.temp_upper) / 10) * 255)) 255)⌋.toNat),
         (R_LED_PIN, some 0)]) := by
  rw [pwm_calls_rnd_temp round32 g m hmenu]
  refine ⟨?_, ?_, ?_⟩
  · rintro ⟨h1, h2⟩
    rw [if_pos ⟨h1, h2⟩]
  · intro h hpos
    have hl : 0 < g.temp_lower := by
      rcases hpos with h0 | h0
      · exact lt_of_le_of_lt h0 h
      · exact h0
    have hd : 0 ≤ g.temp_lower - m.medida_temp := by linarith
    rw [if_neg (fun hc => absurd hc.1 (not_le.mpr h)), if_pos h,
      motor_level_rnd_of_nonneg round32 _ _ (ne_of_gt hl) (motor_pwm32_nonneg _ _ hd hl).2]
  · intro h
    have hd : 0 ≤ m.medida_temp - g.temp_upper := by linarith
    rw [if_neg (fun hc => absurd hc.2 (not_le.mpr h)),
      if_neg (not_lt.mpr (le_trans hle (le_of_lt h))),
      motor_level_rnd_of_nonneg round32 _ _ (by norm_num)
        (motor_pwm32_nonneg _ _ hd (by norm_num)).2]

/-- C11 amended, at concrete inputs: with the initial setpoints 10 and 15 on the
Temperature view, the raw sample 273 (about 2.67 degrees) gives the heat level
186 and the cool level 0, and the raw sample 2048 (about 20 degrees) gives the
cool level 127 and the heat level 0. -/
theorem temperature_drive_binary32_witness :
    ({ Globals.init with menu_index := 1 } : Globals).temp_lower ≤
        ({ Globals.init with menu_index := 1 } : Globals).temp_upper ∧
    (amostra round32 0 273 0).medida_temp <
        ({ Globals.init with menu_index := 1 } : Globals).temp_lower ∧
    pwm_set_chan_level_calls_rnd round32 { Globals.init with menu_index := 1 }
        (amostra round32 0 273 0) =
      [(R_LED_PIN, some ⌊max 0 (min (round32 (round32
          (round32 (({ Globals.init with menu_index := 1 } : Globals).temp_lower -
              (amostra round32 0 273 0).medida_temp) /
            ({ Globals.init with menu_index := 1 } : Globals).temp_lower) * 255))
          255)⌋.toNat),
       (B_LED_PIN, some 0)] ∧
    pwm_set_chan_level_calls_rnd round32 { Globals.init with menu_index := 1 }
        (amostra round32 0 273 0) = [(R_LED_PIN, some 186), (B_LED_PIN, some 0)] ∧
    pwm_set_chan_level_calls_rnd round32 { Globals.init with menu_index := 1 }
        (amostra round32 0 2048 0) = [(B_LED_PIN, some 127), (R_LED_PIN, some 0)] :=
  ⟨by norm_num [Globals.init], by decide!,
   (temperature_drive_binary32 { Globals.init with menu_index := 1 }
      (amostra round32 0 273 0) rfl (by norm_num [Globals.init])).2.1 (by decide!)
      (Or.inr (by norm_num [Globals.init])),
   by decide!, by decide!⟩


/-! ## Heat branch on sensor values in binary32 arithmetic -/

/-- The rounding of a rational that is at least `2 ^ (-7)` is a multiple of
`2 ^ (-30)`. -/
theorem round32_multiple (x : ℚ) (hx : (2 : ℚ) ^ (-7 : ℤ) ≤ x) :
    ∃ n : Nat, round32 x = n * (2 : ℚ) ^ (-30 : ℤ) := by
  have h2 : (0 : ℚ) < 2 := by norm_num
  have h12 : (1 : ℚ) < 2 := by norm_num
  have hxpos : 0 < x := lt_of_lt_of_le (zpow_pos h2 _) hx
  obtain ⟨e, P, Q, hQ, hlo, hhi, hPQ, hr⟩ := round32_pos x hxpos
  have he : (-7 : ℤ) < e + 1 := (zpow_lt_zpow_iff_right₀ h12).mp (lt_of_le_of_lt hx hhi)
  have hmax : max e (-126) = e := max_eq_left (by omega)
  rw [hmax] at hr
  refine ⟨round_half_even P Q * 2 ^ (e - 23 + 30).toNat, ?_⟩
  rw [hr]
  have e1 : ((e - 23 + 30).toNat : ℤ) = e - 23 + 30 := Int.toNat_of_nonneg (by omega)
  have e2 : (2 : ℚ) ^ (e - 23) =
      (2 : ℚ) ^ ((e - 23 + 30).toNat : ℤ) * (2 : ℚ) ^ (-30 : ℤ) := by
    rw [e1, ← zpow_add₀ (by norm_num : (2 : ℚ) ≠ 0)]
    congr 1
    ring
  rw [e2, zpow_natCast]
  push_cast
  ring

/-- A measurement on the scale 40 is at most 40. -/
theorem medida_temp_le (adc : Int) (h0 : 0 ≤ adc) (h1 : adc ≤ 4095) :
    medida round32 adc 40 ≤ 40 := by
  have hfull : medida round32 4095 40 = 40 := by
    have := medida_full round32 round32_natCast 40 (by norm_num)
    simpa using this
  rcases eq_or_lt_of_le h1 with h | h
  · rw [h, hfull]
  · have := medida_strict_mono round32 round32_mono round32_natCast round32_grid 40
      (by norm_num) (by norm_num) adc 4095 h0 h le_rfl
    have h3 : medida round32 adc 40 < medida round32 4095 40 := by simpa using this
    rw [hfull] at h3
    exact le_of_lt h3

/-- In the heat branch on a sensor value, with a lower setpoint that is a finite
binary32 number, the rounded difference and the rounded quotient are strictly
positive. -/
theorem heat_quotient_pos (lower : ℚ) (adc : Int) (h0 : 0 ≤ adc) (h1 : adc ≤ 4095)
    (hrep : round32 lower = lower) (hfin : lower < 2 ^ 128)
    (hheat : medida round32 adc 40 < lower) :
    0 < round32 (lower - medida round32 adc 40) ∧
      0 < round32 (round32 (lower - medida round32 adc 40) / lower) := by
  have h2 : (0 : ℚ) < 2 := by norm_num
  have hv0 : 0 ≤ medida round32 adc 40 :=
    medida_nonneg round32 (Or.inl rfl) adc h0 40 (by norm_num)
  have hl : 0 < lower := lt_of_le_of_lt hv0 hheat
  have hone : round32 1 = 1 := by
    have := round32_natCast 1 (by norm_num)
    simpa using this
  have hmin : round32 ((2 : ℚ) ^ (-149 : ℤ)) = (2 : ℚ) ^ (-149 : ℤ) := by
    have := round32_exact 1 (-149) (by norm_num) (by norm_num)
    simpa using this
  have hkey : ∀ r : ℚ, (2 : ℚ) ^ (-149 : ℤ) * lower ≤ r → 0 < round32 (r / lower) := by
    intro r hr
    have h3 : (2 : ℚ) ^ (-149 : ℤ) ≤ r / lower := by rwa [le_div_iff₀ hl]
    have h4 := round32_mono _ _ (le_of_lt (zpow_pos h2 _)) h3
    rw [hmin] at h4
    exact lt_of_lt_of_le (zpow_pos h2 _) h4
  rcases eq_or_lt_of_le h0 with hz | hpos
  · subst hz
    have hv : medida round32 0 40 = 0 := medida_zero round32 round32_natCast 40
    rw [hv, sub_zero, hrep, div_self (ne_of_gt hl), hone]
    exact ⟨hl, by norm_num⟩
  · -- a non-zero raw sample
    have e7 : (2 : ℚ) ^ (-7 : ℤ) = 1 / 128 := by
      rw [zpow_neg, zpow_ofNat]
      norm_num
    have e30 : (2 : ℚ) ^ (-30 : ℤ) = 1 / 2 ^ 30 := by
      rw [zpow_neg, zpow_ofNat, one_div]
    have e149 : (2 : ℚ) ^ (-149 : ℤ) = 1 / 2 ^ 149 := by
      rw [zpow_neg, zpow_ofNat, one_div]
    have hadc : (1 : ℚ) ≤ (adc : ℚ) := by exact_mod_cast hpos
    have ha1 : 1 ≤ round32 (adc : ℚ) := by
      have := round32_mono 1 adc (by norm_num) hadc
      rwa [hone] at this
    have ha2 : round32 (1 / 4095) ≤ round32 (round32 (adc : ℚ) / 4095) :=
      round32_mono _ _ (by norm_num) (by
        apply div_le_div_of_nonneg_right ha1
        norm_num)
    have hc : (1 : ℚ) / 128 ≤ round32 (1 / 4095) * 40 := by decide!
    have hy : (2 : ℚ) ^ (-7 : ℤ) ≤ round32 (round32 (adc : ℚ) / 4095) * 40 := by
      rw [e7]
      linarith
    obtain ⟨nv, hnv⟩ := round32_multiple _ hy
    have hv7 : (2 : ℚ) ^ (-7 : ℤ) ≤ medida round32 adc 40 := by
      have h5 := round32_mono _ _ (le_of_lt (zpow_pos h2 _)) hy
      have h6 : round32 ((2 : ℚ) ^ (-7 : ℤ)) = (2 : ℚ) ^ (-7 : ℤ) := by
        have := round32_exact 1 (-7) (by norm_num) (by norm_num)
        simpa using this
      rw [h6] at h5
      exact h5
    obtain ⟨nl, hnl⟩ := round32_multiple lower (le_of_lt (lt_of_le_of_lt hv7 hheat))
    rw [hrep] at hnl
    have hvn : medida round32 adc 40 = nv * (2 : ℚ) ^ (-30 : ℤ) := hnv
    have hc30 : (0 : ℚ) < (2 : ℚ) ^ (-30 : ℤ) := zpow_pos h2 _
    have hlt : (nv : ℚ) < nl := by
      rw [hvn, hnl] at hheat
      exact lt_of_mul_lt_mul_right hheat (le_of_lt hc30)
    have hlt2 : nv + 1 ≤ nl := by exact_mod_cast hlt
    have hlt3 : (nv : ℚ) + 1 ≤ nl := by exact_mod_cast hlt2
    have hd30 : (2 : ℚ) ^ (-30 : ℤ) ≤ lower - medida round32 adc 40 := by
      rw [hvn, hnl]
      nlinarith
    have hr30 : (2 : ℚ) ^ (-30 : ℤ) ≤ round32 (lower - medida round32 adc 40) := by
      have h5 := round32_mono _ _ (le_of_lt hc30) hd30
      have h6 : round32 ((2 : ℚ) ^ (-30 : ℤ)) = (2 : ℚ) ^ (-30 : ℤ) := by
        have := round32_exact 1 (-30) (by norm_num) (by norm_num)
        simpa using this
      rwa [h6] at h5
    refine ⟨lt_of_lt_of_le hc30 hr30, hkey _ ?_⟩
    have hp149 : (0 : ℚ) < 1 / 2 ^ 149 := by positivity
    rcases lt_or_le lower 80 with hs | hs
    · calc (2 : ℚ) ^ (-149 : ℤ) * lower ≤ (2 : ℚ) ^ (-149 : ℤ) * 80 :=
            mul_le_mul_of_nonneg_left (le_of_lt hs) (le_of_lt (zpow_pos h2 _))
        _ ≤ (2 : ℚ) ^ (-30 : ℤ) := by
            rw [e149, e30]
            norm_num
        _ ≤ _ := hr30
    · have hv40 := medida_temp_le adc h0 h1
      have hd40 : (40 : ℚ) ≤ lower - medida round32 adc 40 := by linarith
      have h40 : round32 40 = 40 := by
        have := round32_natCast 40 (by norm_num)
        simpa using this
      have hr40 := round32_mono _ _ (by norm_num) hd40
      rw [h40] at hr40
      calc (2 : ℚ) ^ (-149 : ℤ) * lower ≤ (2 : ℚ) ^ (-149 : ℤ) * 2 ^ 128 :=
            mul_le_mul_of_nonneg_left (le_of_lt hfin) (le_of_lt (zpow_pos h2 _))
        _ ≤ 40 := by
            rw [e149]
            norm_num
        _ ≤ _ := hr40

/-- C24: on the Temperature view, for a measured temperature `v ≥ 0` and any
setpoints, when the heat branch `v < temp_lower` is taken the divisor
`temp_lower` is strictly positive and the ratio `(temp_lower - v) / temp_lower`
lies in `(0, 1]`; in binary32 the rounded quotient and the rounded `motor_pwm`
are non-negative, so the conversion to `uint16_t` is defined without a lower
clamp and the heat level written is the truncation of `min motor_pwm 255`, in
`0..255`.  When `temp_lower` is a binary32 number the rounded quotient is at
most 1 and `motor_pwm` at most 255, so the upper clamp does not act either;
when moreover `temp_lower < 2 ^ 128` and `v` is the measurement of a raw sample
in `0..4095`, the rounded difference and quotient are strictly positive.  The
sampler produces a non-negative temperature from every non-negative raw
sample. -/
theorem heat_division_safe_binary32 (g : Globals) (m : Medidas)
    (hmenu : g.menu_index = 1) (hv : 0 ≤ m.medida_temp)
    (hheat : m.medida_temp < g.temp_lower) :
    0 < g.temp_lower ∧
    (0 < (g.temp_lower - m.medida_temp) / g.temp_lower ∧
      (g.temp_lower - m.medida_temp) / g.temp_lower ≤ 1) ∧
    (0 ≤ round32 (round32 (g.temp_lower - m.medida_temp) / g.temp_lower) ∧
      0 ≤ round32 (round32 (round32 (g.temp_lower - m.medida_temp) / g.temp_lower) *
        255)) ∧
    (pwm_set_chan_level_calls_rnd round32 g m =
        [(R_LED_PIN, some ⌊min (round32 (round32
            (round32 (g.temp_lower - m.medida_temp) / g.temp_lower) * 255)) 255⌋.toNat),
         (B_LED_PIN, some 0)] ∧
      ⌊min (round32 (round32
          (round32 (g.temp_lower - m.medida_temp) / g.temp_lower) * 255)) 255⌋.toNat ≤
        255) ∧
    (round32 g.temp_lower = g.temp_lower →
      round32 (round32 (g.temp_lower - m.medida_temp) / g.temp_lower) ≤ 1 ∧
      round32 (round32 (round32 (g.temp_lower - m.medida_temp) / g.temp_lower) * 255) ≤
        255 ∧
      motor_pwm_rnd round32 (round32 (g.temp_lower - m.medida_temp)) g.temp_lower =
        some (round32 (round32 (round32 (g.temp_lower - m.medida_temp) / g.temp_lower) *
          255))) ∧
    (round32 g.temp_lower = g.temp_lower → g.temp_lower < 2 ^ 128 →
      ∀ adc : Int, 0 ≤ adc → adc ≤ 4095 → m.medida_temp = medida round32 adc 40 →
        0 < round32 (g.temp_lower - m.medida_temp) ∧
        0 < round32 (round32 (g.temp_lower - m.medida_temp) / g.temp_lower)) ∧
    (∀ a1 a2 a3 : Int, 0 ≤ a2 → 0 ≤ (amostra round32 a1 a2 a3).medida_temp) := by
  have hl : 0 < g.temp_lower := lt_of_le_of_lt hv hheat
  have hd : 0 ≤ g.temp_lower - m.medida_temp := by linarith
  have hdl : g.temp_lower - m.medida_temp ≤ g.temp_lower := by linarith
  obtain ⟨hq0, hp0⟩ := motor_pwm32_nonneg (g.temp_lower - m.medida_temp) g.temp_lower hd hl
  have hr0 : 0 ≤ round32 (g.temp_lower - m.medida_temp) := round32_nonneg _ hd
  have hmin0 : 0 ≤ min (round32 (round32
      (round32 (g.temp_lower - m.medida_temp) / g.temp_lower) * 255)) 255 :=
    le_min hp0 (by norm_num)
  refine ⟨hl, ⟨div_pos (by linarith) hl, (div_le_one hl).mpr hdl⟩, ⟨hq0, hp0⟩, ⟨?_, ?_⟩,
    ?_, ?_, ?_⟩
  · rw [pwm_calls_rnd_temp round32 g m hmenu,
      if_neg (fun hc => absurd hc.1 (not_le.mpr hheat)), if_pos hheat,
      motor_pwm_rnd_of_ne_zero round32 _ _ (ne_of_gt hl), Option.some_bind,
      float_to_uint16_of_nonneg _ hmin0 (min_le_right _ _)]
  · have h1 : ⌊min (round32 (round32
        (round32 (g.temp_lower - m.medida_temp) / g.temp_lower) * 255)) 255⌋ < 256 := by
      rw [Int.floor_lt]
      exact lt_of_le_of_lt (min_le_right _ _) (by norm_num)
    omega
  · intro hrep
    have h1 : round32 (g.temp_lower - m.medida_temp) ≤ g.temp_lower := by
      have := round32_mono _ _ hd hdl
      rwa [hrep] at this
    have hone : round32 1 = 1 := by
      have := round32_natCast 1 (by norm_num)
      simpa using this
    have h255 : round32 255 = 255 := by
      have := round32_natCast 255 (by norm_num)
      simpa using this
    have h2 : round32 (round32 (g.temp_lower - m.medida_temp) / g.temp_lower) ≤ 1 := by
      have := round32_mono _ _ (div_nonneg hr0 (le_of_lt hl)) ((div_le_one hl).mpr h1)
      rwa [hone] at this
    have h3 : round32 (round32 (round32 (g.temp_lower - m.medida_temp) / g.temp_lower) *
        255) ≤ 255 := by
      have := round32_mono
        (round32 (round32 (g.temp_lower - m.medida_temp) / g.temp_lower) * 255) 255
        (mul_nonneg hq0 (by norm_num)) (by linarith)
      rwa [h255] at this
    refine ⟨h2, h3, ?_⟩
    rw [motor_pwm_rnd_of_ne_zero round32 _ _ (ne_of_gt hl), min_eq_left h3]
  · intro hrep hfin adc h0 h1 hm
    rw [hm] at hheat ⊢
    exact heat_quotient_pos g.temp_lower adc h0 h1 hrep hfin hheat
  · intro a1 a2 a3 h
    exact medida_nonneg round32 (Or.inl rfl) a2 h 40 (by norm_num)

/-- C24 at concrete inputs: with the initial setpoints on the Temperature view
and the raw sample 273, the measured temperature is between 0 and the lower
setpoint 10, the divisor is positive and the heat level written is 186. -/
theorem heat_division_safe_binary32_witness :
    (({ Globals.init with menu_index := 1 } : Globals).menu_index = 1 ∧
      0 ≤ (amostra round32 0 273 0).medida_temp ∧
      (amostra round32 0 273 0).medida_temp <
        ({ Globals.init with menu_index := 1 } : Globals).temp_lower) ∧
    0 < ({ Globals.init with menu_index := 1 } : Globals).temp_lower ∧
    pwm_set_chan_level_calls_rnd round32 { Globals.init with menu_index := 1 }
        (amostra round32 0 273 0) = [(R_LED_PIN, some 186), (B_LED_PIN, some 0)] :=
  ⟨⟨rfl, by decide!, by decide!⟩,
   (heat_division_safe_binary32 { Globals.init with menu_index := 1 }
      (amostra round32 0 273 0) rfl (by decide!) (by decide!)).1,
   by decide!⟩

end ProjetoFinal
